import Mathlib

/-!
# Barrelfish kernel system calls (kernel/syscall.c)

A shallow embedding of the arch-generic system-call layer.  Kernel state is
passed explicitly; pointers are natural numbers; every function that can
run into undefined behaviour in C (a dereference of a pointer that denotes
no object) returns in `Except Abort`.

Functions of the kernel that kernel/syscall.c calls but does not define
(capability lookup, `is_copy`, the copy and revoke algorithms, the
scheduler) are parameters of the definitions that use them, so every
theorem holds for each implementation of them.
-/

namespace Barrelfish

/-! ## Error values -/

/-- Error codes that kernel/syscall.c names, and `helper n` for the codes
raised inside functions defined elsewhere in the kernel. -/
inductive err_code
  | SYS_ERR_ILLEGAL_DEST_TYPE
  | SYS_ERR_SOURCE_CAP_LOOKUP
  | SYS_ERR_DEST_CNODE_LOOKUP
  | SYS_ERR_DEST_CNODE_INVALID
  | SYS_ERR_DEST_TYPE_INVALID
  | SYS_ERR_SLOTS_IN_USE
  | SYS_ERR_SLOT_IN_USE
  | SYS_ERR_SLOTS_INVALID
  | SYS_ERR_TYPE_NOT_CREATABLE
  | SYS_ERR_IDENTIFY_LOOKUP
  | SYS_ERR_ROOT_CAP_LOOKUP
  | SYS_ERR_CAP_LOCKED
  | SYS_ERR_DISP_CSPACE_ROOT
  | SYS_ERR_DISP_CSPACE_INVALID
  | SYS_ERR_DISP_VSPACE_ROOT
  | SYS_ERR_DISP_VSPACE_INVALID
  | SYS_ERR_DISP_FRAME
  | SYS_ERR_DISP_FRAME_INVALID
  | SYS_ERR_DISP_NOT_RUNNABLE
  | SYS_ERR_DISP_OCAP_LOOKUP
  | SYS_ERR_CALLER_ENABLED
  | SYS_ERR_INVALID_YIELD_TARGET
  | helper (n : Nat)
  deriving DecidableEq, Repr

/-- Modelled from the spec: the error type `errval_t` (declared in the
generated errno header, absent here).  Errors are "tagged values carrying
enough context (which stage failed)": a stack of codes, the most recent
first; the empty stack is success. -/
abbrev errval_t := List err_code

/-- Modelled from the spec: the success value. -/
def SYS_ERR_OK : errval_t := []

/-- Modelled from the spec: `err_push` puts the code of the failing stage on
top of the error it was caused by. -/
def err_push (err : errval_t) (code : err_code) : errval_t := code :: err

/-- Modelled from the spec: an error value is a failure unless it is
`SYS_ERR_OK`. -/
def err_is_fail (err : errval_t) : Bool := !err.isEmpty

/-- Result of a system call: `struct sysret`. -/
structure sysret where
  error : errval_t
  value : Nat
  deriving DecidableEq, Repr

/-- The macro `SYSRET(e)`: an error value with result value 0. -/
def SYSRET (e : errval_t) : sysret := { error := e, value := 0 }

/-- Ways in which the C code leaves defined behaviour. -/
inductive Abort
  | null_deref
  | bad_pointer
  | assert_failed
  | undefined_shift
  | out_of_fuel
  deriving DecidableEq, Repr

deriving instance DecidableEq for Except

/-! ## Capabilities and capability table entries -/

/-- Object types that kernel/syscall.c names; `ObjType_Other n` stands for
the remaining members of the generated enumeration. -/
inductive objtype
  | ObjType_Null
  | ObjType_CNode
  | ObjType_Frame
  | ObjType_Dispatcher
  | ObjType_EndPoint
  | ObjType_ID
  | ObjType_VNode_x86_64_pml4
  | ObjType_VNode_x86_32_pdpt
  | ObjType_VNode_x86_32_pdir
  | ObjType_VNode_ARM_l1
  | ObjType_Other (n : Nat)
  deriving DecidableEq, Repr

/-- The fields of `struct capability` that kernel/syscall.c reads.  The C
union is flattened: `base` is `u.frame.base` and `u.vnode_*.base`, `cnode` and
`bits` are `u.cnode.cnode` and `u.cnode.bits`, `dcb` is `u.dispatcher.dcb`
and `u.endpoint.listener`, `coreid` and `core_local_id` are the fields of
`u.id`. -/
structure capability where
  type : objtype
  base : Nat
  cnode : Nat
  bits : Nat
  dcb : Nat
  coreid : Nat
  core_local_id : Nat
  deriving DecidableEq, Repr

/-- The fields of `struct mdbnode` that kernel/syscall.c reads or writes
(the tree links are represented by the position in the MDB order). -/
structure mdbnode where
  owner : Nat
  locked : Bool
  deriving DecidableEq, Repr

/-- A capability table entry, `struct cte`. -/
structure cte where
  cap : capability
  mdbnode : mdbnode
  deriving DecidableEq, Repr

/-- Rights masks passed to the lookup functions. -/
inductive CapRights
  | CAPRIGHTS_NORIGHTS
  | CAPRIGHTS_READ
  | CAPRIGHTS_WRITE
  | CAPRIGHTS_READ_WRITE
  deriving DecidableEq, Repr

/-- The null capability address. -/
def CPTR_NULL : Nat := 0

/-- Width of a capability address in bits. -/
def CPTR_BITS : Nat := 32

/-! ## The mapping database: ownership and locking -/

/-- Modelled from the spec: the mapping database (mdb/mdb_tree.h, not
defined in kernel/syscall.c) is "a globally ordered structure over all CTEs
on a core ... supporting predecessor/successor traversal".  It is the list
of its entries in MDB order, and a `struct cte *` into it is a position. -/
abbrev MDB := List cte

/-- Modelled from the spec: `mdb_predecessor` yields the entry before `p`
in MDB order, and no entry (the null pointer) for the first one. -/
def mdb_predecessor (_m : MDB) (p : Nat) : Option Nat :=
  if p = 0 then none else some (p - 1)

/-- Modelled from the spec: `mdb_successor` yields the entry after `p` in
MDB order, and no entry (the null pointer) for the last one. -/
def mdb_successor (m : MDB) (p : Nat) : Option Nat :=
  if p + 1 < m.length then some (p + 1) else none

/-- The assignment `p->mdbnode.owner = owner`. -/
def write_owner (owner : Nat) (e : cte) : cte :=
  { e with mdbnode := { e.mdbnode with owner := owner } }

/-- The assignment `p->mdbnode.locked = lock`. -/
def write_locked (lock : Bool) (e : cte) : cte :=
  { e with mdbnode := { e.mdbnode with locked := lock } }

/-- The part of the kernel state that the ownership and locking system
calls use: the MDB and `dcb_current->cspace.cap`, the root of the
caller's CSpace. -/
structure CapState where
  mdb : MDB
  cspace_root : capability
  deriving DecidableEq, Repr

/-- The test `is_copy(&a->cap, &b->cap)` on two positions of the MDB (false
when one of them is no entry). -/
def copy_at (is_copy : capability → capability → Bool) (m : MDB) (a b : Nat) : Bool :=
  match m[a]?, m[b]? with
  | some x, some y => is_copy x.cap y.cap
  | _, _ => false

/-- All copies of one object are contiguous in MDB order: whenever an entry
is a copy of another one, so is every entry between the two. -/
def copies_contiguous (is_copy : capability → capability → Bool) (m : MDB) : Prop :=
  ∀ k, k < m.length → ∀ j, j < k → ∀ i, i < j →
    (copy_at is_copy m i k = true → copy_at is_copy m j k = true) ∧
    (copy_at is_copy m k i = true → copy_at is_copy m j i = true)

instance (is_copy : capability → capability → Bool) (m : MDB) :
    Decidable (copies_contiguous is_copy m) := by
  unfold copies_contiguous; infer_instance

/-- The class invariant of the `locked` flag, "propagated to ... the full
copy-equivalence class of a capability": whenever an entry is a copy of
another one, the two carry the same `locked` flag. -/
def locks_consistent (is_copy : capability → capability → Bool) (m : MDB) : Prop :=
  ∀ i, i < m.length → ∀ j, j < m.length → copy_at is_copy m i j = true →
    Option.map (fun e => e.mdbnode.locked) (m[i]?)
      = Option.map (fun e => e.mdbnode.locked) (m[j]?)

instance (is_copy : capability → capability → Bool) (m : MDB) :
    Decidable (locks_consistent is_copy m) := by
  unfold locks_consistent; infer_instance

section OwnerLock

variable (is_copy : capability → capability → Bool)
variable (caps_lookup_slot : MDB → capability → Nat → Nat → CapRights → Except errval_t Nat)
variable (caps_lookup_cap : MDB → capability → Nat → Nat → CapRights → Except errval_t capability)

/-- The loop that `sys_set_cap_owner` and `sys_lock_cap_common` each run
twice, once with `mdb_predecessor` and once with `mdb_successor`:

    struct cte *p = cte;
    do { write(p); p = next(p); } while (is_copy(&p->cap, &cte->cap));

The loop condition reads through `p` without a null test, so it is a null
dereference when `next` yields no entry.  Every iteration moves to another
entry; `fuel` bounds the number of iterations. -/
def copy_walk (next : MDB → Nat → Option Nat) (write : cte → cte) (cte : Nat) :
    Nat → Nat → MDB → Except Abort MDB
  | 0, _, _ => .error .out_of_fuel
  | fuel + 1, p, m =>
    match m[p]? with
    | none => .error .bad_pointer
    | some e =>
      let m1 := m.set p (write e)
      match next m1 p with
      | none => .error .null_deref
      | some q =>
        match m1[q]?, m1[cte]? with
        | some eq, some ec =>
          if is_copy eq.cap ec.cap then copy_walk next write cte fuel q m1 else .ok m1
        | _, _ => .error .bad_pointer

/-- The system call `sys_get_cap_owner`. -/
def sys_get_cap_owner (s : CapState) (cptr bits : Nat) : Except Abort (sysret × CapState) :=
  let root := s.cspace_root
  match caps_lookup_slot s.mdb root cptr bits .CAPRIGHTS_NORIGHTS with
  | .error err => .ok (SYSRET (err_push err .SYS_ERR_IDENTIFY_LOOKUP), s)
  | .ok cte =>
    match s.mdb[cte]? with
    | none => .error .bad_pointer
    | some e => .ok ({ error := SYS_ERR_OK, value := e.mdbnode.owner }, s)

/-- The system call `sys_set_cap_owner`.  `owner` is a `coreid_t`. -/
def sys_set_cap_owner (s : CapState) (cptr bits owner : Nat) :
    Except Abort (sysret × CapState) :=
  let root := s.cspace_root
  match caps_lookup_slot s.mdb root cptr bits .CAPRIGHTS_NORIGHTS with
  | .error err => .ok (SYSRET (err_push err .SYS_ERR_IDENTIFY_LOOKUP), s)
  | .ok cte =>
    match s.mdb[cte]? with
    | none => .error .bad_pointer
    | some e =>
      let m0 := s.mdb.set cte (write_owner owner e)
      match copy_walk is_copy mdb_predecessor (write_owner owner) cte m0.length cte m0 with
      | .error a => .error a
      | .ok m1 =>
        match copy_walk is_copy mdb_successor (write_owner owner) cte m1.length cte m1 with
        | .error a => .error a
        | .ok m2 => .ok (SYSRET SYS_ERR_OK, { s with mdb := m2 })

/-- The helper `sys_lock_cap_common`. -/
def sys_lock_cap_common (m : MDB) (cte : Nat) (lock : Bool) : Except Abort MDB :=
  match copy_walk is_copy mdb_predecessor (write_locked lock) cte m.length cte m with
  | .error a => .error a
  | .ok m1 => copy_walk is_copy mdb_successor (write_locked lock) cte m1.length cte m1

/-- The helper `sys_double_lookup`: the root is itself given by an address
in the caller's CSpace.  `rptr` is a 32-bit `capaddr_t`; the shift
`rptr >>= (CPTR_BITS-rbits)` is undefined in C unless the count is in
0..31. -/
def sys_double_lookup (s : CapState) (rptr rbits tptr tbits : Nat) :
    Except Abort (Except errval_t Nat) :=
  if rbits = 0 ∨ CPTR_BITS < rbits then .error .undefined_shift
  else
    let rptr1 := rptr >>> (CPTR_BITS - rbits)
    match caps_lookup_cap s.mdb s.cspace_root rptr1 rbits .CAPRIGHTS_READ with
    | .error err => .ok (.error (err_push err .SYS_ERR_ROOT_CAP_LOOKUP))
    | .ok root =>
      match caps_lookup_slot s.mdb root tptr tbits .CAPRIGHTS_READ with
      | .error err => .ok (.error (err_push err .SYS_ERR_IDENTIFY_LOOKUP))
      | .ok cte => .ok (.ok cte)

/-- The system call `sys_lock_cap`. -/
def sys_lock_cap (s : CapState) (root_addr root_bits target_addr target_bits : Nat) :
    Except Abort (sysret × CapState) :=
  match sys_double_lookup caps_lookup_slot caps_lookup_cap s
      root_addr root_bits target_addr target_bits with
  | .error a => .error a
  | .ok (.error err) => .ok (SYSRET err, s)
  | .ok (.ok target) =>
    match s.mdb[target]? with
    | none => .error .bad_pointer
    | some e =>
      if e.mdbnode.locked then .ok (SYSRET [.SYS_ERR_CAP_LOCKED], s)
      else
        match sys_lock_cap_common is_copy s.mdb target true with
        | .error a => .error a
        | .ok m => .ok (SYSRET SYS_ERR_OK, { s with mdb := m })

/-- The system call `sys_unlock_cap`. -/
def sys_unlock_cap (s : CapState) (root_addr root_bits target_addr target_bits : Nat) :
    Except Abort (sysret × CapState) :=
  match sys_double_lookup caps_lookup_slot caps_lookup_cap s
      root_addr root_bits target_addr target_bits with
  | .error a => .error a
  | .ok (.error err) => .ok (SYSRET err, s)
  | .ok (.ok target) =>
    match sys_lock_cap_common is_copy s.mdb target false with
    | .error a => .error a
    | .ok m => .ok (SYSRET SYS_ERR_OK, { s with mdb := m })

end OwnerLock

/-! ### A concrete instance for evaluation -/

/-- Modelled from the spec: "two capabilities are a copy of each other iff
they denote the same underlying object identity (same type, same
base/region)". -/
def is_copy_spec (a b : capability) : Bool :=
  a.type = b.type && a.base = b.base && a.bits = b.bits

/-- A flat CSpace for evaluation: the address is the position in the MDB,
whatever the root, width and rights. -/
def flat_lookup_slot (m : MDB) (_root : capability) (cptr _bits : Nat) (_r : CapRights) :
    Except errval_t Nat :=
  if cptr < m.length then .ok cptr else .error [.helper 0]

/-- A flat CSpace for evaluation: every root address resolves to the root
itself. -/
def flat_lookup_cap (_m : MDB) (root : capability) (_cptr _bits : Nat) (_r : CapRights) :
    Except errval_t capability :=
  .ok root

/-- A frame capability with the given base, for evaluation. -/
def frame_cap (base : Nat) : capability :=
  { type := .ObjType_Frame, base := base, cnode := 0, bits := 12, dcb := 0,
    coreid := 0, core_local_id := 0 }

/-- A CNode capability, for evaluation. -/
def cnode_cap (cnode bits : Nat) : capability :=
  { type := .ObjType_CNode, base := 0, cnode := cnode, bits := bits, dcb := 0,
    coreid := 0, core_local_id := 0 }

/-- An entry holding `c`, owned by core `owner`. -/
def mk_cte (c : capability) (owner : Nat) (locked : Bool) : cte :=
  { cap := c, mdbnode := { owner := owner, locked := locked } }

/-- An MDB with two copies of frame 1 between a frame 0 and a frame 2. -/
def mdb_inner : CapState :=
  { mdb := [mk_cte (frame_cap 0) 0 false, mk_cte (frame_cap 1) 0 false,
            mk_cte (frame_cap 1) 0 false, mk_cte (frame_cap 2) 0 false],
    cspace_root := cnode_cap 0 8 }

/-- The state of `mdb_inner` after core 5 has become the owner of frame 1. -/
def mdb_inner_owned : CapState :=
  { mdb := [mk_cte (frame_cap 0) 0 false, mk_cte (frame_cap 1) 5 false,
            mk_cte (frame_cap 1) 5 false, mk_cte (frame_cap 2) 0 false],
    cspace_root := cnode_cap 0 8 }

/-- The state of `mdb_inner` after frame 1 has been locked. -/
def mdb_inner_locked : CapState :=
  { mdb := [mk_cte (frame_cap 0) 0 false, mk_cte (frame_cap 1) 0 true,
            mk_cte (frame_cap 1) 0 true, mk_cte (frame_cap 2) 0 false],
    cspace_root := cnode_cap 0 8 }

/-- An MDB whose only entry is a frame. -/
def mdb_single : CapState :=
  { mdb := [mk_cte (frame_cap 1) 0 false], cspace_root := cnode_cap 0 8 }

/-! ## Dispatcher control blocks -/

/-- The fields of `struct dcb` that `sys_dispatcher_setup` reads or writes.
`next_all` is the link of the global list `dcbs_list`; `none` is the null
pointer. -/
structure dcb where
  cspace : cte
  vspace : Nat
  disp : Nat
  disp_cte : cte
  disabled : Bool
  domain_id : Nat
  is_vm_guest : Bool
  next_all : Option Nat
  deriving DecidableEq, Repr

/-- Calls that `sys_dispatcher_setup` makes into the scheduler and the
tracing subsystem, both defined elsewhere. -/
inductive Event
  | make_runnable (dcb : Nat)
  | trace_write_event (dcb : Nat) (disp : Nat)
  deriving DecidableEq, Repr

/-- The part of the kernel state that `sys_dispatcher_setup` uses: the
DCBs (a `struct dcb *` is a position in `dcbs`), the global `dcbs_list`,
`dcb_current`, and the calls made so far, the most recent first. -/
structure DispState where
  dcbs : List dcb
  dcbs_list : Option Nat
  dcb_current : Nat
  events : List Event
  deriving DecidableEq, Repr

/-- Control flow inside `sys_dispatcher_setup`: undefined behaviour, an early
`return`, or falling through to the next stage with the local variable
`err`. -/
inductive Flow
  | abort (a : Abort)
  | ret (r : sysret) (s : DispState)
  | cont (err : errval_t) (s : DispState)
  deriving DecidableEq, Repr

/-- Sequencing of two stages. -/
def Flow.andThen (f : Flow) (k : errval_t → DispState → Flow) : Flow :=
  match f with
  | .cont err s => k err s
  | .ret r s => .ret r s
  | .abort a => .abort a

/-- The capability `dcb_current->cspace.cap`. -/
def DispState.current_root (s : DispState) : Option capability :=
  (s.dcbs[s.dcb_current]?).map (fun d => d.cspace.cap)

/-- The test of the run stage: the dispatcher cannot be made runnable. -/
def dcb.not_runnable (d : dcb) : Bool :=
  d.vspace == 0 ||
    (!d.is_vm_guest && (d.disp == 0 || d.cspace.cap.type != .ObjType_CNode))

section Dispatcher

variable (caps_lookup_slot : capability → Nat → Nat → CapRights → Except errval_t cte)
variable (caps_lookup_cap : capability → Nat → Nat → CapRights → Except errval_t capability)
variable (caps_copy_to_cte : cte → cte → Bool → Nat → Nat → errval_t × cte)
variable (gen_phys_to_local_phys : Nat → Nat)
variable (local_phys_to_mem : Nat → Nat)
variable (CONFIG_PAE : Bool)

/-- Stage 1 of `sys_dispatcher_setup`: set cspace root.  `caps_copy_to_cte`
writes the destination slot `dcb->cspace` in place and returns an error
value. -/
def setup_cspace (dcbp cptr depth : Nat) (err : errval_t) (s : DispState) : Flow :=
  if cptr ≠ CPTR_NULL then
    match s.current_root with
    | none => .abort .bad_pointer
    | some croot =>
      match caps_lookup_slot croot cptr depth .CAPRIGHTS_READ with
      | .error err => .ret (SYSRET (err_push err .SYS_ERR_DISP_CSPACE_ROOT)) s
      | .ok root =>
        let err := SYS_ERR_OK
        if root.cap.type ≠ .ObjType_CNode then
          .ret (SYSRET (err_push err .SYS_ERR_DISP_CSPACE_INVALID)) s
        else
          match s.dcbs[dcbp]? with
          | none => .abort .bad_pointer
          | some d =>
            let (err, c) := caps_copy_to_cte d.cspace root false 0 0
            let s1 := { s with dcbs := s.dcbs.set dcbp { d with cspace := c } }
            if err_is_fail err then
              .ret (SYSRET (err_push err .SYS_ERR_DISP_CSPACE_ROOT)) s1
            else .cont err s1
  else .cont err s

/-- The root page-table types that the `switch` of stage 2 accepts. -/
def vroot_supported (t : objtype) : Bool :=
  match t with
  | .ObjType_VNode_x86_64_pml4 => true
  | .ObjType_VNode_x86_32_pdpt => CONFIG_PAE
  | .ObjType_VNode_x86_32_pdir => !CONFIG_PAE
  | .ObjType_VNode_ARM_l1 => true
  | _ => false

/-- Stage 2 of `sys_dispatcher_setup`: set vspace root. -/
def setup_vspace (dcbp vptr : Nat) (err : errval_t) (s : DispState) : Flow :=
  if vptr ≠ CPTR_NULL then
    match s.current_root with
    | none => .abort .bad_pointer
    | some croot =>
      match caps_lookup_cap croot vptr CPTR_BITS .CAPRIGHTS_WRITE with
      | .error err => .ret (SYSRET (err_push err .SYS_ERR_DISP_VSPACE_ROOT)) s
      | .ok vroot =>
        let err := SYS_ERR_OK
        if vroot_supported CONFIG_PAE vroot.type then
          match s.dcbs[dcbp]? with
          | none => .abort .bad_pointer
          | some d =>
            let d1 := { d with vspace := gen_phys_to_local_phys vroot.base }
            .cont err { s with dcbs := s.dcbs.set dcbp d1 }
        else .ret (SYSRET (err_push err .SYS_ERR_DISP_VSPACE_INVALID)) s
  else .cont err s

/-- Stage 3 of `sys_dispatcher_setup`: set dispatcher frame pointer. -/
def setup_frame (dcbp dptr : Nat) (err : errval_t) (s : DispState) : Flow :=
  if dptr ≠ CPTR_NULL then
    match s.current_root with
    | none => .abort .bad_pointer
    | some croot =>
      match caps_lookup_slot croot dptr CPTR_BITS .CAPRIGHTS_WRITE with
      | .error err => .ret (SYSRET (err_push err .SYS_ERR_DISP_FRAME)) s
      | .ok dispcte =>
        let err := SYS_ERR_OK
        if dispcte.cap.type ≠ .ObjType_Frame then
          .ret (SYSRET (err_push err .SYS_ERR_DISP_FRAME_INVALID)) s
        else
          match s.dcbs[dcbp]? with
          | none => .abort .bad_pointer
          | some d =>
            let lpaddr := gen_phys_to_local_phys dispcte.cap.base
            let (err, c) := caps_copy_to_cte d.disp_cte dispcte false 0 0
            if err_is_fail err then .abort .assert_failed
            else
              let d1 := { d with disp := local_phys_to_mem lpaddr, disp_cte := c }
              .cont err { s with dcbs := s.dcbs.set dcbp d1 }
  else .cont err s

/-- Stage 5 of `sys_dispatcher_setup`: make runnable if desired. -/
def setup_run (dcbp : Nat) (run : Bool) (err : errval_t) (s : DispState) : Flow :=
  if run then
    match s.dcbs[dcbp]? with
    | none => .abort .bad_pointer
    | some d =>
      if d.not_runnable then .ret (SYSRET (err_push err .SYS_ERR_DISP_NOT_RUNNABLE)) s
      else
        .cont err { s with dcbs := s.dcbs.set dcbp { d with disabled := true },
                           events := .make_runnable dcbp :: s.events }
  else .cont err s

/-- Stage 6 of `sys_dispatcher_setup`: copy domain ID off given dispatcher.
The capability is not tested for being a dispatcher; `u.dispatcher.dcb` is
followed as it is. -/
def setup_domain (dcbp odptr : Nat) (err : errval_t) (s : DispState) : Flow :=
  if odptr ≠ CPTR_NULL then
    match s.current_root with
    | none => .abort .bad_pointer
    | some croot =>
      match caps_lookup_cap croot odptr CPTR_BITS .CAPRIGHTS_READ_WRITE with
      | .error err => .ret (SYSRET (err_push err .SYS_ERR_DISP_OCAP_LOOKUP)) s
      | .ok odisp =>
        let err := SYS_ERR_OK
        match s.dcbs[odisp.dcb]?, s.dcbs[dcbp]? with
        | some od, some d =>
          .cont err { s with dcbs := s.dcbs.set dcbp { d with domain_id := od.domain_id } }
        | _, _ => .abort .bad_pointer
  else .cont err s

/-- Last part of `sys_dispatcher_setup`: remember the DCB in `dcbs_list`,
and for a dispatcher that is no VM guest write a trace event with the name
read through `dcb->disp`. -/
def setup_register (dcbp : Nat) (err : errval_t) (s : DispState) : Flow :=
  match s.dcbs[dcbp]? with
  | none => .abort .bad_pointer
  | some d =>
    let s1 :=
      if d.next_all = none then
        { s with dcbs := s.dcbs.set dcbp { d with next_all := s.dcbs_list },
                 dcbs_list := some dcbp }
      else s
    if !d.is_vm_guest then
      if d.disp = 0 then .abort .null_deref
      else .cont err { s1 with events := .trace_write_event dcbp d.disp :: s1.events }
    else .cont err s1

/-- Stages 1 to 3 of `sys_dispatcher_setup`: the requested installations. -/
def setup_install (s : DispState) (dcbp cptr depth vptr dptr : Nat) : Flow :=
  ((setup_cspace caps_lookup_slot caps_copy_to_cte dcbp cptr depth SYS_ERR_OK s).andThen
    (setup_vspace caps_lookup_cap gen_phys_to_local_phys CONFIG_PAE dcbp vptr)).andThen
    (setup_frame caps_lookup_slot caps_copy_to_cte gen_phys_to_local_phys local_phys_to_mem
      dcbp dptr)

/-- The system call `sys_dispatcher_setup`; `to_cap` is its argument `to`. -/
def sys_dispatcher_setup (s : DispState) (to_cap : capability) (cptr depth vptr dptr : Nat)
    (run : Bool) (odptr : Nat) : Except Abort (sysret × DispState) :=
  if to_cap.type ≠ .ObjType_Dispatcher then .error .assert_failed
  else
    let dcbp := to_cap.dcb
    match (((setup_install caps_lookup_slot caps_lookup_cap caps_copy_to_cte
        gen_phys_to_local_phys local_phys_to_mem CONFIG_PAE s dcbp cptr depth vptr dptr).andThen
        (setup_run dcbp run)).andThen
        (setup_domain caps_lookup_cap dcbp odptr)).andThen
        (setup_register dcbp) with
    | .abort a => .error a
    | .ret r s1 => .ok (r, s1)
    | .cont _ s1 => .ok (SYSRET SYS_ERR_OK, s1)

end Dispatcher

/-- Fields of the target DCB that are as before when only stages up to
number `k` of `sys_dispatcher_setup` have written to it. -/
def keeps (k : Nat) (d d1 : dcb) : Prop :=
  (k < 1 → d1.cspace = d.cspace) ∧ (k < 2 → d1.vspace = d.vspace) ∧
  (k < 3 → d1.disp = d.disp ∧ d1.disp_cte = d.disp_cte) ∧
  (k < 5 → d1.disabled = d.disabled) ∧ (k < 6 → d1.domain_id = d.domain_id) ∧
  d1.next_all = d.next_all ∧ d1.is_vm_guest = d.is_vm_guest

/-- The state `s1` differs from `s` by what stages up to number `k` of
`sys_dispatcher_setup` on the DCB at `dcbp` may have written. -/
def stage_rel (k dcbp : Nat) (s s1 : DispState) : Prop :=
  s1.dcbs_list = s.dcbs_list ∧ s1.dcb_current = s.dcb_current ∧
  s1.dcbs.length = s.dcbs.length ∧ (k < 5 → s1.events = s.events) ∧
  (∀ p : Nat, p ≠ dcbp → s1.dcbs[p]? = s.dcbs[p]?) ∧
  (∀ d, s.dcbs[dcbp]? = some d → ∃ d1, s1.dcbs[dcbp]? = some d1 ∧ keeps k d d1)

/-- Fields of the target DCB that are as before when, of the stages of
`sys_dispatcher_setup`, at most those whose flag is set have written to it:
`c` stands for stage 1 (`cspace`), `v` for stage 2 (`vspace`), `f` for stage 3
(`disp` and `disp_cte`) and `r` for stage 5 (`disabled`). -/
def keeps_unless (c v f r : Bool) (d d1 : dcb) : Prop :=
  (c = false → d1.cspace = d.cspace) ∧ (v = false → d1.vspace = d.vspace) ∧
  (f = false → d1.disp = d.disp ∧ d1.disp_cte = d.disp_cte) ∧
  (r = false → d1.disabled = d.disabled) ∧ d1.domain_id = d.domain_id ∧
  d1.next_all = d.next_all ∧ d1.is_vm_guest = d.is_vm_guest

/-- The state `s1` differs from `s` at most by what the flagged stages of
`sys_dispatcher_setup` on the DCB at `dcbp` write: the global `dcbs_list`,
`dcb_current` and every other DCB are as before, the scheduler has been
called only if `r` is set, and the target DCB keeps the fields of the stages
that are not flagged, its `domain_id` and its list link. -/
def only_wrote (c v f r : Bool) (dcbp : Nat) (s s1 : DispState) : Prop :=
  s1.dcbs_list = s.dcbs_list ∧ s1.dcb_current = s.dcb_current ∧
  s1.dcbs.length = s.dcbs.length ∧ (r = false → s1.events = s.events) ∧
  (∀ p : Nat, p ≠ dcbp → s1.dcbs[p]? = s.dcbs[p]?) ∧
  (∀ d, s.dcbs[dcbp]? = some d → ∃ d1, s1.dcbs[dcbp]? = some d1 ∧ keeps_unless c v f r d d1)

/-! ### A concrete instance for evaluation -/

/-- A capability of the given type and base address. -/
def plain_cap (t : objtype) (base : Nat) : capability :=
  { type := t, base := base, cnode := 0, bits := 0, dcb := 0, coreid := 0,
    core_local_id := 0 }

/-- A dispatcher capability for the DCB at `dcb`. -/
def dispatcher_cap (dcb : Nat) : capability :=
  { type := .ObjType_Dispatcher, base := 0, cnode := 0, bits := 0, dcb := dcb,
    coreid := 0, core_local_id := 0 }

/-- The empty slot. -/
def null_cte : cte := mk_cte (plain_cap .ObjType_Null 0) 0 false

/-- A small CSpace for evaluation: address 1 holds a CNode, 2 a PML4, 3 a
frame at 8192, 4 a dispatcher capability for DCB 1, 5 a frame at 12288;
nothing else resolves. -/
def demo_lookup_slot (_root : capability) (cptr _bits : Nat) (_r : CapRights) :
    Except errval_t cte :=
  match cptr with
  | 1 => .ok (mk_cte (cnode_cap 100 8) 0 false)
  | 2 => .ok (mk_cte (plain_cap .ObjType_VNode_x86_64_pml4 4096) 0 false)
  | 3 => .ok (mk_cte (plain_cap .ObjType_Frame 8192) 0 false)
  | 4 => .ok (mk_cte (dispatcher_cap 1) 0 false)
  | 5 => .ok (mk_cte (plain_cap .ObjType_Frame 12288) 0 false)
  | _ => .error [.helper 0]

/-- The capability in the slot that `demo_lookup_slot` resolves to. -/
def demo_lookup_cap (root : capability) (cptr bits : Nat) (r : CapRights) :
    Except errval_t capability :=
  match demo_lookup_slot root cptr bits r with
  | .ok e => .ok e.cap
  | .error err => .error err

/-- Modelled from the spec: a plain copy makes the destination
"bit-identical to the source" in the same owner and lock class, and
succeeds. -/
def copy_spec (_dest src : cte) (_mint : Bool) (_p1 _p2 : Nat) : errval_t × cte :=
  (SYS_ERR_OK, src)

/-- An unconfigured DCB. -/
def fresh_dcb : dcb :=
  { cspace := null_cte, vspace := 0, disp := 0, disp_cte := null_cte, disabled := false,
    domain_id := 0, is_vm_guest := false, next_all := none }

/-- Two unconfigured DCBs, the second with domain id 7; the first one is
running; `dcbs_list` is empty. -/
def demo_disp : DispState :=
  { dcbs := [fresh_dcb, { fresh_dcb with domain_id := 7 }], dcbs_list := none,
    dcb_current := 0, events := [] }

/-- The system call on the concrete instance. -/
def demo_setup (s : DispState) (to_cap : capability) (cptr depth vptr dptr : Nat)
    (run : Bool) (odptr : Nat) : Except Abort (sysret × DispState) :=
  sys_dispatcher_setup demo_lookup_slot demo_lookup_cap copy_spec id id false
    s to_cap cptr depth vptr dptr run odptr

/-- The state after a call, or the state before it when the call aborts. -/
def state_after (s : DispState) (r : Except Abort (sysret × DispState)) : DispState :=
  match r with
  | .ok (_, s1) => s1
  | .error _ => s

/-- The second DCB of `demo_disp` with a CSpace root, a VSpace root and a
dispatcher frame installed. -/
def demo_installed : DispState :=
  { dcbs := [fresh_dcb,
      { cspace := mk_cte (cnode_cap 100 8) 0 false, vspace := 4096, disp := 8192,
        disp_cte := mk_cte (plain_cap .ObjType_Frame 8192) 0 false, disabled := false,
        domain_id := 7, is_vm_guest := false, next_all := none }],
    dcbs_list := none, dcb_current := 0, events := [] }

/-- The second DCB of `demo_disp` with only a CSpace root installed. -/
def demo_partial : DispState :=
  { dcbs := [fresh_dcb, { fresh_dcb with cspace := mk_cte (cnode_cap 100 8) 0 false,
                                         domain_id := 7 }],
    dcbs_list := none, dcb_current := 0, events := [] }

/-- The state of `demo_disp` after one call that installs the dispatcher frame
of the second DCB. -/
def demo_once : DispState :=
  state_after demo_disp (demo_setup demo_disp (dispatcher_cap 1) 0 0 0 3 false 0)

/-- The state after the same call has been made a second time. -/
def demo_twice : DispState :=
  state_after demo_once (demo_setup demo_once (dispatcher_cap 1) 0 0 0 3 false 0)

/-- The entries of `dcbs_list`, following `next_all` for at most `fuel`
links. -/
def dcbs_list_entries (s : DispState) : Nat → Option Nat → List Nat
  | 0, _ => []
  | _ + 1, none => []
  | fuel + 1, some p =>
    p :: dcbs_list_entries s fuel ((s.dcbs[p]?).bind (fun d => d.next_all))

/-! ## Monitor step protocol -/

/-- Modelled from the spec: "CNode: fixed-size array of CTEs, addressed by an
index".  A slot of a CNode is named by the address of the CNode and the
index. -/
structure SlotPtr where
  cnode : Nat
  slot : Nat
  deriving DecidableEq, Repr

/-- Modelled from the spec: `caps_locate_slot` (capabilities.h, absent here)
yields the slot with the given index of the CNode at the given address. -/
def caps_locate_slot (cnode : Nat) (slot : Nat) : SlotPtr :=
  { cnode := cnode, slot := slot }

section Monitor

variable {σ : Type}
variable (cspace_root : σ → capability)
variable (cte_at : σ → SlotPtr → cte)
variable (caps_lookup_slot : σ → capability → Nat → Nat → CapRights → Except errval_t SlotPtr)
variable (caps_lookup_cap : σ → capability → Nat → Nat → CapRights → Except errval_t capability)
variable (caps_continue_revoke : σ → SlotPtr → SlotPtr → errval_t × σ)
variable (caps_continue_clear : σ → SlotPtr → errval_t × σ)
variable (caps_delete_last : σ → SlotPtr → SlotPtr → errval_t × σ)

/-- The system call `sys_monitor_delete_last`.  The return CNode is looked up
in the caller's CSpace with (`ret_cn_addr`, `ret_cn_bits`); the errors of the
target and return-CNode lookups are returned as they are. -/
def sys_monitor_delete_last (s : σ) (root_addr root_bits target_addr target_bits
    ret_cn_addr ret_cn_bits ret_slot : Nat) : Except Abort (sysret × σ) :=
  match caps_lookup_cap s (cspace_root s) root_addr root_bits .CAPRIGHTS_READ with
  | .error err => .ok (SYSRET (err_push err .SYS_ERR_ROOT_CAP_LOOKUP), s)
  | .ok root =>
    match caps_lookup_slot s root target_addr target_bits .CAPRIGHTS_READ with
    | .error err => .ok (SYSRET err, s)
    | .ok target =>
      match caps_lookup_cap s (cspace_root s) ret_cn_addr ret_cn_bits .CAPRIGHTS_WRITE with
      | .error err => .ok (SYSRET err, s)
      | .ok retcn =>
        if retcn.type ≠ .ObjType_CNode then .ok (SYSRET [.SYS_ERR_DEST_CNODE_INVALID], s)
        else if 31 ≤ retcn.bits then .error .undefined_shift
        else if ret_slot > 1 <<< retcn.bits then .ok (SYSRET [.SYS_ERR_SLOTS_INVALID], s)
        else
          let retslot := caps_locate_slot retcn.cnode ret_slot
          let (err, s1) := caps_delete_last s target retslot
          .ok (SYSRET err, s1)

/-- The system call `sys_monitor_revoke_step`.  The kernel state `σ` is
abstract: `cspace_root` reads `dcb_current->cspace.cap`, `cte_at` reads a
slot.  The shift `1<<bits` on `int` is undefined from 31 bits on. -/
def sys_monitor_revoke_step (s : σ) (root_addr root_bits target_addr target_bits
    del_cn_addr del_cn_bits del_slot : Nat) : Except Abort (sysret × σ) :=
  match caps_lookup_cap s (cspace_root s) root_addr root_bits .CAPRIGHTS_READ with
  | .error err => .ok (SYSRET (err_push err .SYS_ERR_ROOT_CAP_LOOKUP), s)
  | .ok root =>
    match caps_lookup_slot s root target_addr target_bits .CAPRIGHTS_READ with
    | .error err => .ok (SYSRET err, s)
    | .ok target =>
      match caps_lookup_cap s root target_addr target_bits .CAPRIGHTS_WRITE with
      | .error err => .ok (SYSRET (err_push err .SYS_ERR_DEST_CNODE_LOOKUP), s)
      | .ok delcn =>
        if delcn.type ≠ .ObjType_CNode then .ok (SYSRET [.SYS_ERR_DEST_CNODE_INVALID], s)
        else if 31 ≤ delcn.bits then .error .undefined_shift
        else if del_slot > 1 <<< delcn.bits then .ok (SYSRET [.SYS_ERR_SLOTS_INVALID], s)
        else
          let delslot := caps_locate_slot delcn.cnode del_slot
          if (cte_at s delslot).cap.type ≠ .ObjType_Null then
            .ok (SYSRET [.SYS_ERR_SLOT_IN_USE], s)
          else
            let (err, s1) := caps_continue_revoke s target delslot
            .ok (SYSRET err, s1)

/-- The system call `sys_monitor_clear_step`. -/
def sys_monitor_clear_step (s : σ) (ret_cn_addr ret_cn_bits ret_slot : Nat) :
    Except Abort (sysret × σ) :=
  match caps_lookup_cap s (cspace_root s) ret_cn_addr ret_cn_bits .CAPRIGHTS_WRITE with
  | .error err => .ok (SYSRET (err_push err .SYS_ERR_DEST_CNODE_LOOKUP), s)
  | .ok retcn =>
    if retcn.type ≠ .ObjType_CNode then .ok (SYSRET [.SYS_ERR_DEST_CNODE_INVALID], s)
    else if 31 ≤ retcn.bits then .error .undefined_shift
    else if ret_slot > 1 <<< retcn.bits then .ok (SYSRET [.SYS_ERR_SLOTS_INVALID], s)
    else
      let retslot := caps_locate_slot retcn.cnode ret_slot
      if (cte_at s retslot).cap.type ≠ .ObjType_Null then
        .ok (SYSRET [.SYS_ERR_SLOT_IN_USE], s)
      else
        let (err, s1) := caps_continue_clear s retslot
        .ok (SYSRET err, s1)

end Monitor

/-! ### A concrete instance for evaluation -/

/-- Calls into the revoke and clear algorithms, which are defined elsewhere. -/
inductive MonCall
  | continue_revoke (target del : SlotPtr)
  | continue_clear (ret : SlotPtr)
  | delete_last (target ret : SlotPtr)
  | retype (type : objtype) (objbits : Nat) (dest_cnode : capability) (dest_slot : Nat)
      (source : SlotPtr) (from_monitor : Bool)
  | create_new (type : objtype) (base bits objbits : Nat) (dest : SlotPtr)
  | copy_to_cnode (dest_cnode : SlotPtr) (dest_slot : Nat) (source : SlotPtr) (mint : Bool)
      (param1 param2 : Nat)
  | copy_to_vnode (dest_vnode : SlotPtr) (dest_slot : Nat) (source : SlotPtr)
      (param1 param2 : Nat)
  deriving DecidableEq, Repr

/-- A concrete kernel state: the occupied slots, the root of the caller's
CSpace, and the calls made so far. -/
structure MonState where
  slots : List (SlotPtr × cte)
  root : capability
  calls : List MonCall
  deriving DecidableEq, Repr

/-- The entry in a slot; a slot that is not listed is empty. -/
def MonState.cte_at (s : MonState) (p : SlotPtr) : cte :=
  match s.slots.find? (fun x => x.1 = p) with
  | some x => x.2
  | none => null_cte

/-- A one-level CSpace: the address is the index into the root CNode, and an
empty slot does not resolve. -/
def MonState.lookup_slot (s : MonState) (root : capability) (cptr _bits : Nat)
    (_r : CapRights) : Except errval_t SlotPtr :=
  if (s.cte_at (caps_locate_slot root.cnode cptr)).cap.type = .ObjType_Null then
    .error [.helper 0]
  else .ok (caps_locate_slot root.cnode cptr)

/-- The capability in the slot that `lookup_slot` resolves to. -/
def MonState.lookup_cap (s : MonState) (root : capability) (cptr bits : Nat)
    (r : CapRights) : Except errval_t capability :=
  match s.lookup_slot root cptr bits r with
  | .ok p => .ok (s.cte_at p).cap
  | .error err => .error err

/-- A revoke algorithm that records its arguments and succeeds. -/
def MonState.continue_revoke (s : MonState) (target del : SlotPtr) : errval_t × MonState :=
  (SYS_ERR_OK, { s with calls := .continue_revoke target del :: s.calls })

/-- A clear algorithm that records its argument and succeeds. -/
def MonState.continue_clear (s : MonState) (ret : SlotPtr) : errval_t × MonState :=
  (SYS_ERR_OK, { s with calls := .continue_clear ret :: s.calls })

/-- A last-delete algorithm that records its arguments and succeeds. -/
def MonState.delete_last (s : MonState) (target ret : SlotPtr) : errval_t × MonState :=
  (SYS_ERR_OK, { s with calls := .delete_last target ret :: s.calls })

/-- The root CNode at 100 holds itself in slot 0 and three CNodes, at 200,
300 and 400, in slots 1, 2 and 3; slot 0 of the CNode at 300 holds a
frame. -/
def demo_mon : MonState :=
  { slots := [(⟨100, 0⟩, mk_cte (cnode_cap 100 8) 0 false),
              (⟨100, 1⟩, mk_cte (cnode_cap 200 8) 0 false),
              (⟨100, 2⟩, mk_cte (cnode_cap 300 8) 0 false),
              (⟨100, 3⟩, mk_cte (cnode_cap 400 8) 0 false),
              (⟨300, 0⟩, mk_cte (frame_cap 1) 0 false)],
    root := cnode_cap 100 8,
    calls := [] }

/-- The state of `demo_mon` after one call of the revoke algorithm for
the target in slot 2 of the root CNode with slot 1 of the CNode at 300. -/
def demo_mon_revoked : MonState :=
  { demo_mon with calls := [.continue_revoke ⟨100, 2⟩ ⟨300, 1⟩] }

/-- The system call `sys_monitor_revoke_step` on the concrete instance. -/
def demo_revoke_step (s : MonState) (root_addr root_bits target_addr target_bits
    del_cn_addr del_cn_bits del_slot : Nat) : Except Abort (sysret × MonState) :=
  sys_monitor_revoke_step MonState.root MonState.cte_at MonState.lookup_slot
    MonState.lookup_cap MonState.continue_revoke s root_addr root_bits target_addr
    target_bits del_cn_addr del_cn_bits del_slot

/-- The system call `sys_monitor_delete_last` on the concrete instance. -/
def demo_delete_last (s : MonState) (root_addr root_bits target_addr target_bits
    ret_cn_addr ret_cn_bits ret_slot : Nat) : Except Abort (sysret × MonState) :=
  sys_monitor_delete_last MonState.root MonState.lookup_slot MonState.lookup_cap
    MonState.delete_last s root_addr root_bits target_addr target_bits
    ret_cn_addr ret_cn_bits ret_slot

/-- The system call `sys_monitor_clear_step` on the concrete instance. -/
def demo_clear_step (s : MonState) (ret_cn_addr ret_cn_bits ret_slot : Nat) :
    Except Abort (sysret × MonState) :=
  sys_monitor_clear_step MonState.root MonState.cte_at MonState.lookup_cap
    MonState.continue_clear s ret_cn_addr ret_cn_bits ret_slot

/-! ## Retype, create, copy and mint -/

section CapOps

variable {σ : Type}
variable (ObjType_Num : Nat)
variable (objtype_value : objtype → Nat)
variable (cte_at : σ → SlotPtr → cte)
variable (caps_lookup_slot : σ → capability → Nat → Nat → CapRights → Except errval_t SlotPtr)
variable (caps_lookup_cap : σ → capability → Nat → Nat → CapRights → Except errval_t capability)
variable (caps_retype : σ → objtype → Nat → capability → Nat → SlotPtr → Bool → errval_t × σ)
variable (caps_create_new : σ → objtype → Nat → Nat → Nat → SlotPtr → errval_t × σ)
variable (type_is_vnode : objtype → Bool)
variable (caps_copy_to_cnode : σ → SlotPtr → Nat → SlotPtr → Bool → Nat → Nat → errval_t × σ)
variable (caps_copy_to_vnode : σ → SlotPtr → Nat → SlotPtr → Nat → Nat → errval_t × σ)

/-- The system call `sys_retype`.  An `enum objtype` argument is a number:
`objtype_value` is the numbering of the generated enumeration and
`ObjType_Num` its number of members, both declared elsewhere; a number that
is no member is one of the `ObjType_Other n`. -/
def sys_retype (s : σ) (root : capability) (source_cptr : Nat) (type : objtype)
    (objbits dest_cnode_cptr dest_slot dest_vbits : Nat) (from_monitor : Bool) : sysret × σ :=
  if type = .ObjType_Null ∨ ObjType_Num ≤ objtype_value type then
    (SYSRET [.SYS_ERR_ILLEGAL_DEST_TYPE], s)
  else
    match caps_lookup_slot s root source_cptr CPTR_BITS .CAPRIGHTS_READ with
    | .error err => (SYSRET (err_push err .SYS_ERR_SOURCE_CAP_LOOKUP), s)
    | .ok source_cap =>
      match caps_lookup_cap s root dest_cnode_cptr dest_vbits .CAPRIGHTS_READ_WRITE with
      | .error err => (SYSRET (err_push err .SYS_ERR_DEST_CNODE_LOOKUP), s)
      | .ok dest_cnode_cap =>
        if dest_cnode_cap.type ≠ .ObjType_CNode then
          (SYSRET [.SYS_ERR_DEST_CNODE_INVALID], s)
        else
          let (err, s1) := caps_retype s type objbits dest_cnode_cap dest_slot source_cap
            from_monitor
          (SYSRET err, s1)

/-- The system call `sys_create`.  The locals `bits` and `base` are 0; the
destination slot is located from the `u.cnode.cnode` field of the looked-up
capability. -/
def sys_create (s : σ) (root : capability) (type : objtype)
    (objbits dest_cnode_cptr dest_slot dest_vbits : Nat) : sysret × σ :=
  let bits := 0
  let base := 0
  if type = .ObjType_Null ∨ ObjType_Num ≤ objtype_value type then
    (SYSRET [.SYS_ERR_ILLEGAL_DEST_TYPE], s)
  else
    match caps_lookup_cap s root dest_cnode_cptr dest_vbits .CAPRIGHTS_READ_WRITE with
    | .error err => (SYSRET (err_push err .SYS_ERR_DEST_CNODE_LOOKUP), s)
    | .ok dest_cnode_cap =>
      let dest_cte := caps_locate_slot dest_cnode_cap.cnode dest_slot
      if (cte_at s dest_cte).cap.type ≠ .ObjType_Null then
        (SYSRET [.SYS_ERR_SLOTS_IN_USE], s)
      else
        match type with
        | .ObjType_ID =>
          let (err, s1) := caps_create_new s type base bits objbits dest_cte
          (SYSRET err, s1)
        | _ => (SYSRET [.SYS_ERR_TYPE_NOT_CREATABLE], s)

/-- The system call `sys_copy_or_mint`.  `type_is_vnode` (cap_predicates.h)
is defined elsewhere. -/
def sys_copy_or_mint (s : σ) (root : capability) (destcn_cptr dest_slot source_cptr
    destcn_vbits source_vbits param1 param2 : Nat) (mint : Bool) : sysret × σ :=
  let param1 := if !mint then 0 else param1
  let param2 := if !mint then 0 else param2
  match caps_lookup_slot s root source_cptr source_vbits .CAPRIGHTS_READ with
  | .error err => (SYSRET (err_push err .SYS_ERR_SOURCE_CAP_LOOKUP), s)
  | .ok src_cap =>
    match caps_lookup_slot s root destcn_cptr destcn_vbits .CAPRIGHTS_READ_WRITE with
    | .error err => (SYSRET (err_push err .SYS_ERR_DEST_CNODE_LOOKUP), s)
    | .ok dest_cnode_cap =>
      if (cte_at s dest_cnode_cap).cap.type = .ObjType_CNode then
        let (err, s1) := caps_copy_to_cnode s dest_cnode_cap dest_slot src_cap mint
          param1 param2
        (SYSRET err, s1)
      else if type_is_vnode (cte_at s dest_cnode_cap).cap.type then
        let (err, s1) := caps_copy_to_vnode s dest_cnode_cap dest_slot src_cap param1 param2
        (SYSRET err, s1)
      else (SYSRET [.SYS_ERR_DEST_TYPE_INVALID], s)

end CapOps

/-! ### A concrete instance for evaluation -/

/-- A numbering of the object types for evaluation; the numbers from 10 on
stand for the members that kernel/syscall.c does not name and, from
`demo_ObjType_Num` on, for numbers that are no member. -/
def demo_objtype_value : objtype → Nat
  | .ObjType_Null => 0
  | .ObjType_CNode => 1
  | .ObjType_Frame => 2
  | .ObjType_Dispatcher => 3
  | .ObjType_EndPoint => 4
  | .ObjType_ID => 5
  | .ObjType_VNode_x86_64_pml4 => 6
  | .ObjType_VNode_x86_32_pdpt => 7
  | .ObjType_VNode_x86_32_pdir => 8
  | .ObjType_VNode_ARM_l1 => 9
  | .ObjType_Other n => 10 + n

/-- The number of object types in the numbering for evaluation. -/
def demo_ObjType_Num : Nat := 27

/-- The page-table types that kernel/syscall.c names, for evaluation. -/
def demo_type_is_vnode : objtype → Bool
  | .ObjType_VNode_x86_64_pml4 => true
  | .ObjType_VNode_x86_32_pdpt => true
  | .ObjType_VNode_x86_32_pdir => true
  | .ObjType_VNode_ARM_l1 => true
  | _ => false

/-- A retype algorithm that records its arguments and succeeds. -/
def MonState.retype (s : MonState) (type : objtype) (objbits : Nat) (dest_cnode : capability)
    (dest_slot : Nat) (source : SlotPtr) (from_monitor : Bool) : errval_t × MonState :=
  (SYS_ERR_OK,
    { s with calls := .retype type objbits dest_cnode dest_slot source from_monitor :: s.calls })

/-- A create algorithm that records its arguments and succeeds. -/
def MonState.create_new (s : MonState) (type : objtype) (base bits objbits : Nat)
    (dest : SlotPtr) : errval_t × MonState :=
  (SYS_ERR_OK, { s with calls := .create_new type base bits objbits dest :: s.calls })

/-- A CNode copy algorithm that records its arguments and succeeds. -/
def MonState.copy_to_cnode (s : MonState) (dest_cnode : SlotPtr) (dest_slot : Nat)
    (source : SlotPtr) (mint : Bool) (param1 param2 : Nat) : errval_t × MonState :=
  (SYS_ERR_OK,
    { s with calls := .copy_to_cnode dest_cnode dest_slot source mint param1 param2 :: s.calls })

/-- A VNode copy algorithm that records its arguments and succeeds. -/
def MonState.copy_to_vnode (s : MonState) (dest_vnode : SlotPtr) (dest_slot : Nat)
    (source : SlotPtr) (param1 param2 : Nat) : errval_t × MonState :=
  (SYS_ERR_OK,
    { s with calls := .copy_to_vnode dest_vnode dest_slot source param1 param2 :: s.calls })

/-- The root CNode at 100 holds itself in slot 0, a CNode at 200 in slot 1, a
PML4 table in slot 2 and a frame in slot 3; slot 0 of the CNode at 200 holds
a frame. -/
def demo_cspace : MonState :=
  { slots := [(⟨100, 0⟩, mk_cte (cnode_cap 100 8) 0 false),
              (⟨100, 1⟩, mk_cte (cnode_cap 200 8) 0 false),
              (⟨100, 2⟩, mk_cte (plain_cap .ObjType_VNode_x86_64_pml4 4096) 0 false),
              (⟨100, 3⟩, mk_cte (frame_cap 1) 0 false),
              (⟨200, 0⟩, mk_cte (frame_cap 2) 0 false)],
    root := cnode_cap 100 8,
    calls := [] }

/-- The system call `sys_retype` on the concrete instance. -/
def demo_retype (s : MonState) (source_cptr : Nat) (type : objtype)
    (objbits dest_cnode_cptr dest_slot dest_vbits : Nat) (from_monitor : Bool) :
    sysret × MonState :=
  sys_retype demo_ObjType_Num demo_objtype_value MonState.lookup_slot MonState.lookup_cap
    MonState.retype s s.root source_cptr type objbits dest_cnode_cptr dest_slot dest_vbits
    from_monitor

/-- The system call `sys_create` on the concrete instance. -/
def demo_create (s : MonState) (type : objtype)
    (objbits dest_cnode_cptr dest_slot dest_vbits : Nat) : sysret × MonState :=
  sys_create demo_ObjType_Num demo_objtype_value MonState.cte_at MonState.lookup_cap
    MonState.create_new s s.root type objbits dest_cnode_cptr dest_slot dest_vbits

/-- The system call `sys_copy_or_mint` on the concrete instance. -/
def demo_copy_or_mint (s : MonState) (destcn_cptr dest_slot source_cptr destcn_vbits
    source_vbits param1 param2 : Nat) (mint : Bool) : sysret × MonState :=
  sys_copy_or_mint MonState.cte_at MonState.lookup_slot demo_type_is_vnode
    MonState.copy_to_cnode MonState.copy_to_vnode s s.root destcn_cptr dest_slot source_cptr
    destcn_vbits source_vbits param1 param2 mint

/-! ## Yield -/

/-- The fields of `struct dispatcher_shared_generic` (the shared dispatcher
frame, declared elsewhere) that `sys_yield` reads or writes.  `disabled` and
`haswork` are flags: a value other than 0 is `true`. -/
structure dispatcher_shared_generic where
  disabled : Bool
  haswork : Bool
  lmp_delivered : Nat
  lmp_seen : Nat
  wakeup : Nat
  deriving DecidableEq, Repr

/-- Calls that `sys_yield` makes into the scheduler, the wakeup queue and
the dispatch code, all defined elsewhere. -/
inductive SchedCall
  | scheduler_remove (dcb : Nat)
  | wakeup_set (dcb : Nat) (wakeup : Nat)
  | scheduler_yield (dcb : Nat)
  | make_runnable (dcb : Nat)
  | schedule
  | dispatch (dcb : Nat)
  deriving DecidableEq, Repr

/-- The part of the kernel state that `sys_yield` uses: the DCBs,
`dcb_current`, the memory that holds the shared dispatcher frames (by
dispatcher handle), `kernel_now`, and the calls made so far, the most recent
first.  The run queue and the wakeup queue change only through these
calls. -/
structure YieldState where
  dcbs : List dcb
  dcb_current : Nat
  frames : List (Nat × dispatcher_shared_generic)
  kernel_now : Nat
  calls : List SchedCall
  deriving DecidableEq, Repr

/-- The shared frame behind a dispatcher handle:
`get_dispatcher_shared_generic(handle)`. -/
def YieldState.frame_at (s : YieldState) (handle : Nat) : Option dispatcher_shared_generic :=
  (s.frames.find? (fun x => x.1 = handle)).map (fun x => x.2)

/-- A write to the shared frame behind a dispatcher handle. -/
def YieldState.set_frame (s : YieldState) (handle : Nat) (f : dispatcher_shared_generic) :
    YieldState :=
  { s with frames := s.frames.map (fun x => if x.1 = handle then (x.1, f) else x) }

/-- How `sys_yield` ends: it returns to its caller, it hands the processor to
a dispatcher (`dispatch` does not return), or it stops the kernel with
`panic("invalid type in yield cap")`. -/
inductive YieldResult
  | returned (r : sysret)
  | dispatched (dcb : Nat)
  | panic_invalid_type
  deriving DecidableEq, Repr

section Yield

variable (caps_lookup_cap : capability → Nat → Nat → CapRights → Except errval_t capability)
variable (schedule : YieldState → Nat)

/-- The assignments `disp->disabled = false; dcb_current->disabled = false`
of `sys_yield`; the result is the state and the shared frame as written. -/
def yield_enable (s : YieldState) (cur : dcb) (disp : dispatcher_shared_generic) :
    YieldState × dispatcher_shared_generic :=
  let disp1 := { disp with disabled := false }
  let s1 := s.set_frame cur.disp disp1
  ({ s1 with dcbs := s1.dcbs.set s1.dcb_current { cur with disabled := false } }, disp1)

/-- The run-queue decision of `sys_yield`: remove the caller from the run
queue when there is no work, no more messages and no missed wakeup, otherwise
yield for the timeslice. -/
def yield_queue (s : YieldState) (disp : dispatcher_shared_generic) : YieldState :=
  let wakeup := disp.wakeup
  if !disp.haswork && disp.lmp_delivered == disp.lmp_seen
      && (wakeup == 0 || wakeup > s.kernel_now) then
    let s1 := { s with calls := .scheduler_remove s.dcb_current :: s.calls }
    if wakeup ≠ 0 then
      { s1 with calls := .wakeup_set s1.dcb_current wakeup :: s1.calls }
    else s1
  else { s with calls := .scheduler_yield s.dcb_current :: s.calls }

/-- The end of `sys_yield`: the directed or undirected dispatch.  `yield_to`
is `none` for the null pointer; the target DCB is `u.endpoint.listener` of an
endpoint and `u.dispatcher.dcb` of a dispatcher capability, and any other
type ends in the panic. -/
def yield_dispatch (s : YieldState) (yield_to : Option capability) :
    YieldResult × YieldState :=
  match yield_to with
  | some c =>
    let target : Option Nat :=
      if c.type = .ObjType_EndPoint then some c.dcb
      else if c.type = .ObjType_Dispatcher then some c.dcb
      else none
    match target with
    | some target_dcb =>
      (.dispatched target_dcb,
        { s with calls := .dispatch target_dcb :: .make_runnable target_dcb :: s.calls })
    | none => (.panic_invalid_type, s)
  | none =>
    let s1 := { s with calls := .schedule :: s.calls }
    let next := schedule s1
    (.dispatched next, { s1 with calls := .dispatch next :: s1.calls })

/-- The second half of `sys_yield`, from `disp->disabled = false` on. -/
def yield_switch (s : YieldState) (cur : dcb) (disp : dispatcher_shared_generic)
    (yield_to : Option capability) : YieldResult × YieldState :=
  let (s1, disp1) := yield_enable s cur disp
  yield_dispatch schedule (yield_queue s1 disp1) yield_to

/-- The system call `sys_yield`.  The debug output reads the shared frame
before any test, so a dispatcher handle with no frame behind it is a bad
dereference. -/
def sys_yield (s : YieldState) (target : Nat) : Except Abort (YieldResult × YieldState) :=
  match s.dcbs[s.dcb_current]? with
  | none => .error .bad_pointer
  | some cur =>
    match s.frame_at cur.disp with
    | none => .error .null_deref
    | some disp =>
      if !disp.disabled then .ok (.returned (SYSRET [.SYS_ERR_CALLER_ENABLED]), s)
      else if target ≠ CPTR_NULL then
        match caps_lookup_cap cur.cspace.cap target CPTR_BITS .CAPRIGHTS_READ with
        | .error err => .ok (.returned (SYSRET err), s)
        | .ok c =>
          if c.type ≠ .ObjType_EndPoint ∧ c.type ≠ .ObjType_Dispatcher then
            .ok (.returned (SYSRET [.SYS_ERR_INVALID_YIELD_TARGET]), s)
          else .ok (yield_switch schedule s cur disp (some c))
      else .ok (yield_switch schedule s cur disp none)

end Yield

/-! ### A concrete instance for evaluation -/

/-- A dispatcher frame of a disabled dispatcher with no work, no message
and no wakeup pending. -/
def idle_frame : dispatcher_shared_generic :=
  { disabled := true, haswork := false, lmp_delivered := 3, lmp_seen := 3, wakeup := 0 }

/-- Two dispatchers with frames at 8192 and 12288; the first one is running
and disabled; the time is 50. -/
def demo_yield : YieldState :=
  { dcbs := [{ fresh_dcb with disp := 8192, disabled := true },
             { fresh_dcb with disp := 12288 }],
    dcb_current := 0,
    frames := [(8192, idle_frame), (12288, { idle_frame with disabled := false })],
    kernel_now := 50,
    calls := [] }

/-- A CSpace for evaluation: address 4 holds a dispatcher capability for DCB 1,
6 an endpoint whose listener is DCB 1, and the other addresses of
`demo_lookup_cap` what they hold there. -/
def yield_lookup_cap (root : capability) (cptr bits : Nat) (r : CapRights) :
    Except errval_t capability :=
  if cptr = 6 then
    .ok { type := .ObjType_EndPoint, base := 0, cnode := 0, bits := 0, dcb := 1,
          coreid := 0, core_local_id := 0 }
  else demo_lookup_cap root cptr bits r

/-- The system call `sys_yield` on the concrete instance; the scheduler picks
DCB 1. -/
def demo_sys_yield (s : YieldState) (target : Nat) : Except Abort (YieldResult × YieldState) :=
  sys_yield yield_lookup_cap (fun _ => 1) s target

/-- The calls recorded in the state that a call of `sys_yield` leaves. -/
def calls_of (r : Except Abort (YieldResult × YieldState)) : List SchedCall :=
  match r with
  | .ok (_, s) => s.calls
  | .error _ => []

/-! ## Identifier capabilities -/

/-- The system call `sys_idcap_identify`: the result and the value stored to
`*id`.  `idcap_id_t` is a 64-bit unsigned integer: the cast, the shift and
the bitwise or are taken modulo `2^64`. -/
def sys_idcap_identify (cap : capability) : sysret × Nat :=
  let coreid := cap.coreid % 2 ^ 64
  (SYSRET SYS_ERR_OK, ((coreid <<< 32) % 2 ^ 64) ||| (cap.core_local_id % 2 ^ 64))

/-- An identifier capability, for evaluation. -/
def id_cap (coreid core_local_id : Nat) : capability :=
  { type := .ObjType_ID, base := 0, cnode := 0, bits := 0, dcb := 0, coreid := coreid,
    core_local_id := core_local_id }

/-! ## Scheduling parameters -/

/-- The fields of `struct dcb` that `sys_dispatcher_properties` writes. -/
structure dcb_sched where
  type : Int
  deadline : Nat
  wcet : Nat
  period : Nat
  release_time : Nat
  weight : Nat
  deriving DecidableEq, Repr

/-- Calls that `sys_dispatcher_properties` makes into the scheduler, which
is defined elsewhere; a call is recorded with the scheduling parameters that
the DCB has at the time of the call. -/
inductive PropCall
  | scheduler_remove (dcb : Nat) (seen : dcb_sched)
  | make_runnable (dcb : Nat) (seen : dcb_sched)
  deriving DecidableEq, Repr

/-- The part of the kernel state that `sys_dispatcher_properties` uses: the
scheduling parameters of the DCBs, `kernel_now`, and the calls made so far,
the most recent first. -/
structure PropState where
  dcbs : List dcb_sched
  kernel_now : Nat
  calls : List PropCall
  deriving DecidableEq, Repr

section Properties

variable (CONFIG_SCHEDULER_RBED : Bool)
variable (TASK_TYPE_BEST_EFFORT TASK_TYPE_HARD_REALTIME : Int)

/-- The system call `sys_dispatcher_properties`; `to_cap` is its argument
`to`.  `enum task_type` is declared elsewhere: its first and last members are
parameters, and the argument `type` is the number the caller passes.  The
body after the first assertion is compiled with `CONFIG_SCHEDULER_RBED`
only. -/
def sys_dispatcher_properties (s : PropState) (to_cap : capability) (type : Int)
    (deadline wcet period release weight : Nat) : Except Abort (sysret × PropState) :=
  if to_cap.type ≠ .ObjType_Dispatcher then .error .assert_failed
  else if !CONFIG_SCHEDULER_RBED then .ok (SYSRET SYS_ERR_OK, s)
  else
    let dcbp := to_cap.dcb
    if ¬ (type ≥ TASK_TYPE_BEST_EFFORT ∧ type ≤ TASK_TYPE_HARD_REALTIME) then
      .error .assert_failed
    else if ¬ wcet ≤ deadline then .error .assert_failed
    else if ¬ wcet ≤ period then .error .assert_failed
    else if ¬ (type ≠ TASK_TYPE_BEST_EFFORT ∨ weight > 0) then .error .assert_failed
    else
      match s.dcbs[dcbp]? with
      | none => .error .bad_pointer
      | some d =>
        let s1 := { s with calls := .scheduler_remove dcbp d :: s.calls }
        let d1 : dcb_sched :=
          { type := type, deadline := deadline, wcet := wcet, period := period,
            release_time := if release = 0 then s1.kernel_now else release,
            weight := weight }
        let s2 := { s1 with dcbs := s1.dcbs.set dcbp d1 }
        .ok (SYSRET SYS_ERR_OK, { s2 with calls := .make_runnable dcbp d1 :: s2.calls })

end Properties

/-! ### A concrete instance for evaluation -/

/-- A DCB with the scheduling parameters of a best-effort task of weight 1. -/
def idle_sched : dcb_sched :=
  { type := 0, deadline := 0, wcet := 0, period := 0, release_time := 0, weight := 1 }

/-- Two DCBs at time 50; no call has been made. -/
def demo_props : PropState :=
  { dcbs := [idle_sched, idle_sched], kernel_now := 50, calls := [] }

/-- The system call `sys_dispatcher_properties` with the RBED scheduler
configured and the task types numbered 0 (best effort), 1 and 2 (hard real
time). -/
def demo_properties (s : PropState) (to_cap : capability) (type : Int)
    (deadline wcet period release weight : Nat) : Except Abort (sysret × PropState) :=
  sys_dispatcher_properties true 0 2 s to_cap type deadline wcet period release weight

/-! ## Derivation by retype -/

/-- Modelled from the spec: the MDB (mdb/mdb.h, absent here) holds for each
non-null CTE its "derivation-tree linkage".  An entry is the slot, its CTE,
and the capabilities that its capability was derived from by retype, the
nearest first. -/
structure mdb_entry where
  slot : SlotPtr
  cte : cte
  ancestors : List capability
  deriving DecidableEq, Repr

/-- Modelled from the spec: the MDB as the "globally ordered structure over
all CTEs on a core": its entries in MDB order. -/
structure DerivState where
  entries : List mdb_entry
  deriving DecidableEq, Repr

/-- The entry of a slot, if the slot is in the MDB. -/
def DerivState.entry_at (s : DerivState) (p : SlotPtr) : Option mdb_entry :=
  s.entries.find? (fun e => e.slot = p)

/-- The CTE in a slot; a slot that is not in the MDB is empty. -/
def DerivState.cte_at (s : DerivState) (p : SlotPtr) : cte :=
  match s.entry_at p with
  | some e => e.cte
  | none => null_cte

/-- Modelled from the spec: the predicate "is this slot a descendant of
that slot": the entry was derived by retype, in one or more steps, from the
object of the capability `c`. -/
def is_descendant (is_copy : capability → capability → Bool) (e : mdb_entry)
    (c : capability) : Bool :=
  e.ancestors.any (fun a => is_copy a c)

/-- Modelled from the spec: the source "has existing retyped descendants". -/
def has_descendants (is_copy : capability → capability → Bool) (s : DerivState)
    (c : capability) : Bool :=
  s.entries.any (fun e => is_descendant is_copy e c)

/-- Modelled from the spec: the derivation-conflict error, "retype source
already has live descendants"; its code is declared elsewhere. -/
def derivation_conflict : errval_t := [.helper 1]

/-- Modelled from the spec: the "one or more new capabilities of the requested
type that are descendants of the source", "placed starting at the destination
slot", "each carrying the source's owner and unlocked state": one for each
object of size `2^objbits` in the region of the source. -/
def retype_children (src : mdb_entry) (type : objtype) (objbits : Nat)
    (dest_cnode : capability) (dest_slot : Nat) : List mdb_entry :=
  (List.range (2 ^ (src.cte.cap.bits - objbits))).map (fun i =>
    { slot := caps_locate_slot dest_cnode.cnode (dest_slot + i),
      cte := { cap := { type := type, base := src.cte.cap.base + i * 2 ^ objbits, cnode := 0,
                        bits := objbits, dcb := 0, coreid := 0, core_local_id := 0 },
               mdbnode := { owner := src.cte.mdbnode.owner, locked := false } },
      ancestors := src.cte.cap :: src.ancestors })

/-- Modelled from the spec: `caps_retype` (capabilities.c, absent here).
"Retype first walks the MDB region covering the source to detect conflicts,
rejecting the call with a source has live descendants failure if any exist",
unless the caller is the monitor; the "destination slot(s) are empty"; then the
"new CTEs are inserted into the MDB as children of the source, in slot
order". -/
def caps_retype_spec (is_copy : capability → capability → Bool) (s : DerivState)
    (type : objtype) (objbits : Nat) (dest_cnode_cap : capability) (dest_slot : Nat)
    (source_cap : SlotPtr) (from_monitor : Bool) : errval_t × DerivState :=
  match s.entry_at source_cap with
  | none => ([.helper 0], s)
  | some src =>
    if !from_monitor && has_descendants is_copy s src.cte.cap then (derivation_conflict, s)
    else
      let children := retype_children src type objbits dest_cnode_cap dest_slot
      if children.any (fun k => (s.cte_at k.slot).cap.type ≠ .ObjType_Null) then
        ([.SYS_ERR_SLOTS_IN_USE], s)
      else
        (SYS_ERR_OK,
          { entries := s.entries.flatMap
              (fun e => if e.slot = source_cap then e :: children else [e]) })

/-! ### A concrete instance for evaluation -/

/-- A one-level CSpace over the MDB: the address is the index into the root
CNode, and an empty slot does not resolve. -/
def DerivState.lookup_slot (s : DerivState) (root : capability) (cptr _bits : Nat)
    (_r : CapRights) : Except errval_t SlotPtr :=
  if (s.cte_at (caps_locate_slot root.cnode cptr)).cap.type = .ObjType_Null then
    .error [.helper 0]
  else .ok (caps_locate_slot root.cnode cptr)

/-- The capability in the slot that `lookup_slot` resolves to. -/
def DerivState.lookup_cap (s : DerivState) (root : capability) (cptr bits : Nat)
    (r : CapRights) : Except errval_t capability :=
  match s.lookup_slot root cptr bits r with
  | .ok p => .ok (s.cte_at p).cap
  | .error err => .error err

/-- A region of size `2^13` at 65536, of a type that kernel/syscall.c does
not name. -/
def ram_cap : capability :=
  { type := .ObjType_Other 0, base := 65536, cnode := 0, bits := 13, dcb := 0, coreid := 0,
    core_local_id := 0 }

/-- The entry of the region `ram_cap` in slot 3 of the root CNode. -/
def ram_entry : mdb_entry :=
  { slot := ⟨100, 3⟩, cte := mk_cte ram_cap 0 false, ancestors := [] }

/-- The root CNode at 100 holds a CNode at 200 in slot 1 and the region
`ram_cap` in slot 3. -/
def demo_deriv : DerivState :=
  { entries := [{ slot := ⟨100, 1⟩, cte := mk_cte (cnode_cap 200 8) 0 false, ancestors := [] },
                ram_entry] }

/-- The system call `sys_retype` with the retype algorithm modelled from the
spec, on the concrete instance. -/
def deriv_retype (s : DerivState) (source_cptr : Nat) (type : objtype)
    (objbits dest_cnode_cptr dest_slot dest_vbits : Nat) (from_monitor : Bool) :
    sysret × DerivState :=
  sys_retype demo_ObjType_Num demo_objtype_value DerivState.lookup_slot DerivState.lookup_cap
    (caps_retype_spec is_copy_spec) s (cnode_cap 100 8) source_cptr type objbits
    dest_cnode_cptr dest_slot dest_vbits from_monitor

/-! ## The receive ring of the e1000 driver (usr/drivers/e1000/e1000n.c) -/

/-- Number of receive buffers with the driver. -/
def DRIVER_RECEIVE_BUFFERS : Nat := 1024 * 8

/-- The static variables `receive_index`, `receive_bufptr` and
`receive_free` of the receive path, all `uint32_t`.  The descriptors of the
ring and the opaque pointers, which `add_desc` stores at `receive_index`, take
no part in the accounting. -/
structure RxState where
  receive_index : Nat
  receive_bufptr : Nat
  receive_free : Nat
  deriving DecidableEq, Repr

/-- The initial values of the static variables. -/
def rx_init : RxState :=
  { receive_index := 0, receive_bufptr := 0, receive_free := 0 }

/-- The function `add_desc`; `none` when it calls `abort()` because no space
is left.  The arithmetic is that of `uint32_t`. -/
def add_desc (s : RxState) : Option RxState :=
  if s.receive_free = DRIVER_RECEIVE_BUFFERS then none
  else
    some { receive_index := (s.receive_index + 1) % 2 ^ 32 % DRIVER_RECEIVE_BUFFERS,
           receive_bufptr := s.receive_bufptr,
           receive_free := (s.receive_free + 1) % 2 ^ 32 }

/-- The function `rx_find_free_slot_count_fn`: the difference is taken in
`uint32_t` and returned as `uint64_t`. -/
def rx_find_free_slot_count_fn (s : RxState) : Nat :=
  (DRIVER_RECEIVE_BUFFERS + 2 ^ 32 - s.receive_free) % 2 ^ 32

/-- The three ways out of `handle_next_received_packet`: "no packets
received" and "false alarm" return `false`, a received packet returns
`true`. -/
inductive RxExit
  | no_packets
  | false_alarm
  | packet
  deriving DecidableEq, Repr

/-- The function `handle_next_received_packet`; `dd` and `eop` are the status
bits that the card has written to the descriptor at `receive_bufptr`. -/
def handle_next_received_packet (s : RxState) (dd eop : Bool) : RxExit × RxState :=
  if s.receive_bufptr = s.receive_index then (.no_packets, s)
  else if dd && eop then
    (.packet,
      { receive_index := s.receive_index,
        receive_bufptr := (s.receive_bufptr + 1) % 2 ^ 32 % DRIVER_RECEIVE_BUFFERS,
        receive_free := (s.receive_free + 2 ^ 32 - 1) % 2 ^ 32 })
  else (.false_alarm, s)

/-- A step of the receive path. -/
inductive RxStep
  | add_desc
  | handle_next_received_packet (dd eop : Bool)
  deriving DecidableEq, Repr

/-- The state after a sequence of steps; `none` when `add_desc` has called
`abort()`. -/
def rx_run : RxState → List RxStep → Option RxState
  | s, [] => some s
  | s, .add_desc :: rest =>
    match add_desc s with
    | none => none
    | some s1 => rx_run s1 rest
  | s, .handle_next_received_packet dd eop :: rest =>
    rx_run (handle_next_received_packet s dd eop).2 rest

/-- What the receive path keeps true: the indices are in the ring,
`receive_free` is at most the size of the ring, and `receive_index` is
`receive_free` places after `receive_bufptr`, modulo the size of the ring. -/
def rx_inv (s : RxState) : Prop :=
  s.receive_index < DRIVER_RECEIVE_BUFFERS ∧ s.receive_bufptr < DRIVER_RECEIVE_BUFFERS ∧
  s.receive_free ≤ DRIVER_RECEIVE_BUFFERS ∧
  (s.receive_bufptr + s.receive_free) % DRIVER_RECEIVE_BUFFERS = s.receive_index

end Barrelfish

/-! # Theorems -/

namespace Barrelfish

/-! ## Ownership and locking -/

section OwnerLockTheorems

variable (is_copy : capability → capability → Bool)

theorem getElem?_some_lt {α : Type} (m : List α) (p : Nat) (e : α) (hp : m[p]? = some e) :
    p < m.length := by
  rcases Nat.lt_or_ge p m.length with h | h
  · exact h
  · rw [List.getElem?_eq_none h] at hp; cases hp

theorem copy_at_set (m : MDB) (p : Nat) (e : cte) (w : cte → cte)
    (hw : ∀ x, (w x).cap = x.cap) (hp : m[p]? = some e) (a b : Nat) :
    copy_at is_copy (m.set p (w e)) a b = copy_at is_copy m a b := by
  have key : ∀ i : Nat, Option.map cte.cap ((m.set p (w e))[i]?) = Option.map cte.cap (m[i]?) := by
    intro i
    by_cases h : p = i
    · subst h
      have hlt : p < m.length := getElem?_some_lt m p e hp
      simp [List.getElem?_set, hp, hw, hlt]
    · simp [List.getElem?_set, h]
  have ha := key a
  have hb := key b
  unfold copy_at
  cases h1 : (m.set p (w e))[a]? <;> cases h2 : m[a]? <;>
    cases h3 : (m.set p (w e))[b]? <;> cases h4 : m[b]? <;>
    simp_all

theorem copy_at_of (m : MDB) (a b : Nat) (x y : cte) (ha : m[a]? = some x)
    (hb : m[b]? = some y) : copy_at is_copy m a b = is_copy x.cap y.cap := by
  simp [copy_at, ha, hb]

theorem getElem?_set_write (m : MDB) (p : Nat) (e : cte) (w : cte → cte)
    (hp : m[p]? = some e) (i : Nat) :
    (m.set p (w e))[i]? = if i = p then Option.map w (m[i]?) else m[i]? := by
  have hlt := getElem?_some_lt m p e hp
  by_cases h : i = p
  · subst h; simp [List.getElem?_set, hp, hlt]
  · have h2 : ¬ p = i := fun hh => h hh.symm
    simp [List.getElem?_set, h, h2]

theorem walk_pred_spec (w : cte → cte) (hw : ∀ x, (w x).cap = x.cap) (t : Nat) :
    ∀ (fuel p : Nat) (m m' : MDB),
      copy_walk is_copy mdb_predecessor w t fuel p m = .ok m' →
      ∃ lo, 0 < lo ∧ lo ≤ p ∧ p < m.length ∧ m'.length = m.length ∧
        (∀ i : Nat, m'[i]? = if lo ≤ i ∧ i ≤ p then Option.map w (m[i]?) else m[i]?) ∧
        (∀ i, lo ≤ i → i < p → copy_at is_copy m i t = true) ∧
        copy_at is_copy m (lo - 1) t = false := by
  intro fuel
  induction fuel with
  | zero => intro p m m' h; simp [copy_walk] at h
  | succ n ih =>
    intro p m m' h
    rw [copy_walk] at h
    split at h
    · cases h
    · rename_i e hp
      have hlt := getElem?_some_lt m p e hp
      simp only at h
      split at h
      · cases h
      · rename_i q hq
        have hq2 : p ≠ 0 ∧ q = p - 1 := by
          unfold mdb_predecessor at hq
          split at hq
          · cases hq
          · rename_i hne; cases hq; exact ⟨hne, rfl⟩
        split at h
        · rename_i eq ec heq hec
          have hqt : copy_at is_copy m q t = is_copy eq.cap ec.cap := by
            rw [← copy_at_set is_copy m p e w hw hp q t]
            exact copy_at_of is_copy _ q t eq ec heq hec
          split at h
          · rename_i hc
            obtain ⟨lo, h0, hle, _, hlen, hget, hcop, hstop⟩ := ih q _ _ h
            refine ⟨lo, h0, by omega, hlt, by simpa using hlen, ?_, ?_, ?_⟩
            · intro i
              rw [hget i, getElem?_set_write m p e w hp i]
              by_cases h1 : i = p
              · have h3 : ¬ (lo ≤ i ∧ i ≤ q) := by omega
                have h4 : lo ≤ i ∧ i ≤ p := by omega
                rw [if_neg h3, if_pos h1, if_pos h4]
              · by_cases h2 : lo ≤ i ∧ i ≤ q
                · have : lo ≤ i ∧ i ≤ p := by omega
                  simp [h1, h2, this]
                · have : ¬ (lo ≤ i ∧ i ≤ p) := by omega
                  simp [h1, h2, this]
            · intro i h1 h2
              by_cases h3 : i = q
              · subst h3; rw [hqt]; exact hc
              · have := hcop i h1 (by omega)
                rwa [copy_at_set is_copy m p e w hw hp] at this
            · rwa [copy_at_set is_copy m p e w hw hp] at hstop
          · rename_i hc
            cases h
            refine ⟨p, by omega, le_refl _, hlt, by simp, ?_, ?_, ?_⟩
            · intro i
              rw [getElem?_set_write m p e w hp i]
              by_cases h1 : i = p
              · subst h1; simp
              · have : ¬ (p ≤ i ∧ i ≤ p) := by omega
                simp [h1, this]
            · intro i h1 h2; omega
            · rw [← hq2.2, hqt]; simpa using hc
        · cases h

theorem walk_succ_spec (w : cte → cte) (hw : ∀ x, (w x).cap = x.cap) (t : Nat) :
    ∀ (fuel p : Nat) (m m' : MDB),
      copy_walk is_copy mdb_successor w t fuel p m = .ok m' →
      ∃ hi, p ≤ hi ∧ hi + 1 < m.length ∧ m'.length = m.length ∧
        (∀ i : Nat, m'[i]? = if p ≤ i ∧ i ≤ hi then Option.map w (m[i]?) else m[i]?) ∧
        (∀ i, p < i → i ≤ hi → copy_at is_copy m i t = true) ∧
        copy_at is_copy m (hi + 1) t = false := by
  intro fuel
  induction fuel with
  | zero => intro p m m' h; simp [copy_walk] at h
  | succ n ih =>
    intro p m m' h
    rw [copy_walk] at h
    split at h
    · cases h
    · rename_i e hp
      have hlt := getElem?_some_lt m p e hp
      simp only at h
      split at h
      · cases h
      · rename_i q hq
        have hq2 : p + 1 < m.length ∧ q = p + 1 := by
          unfold mdb_successor at hq
          split at hq
          · rename_i hne; cases hq; exact ⟨by simpa using hne, rfl⟩
          · cases hq
        split at h
        · rename_i eq ec heq hec
          have hqt : copy_at is_copy m q t = is_copy eq.cap ec.cap := by
            rw [← copy_at_set is_copy m p e w hw hp q t]
            exact copy_at_of is_copy _ q t eq ec heq hec
          split at h
          · rename_i hc
            obtain ⟨hi, hle, hlt2, hlen, hget, hcop, hstop⟩ := ih q _ _ h
            have hlen2 : (m.set p (w e)).length = m.length := by simp
            refine ⟨hi, by omega, by omega, by omega, ?_, ?_, ?_⟩
            · intro i
              rw [hget i, getElem?_set_write m p e w hp i]
              by_cases h1 : i = p
              · have h3 : ¬ (q ≤ i ∧ i ≤ hi) := by omega
                have h4 : p ≤ i ∧ i ≤ hi := by omega
                rw [if_neg h3, if_pos h1, if_pos h4]
              · by_cases h2 : q ≤ i ∧ i ≤ hi
                · have : p ≤ i ∧ i ≤ hi := by omega
                  simp [h1, h2, this]
                · have : ¬ (p ≤ i ∧ i ≤ hi) := by omega
                  simp [h1, h2, this]
            · intro i h1 h2
              by_cases h3 : i = q
              · subst h3; rw [hqt]; exact hc
              · have := hcop i (by omega) h2
                rwa [copy_at_set is_copy m p e w hw hp] at this
            · rwa [copy_at_set is_copy m p e w hw hp] at hstop
          · rename_i hc
            cases h
            refine ⟨p, le_refl _, hq2.1, by simp, ?_, ?_, ?_⟩
            · intro i
              rw [getElem?_set_write m p e w hp i]
              by_cases h1 : i = p
              · subst h1; simp
              · have : ¬ (p ≤ i ∧ i ≤ p) := by omega
                simp [h1, this]
            · intro i h1 h2; omega
            · rw [← hq2.2, hqt]; simpa using hc
        · cases h

theorem copy_at_congr (m m' : MDB)
    (h : ∀ i : Nat, Option.map cte.cap (m'[i]?) = Option.map cte.cap (m[i]?)) (a b : Nat) :
    copy_at is_copy m' a b = copy_at is_copy m a b := by
  have ha := h a
  have hb := h b
  unfold copy_at
  cases h1 : m'[a]? <;> cases h2 : m[a]? <;> cases h3 : m'[b]? <;> cases h4 : m[b]? <;>
    simp_all

theorem map_cap_of_range (w : cte → cte) (hw : ∀ x, (w x).cap = x.cap) (m m' : MDB)
    (P : Nat → Prop) [DecidablePred P]
    (h : ∀ i : Nat, m'[i]? = if P i then Option.map w (m[i]?) else m[i]?) (i : Nat) :
    Option.map cte.cap (m'[i]?) = Option.map cte.cap (m[i]?) := by
  rw [h i]
  by_cases hp : P i
  · rw [if_pos hp]; cases m[i]? <;> simp [hw]
  · rw [if_neg hp]

theorem class_walk_spec (w : cte → cte) (hw : ∀ x, (w x).cap = x.cap)
    (hidem : ∀ x, w (w x) = w x) (t f1 f2 : Nat) (m m1 m2 : MDB)
    (h1 : copy_walk is_copy mdb_predecessor w t f1 t m = .ok m1)
    (h2 : copy_walk is_copy mdb_successor w t f2 t m1 = .ok m2) :
    ∃ lo hi, 0 < lo ∧ lo ≤ t ∧ t ≤ hi ∧ hi + 1 < m.length ∧ m2.length = m.length ∧
      (∀ i : Nat, m2[i]? = if lo ≤ i ∧ i ≤ hi then Option.map w (m[i]?) else m[i]?) ∧
      (∀ i, lo ≤ i → i ≤ hi → i ≠ t → copy_at is_copy m i t = true) ∧
      copy_at is_copy m (lo - 1) t = false ∧ copy_at is_copy m (hi + 1) t = false := by
  obtain ⟨lo, h0, hle, hlt, hlen, hget, hcop, hstop⟩ :=
    walk_pred_spec is_copy w hw t f1 t m m1 h1
  obtain ⟨hi, hle2, hlt2, hlen2, hget2, hcop2, hstop2⟩ :=
    walk_succ_spec is_copy w hw t f2 t m1 m2 h2
  have hcaps : ∀ i : Nat, Option.map cte.cap (m1[i]?) = Option.map cte.cap (m[i]?) :=
    map_cap_of_range w hw m m1 (fun i => lo ≤ i ∧ i ≤ t) hget
  have hcc : ∀ a b, copy_at is_copy m1 a b = copy_at is_copy m a b :=
    copy_at_congr is_copy m m1 hcaps
  refine ⟨lo, hi, h0, hle, hle2, by omega, by omega, ?_, ?_, ?_, ?_⟩
  · intro i
    rw [hget2 i, hget i]
    by_cases ha : lo ≤ i ∧ i ≤ t
    · by_cases hb : t ≤ i ∧ i ≤ hi
      · have hc : lo ≤ i ∧ i ≤ hi := by omega
        rw [if_pos ha, if_pos hb, if_pos hc]
        cases m[i]? <;> simp [hidem]
      · have hc : lo ≤ i ∧ i ≤ hi := by omega
        rw [if_pos ha, if_neg hb, if_pos hc]
    · by_cases hb : t ≤ i ∧ i ≤ hi
      · have hc : lo ≤ i ∧ i ≤ hi := by omega
        rw [if_neg ha, if_pos hb, if_pos hc]
      · have hc : ¬ (lo ≤ i ∧ i ≤ hi) := by omega
        rw [if_neg ha, if_neg hb, if_neg hc]
  · intro i hi1 hi2 hne
    rcases Nat.lt_or_ge i t with hlt3 | hge
    · exact hcop i hi1 hlt3
    · have := hcop2 i (by omega) hi2
      rwa [hcc] at this
  · exact hstop
  · rwa [hcc] at hstop2


theorem copy_at_lt (m : MDB) (a b : Nat) (h : copy_at is_copy m a b = true) :
    a < m.length ∧ b < m.length := by
  unfold copy_at at h
  cases h1 : m[a]? with
  | none => simp [h1] at h
  | some x =>
    cases h2 : m[b]? with
    | none => simp [h1, h2] at h
    | some y => exact ⟨getElem?_some_lt m a x h1, getElem?_some_lt m b y h2⟩

theorem copy_in_range (m : MDB) (hc : copies_contiguous is_copy m) (t lo hi j : Nat)
    (h0 : 0 < lo) (hlo : lo ≤ t) (hhi : t ≤ hi)
    (hs1 : copy_at is_copy m (lo - 1) t = false) (hs2 : copy_at is_copy m (hi + 1) t = false)
    (hj : copy_at is_copy m j t = true) : lo ≤ j ∧ j ≤ hi := by
  obtain ⟨hjl, htl⟩ := copy_at_lt is_copy m j t hj
  constructor
  · by_contra hlt
    have hlt : j < lo := by omega
    by_cases he : j = lo - 1
    · rw [he, hs1] at hj; cases hj
    · have := (hc t htl (lo - 1) (by omega) j (by omega)).1 hj
      rw [hs1] at this; cases this
  · by_contra hlt
    have hlt : hi < j := by omega
    by_cases he : j = hi + 1
    · rw [he, hs2] at hj; cases hj
    · have := (hc j hjl (hi + 1) (by omega) t (by omega)).2 hj
      rw [hs2] at this; cases this

theorem write_owner_cap (v : Nat) (x : cte) : (write_owner v x).cap = x.cap := rfl

theorem write_owner_idem (v : Nat) (x : cte) :
    write_owner v (write_owner v x) = write_owner v x := rfl

theorem write_locked_cap (b : Bool) (x : cte) : (write_locked b x).cap = x.cap := rfl

theorem write_locked_idem (b : Bool) (x : cte) :
    write_locked b (write_locked b x) = write_locked b x := rfl

/-- A predecessor walk from position `p` ends within `p + 1` steps. -/
theorem walk_pred_fuel (w : cte → cte) (t : Nat) :
    ∀ (fuel p : Nat) (m : MDB), p < fuel →
      copy_walk is_copy mdb_predecessor w t fuel p m ≠ .error .out_of_fuel := by
  intro fuel
  induction fuel with
  | zero => intro p m h; omega
  | succ n ih =>
    intro p m h
    rw [copy_walk]
    split
    · simp
    · simp only
      split
      · simp
      · rename_i q hq
        have hq2 : p ≠ 0 ∧ q = p - 1 := by
          unfold mdb_predecessor at hq
          split at hq
          · cases hq
          · rename_i hne; cases hq; exact ⟨hne, rfl⟩
        split
        · split
          · exact ih q _ (by omega)
          · simp
        · simp

/-- A successor walk from position `p` ends within `m.length - p` steps. -/
theorem walk_succ_fuel (w : cte → cte) (t : Nat) :
    ∀ (fuel p : Nat) (m : MDB), p < m.length → m.length ≤ p + fuel →
      copy_walk is_copy mdb_successor w t fuel p m ≠ .error .out_of_fuel := by
  intro fuel
  induction fuel with
  | zero => intro p m h1 h2; omega
  | succ n ih =>
    intro p m h1 h
    rw [copy_walk]
    split
    · simp
    · simp only
      split
      · simp
      · rename_i q hq
        have hq2 : p + 1 < m.length ∧ q = p + 1 := by
          unfold mdb_successor at hq
          split at hq
          · rename_i hne; cases hq; exact ⟨by simpa using hne, rfl⟩
          · cases hq
        split
        · split
          · exact ih q _ (by simp; omega) (by simp; omega)
          · simp
        · simp

/-- The fuel that `sys_lock_cap_common` gives its walks is enough: for a
target in the MDB the walks end before it is used up. -/
theorem lock_cap_common_fuel (m : MDB) (t : Nat) (b : Bool) (ht : t < m.length) :
    sys_lock_cap_common is_copy m t b ≠ .error .out_of_fuel := by
  unfold sys_lock_cap_common
  split
  · rename_i a h1
    intro hc
    cases hc
    exact walk_pred_fuel is_copy _ t m.length t m ht h1
  · rename_i m1 h1
    obtain ⟨lo, _, _, _, hlen, _⟩ := walk_pred_spec is_copy (write_locked b)
      (write_locked_cap b) t m.length t m m1 h1
    exact walk_succ_fuel is_copy _ t m1.length t m1 (by omega) (by omega)

/-- The fuel that `sys_set_cap_owner` gives its walks is enough. -/
theorem set_cap_owner_fuel
    (caps_lookup_slot : MDB → capability → Nat → Nat → CapRights → Except errval_t Nat)
    (s : CapState) (cptr bits v : Nat) :
    sys_set_cap_owner is_copy caps_lookup_slot s cptr bits v ≠ .error .out_of_fuel := by
  unfold sys_set_cap_owner
  simp only
  split
  · simp
  · split
    · simp
    · rename_i _ C _ _ e he
      have hC := getElem?_some_lt s.mdb C e he
      split
      · rename_i a h1
        intro hc
        cases hc
        exact walk_pred_fuel is_copy _ C _ C _ (by simpa using hC) h1
      · rename_i m1 h1
        obtain ⟨lo, _, _, _, hlen, _⟩ := walk_pred_spec is_copy (write_owner v)
          (write_owner_cap v) C _ C _ m1 h1
        split
        · rename_i a h2
          intro hc
          cases hc
          exact walk_succ_fuel is_copy _ C m1.length C m1
            (by rw [hlen]; simpa using hC) (by omega) h2
        · simp

/-- A predecessor walk that meets a non-copy entry before the head of the MDB
returns a state. -/
theorem walk_pred_complete (w : cte → cte) (hw : ∀ x, (w x).cap = x.cap) (t : Nat) :
    ∀ (fuel p lo : Nat) (m : MDB), 0 < lo → lo ≤ p → p < m.length → t < m.length →
      p - lo < fuel → (∀ i, lo ≤ i → i < p → copy_at is_copy m i t = true) →
      copy_at is_copy m (lo - 1) t = false →
      ∃ m', copy_walk is_copy mdb_predecessor w t fuel p m = .ok m' := by
  intro fuel
  induction fuel with
  | zero => intro p lo m _ _ _ _ h; omega
  | succ n ih =>
    intro p lo m h0 hle hp ht hf hcop hstop
    rw [copy_walk]
    have hpe : m[p]? = some m[p] := List.getElem?_eq_getElem hp
    simp only [hpe]
    have hpred : mdb_predecessor (m.set p (w m[p])) p = some (p - 1) := by
      unfold mdb_predecessor
      have : p ≠ 0 := by omega
      simp [this]
    simp only [hpred]
    have hl1 : (m.set p (w m[p])).length = m.length := by simp
    have hq : (m.set p (w m[p]))[p - 1]? = some (m.set p (w m[p]))[p - 1] :=
      List.getElem?_eq_getElem (by omega)
    have htt : (m.set p (w m[p]))[t]? = some (m.set p (w m[p]))[t] :=
      List.getElem?_eq_getElem (by omega)
    rw [hq, htt]
    simp only
    have hqt : is_copy (m.set p (w m[p]))[p - 1].cap (m.set p (w m[p]))[t].cap
        = copy_at is_copy m (p - 1) t := by
      rw [← copy_at_set is_copy m p m[p] w hw hpe (p - 1) t]
      exact (copy_at_of is_copy _ (p - 1) t _ _ hq htt).symm
    rw [hqt]
    by_cases he : p = lo
    · have hs : copy_at is_copy m (p - 1) t = false := by rw [he]; exact hstop
      rw [hs]
      exact ⟨m.set p (w m[p]), by simp⟩
    · rw [hcop (p - 1) (by omega) (by omega)]
      simp only [if_true]
      apply ih (p - 1) lo _ h0 (by omega) (by omega) (by omega) (by omega)
      · intro i h1 h2
        rw [copy_at_set is_copy m p m[p] w hw hpe]
        exact hcop i h1 (by omega)
      · rw [copy_at_set is_copy m p m[p] w hw hpe]
        exact hstop

/-- A successor walk that meets a non-copy entry before the tail of the MDB
returns a state. -/
theorem walk_succ_complete (w : cte → cte) (hw : ∀ x, (w x).cap = x.cap) (t : Nat) :
    ∀ (fuel p hi : Nat) (m : MDB), p ≤ hi → hi + 1 < m.length → t < m.length →
      hi - p < fuel → (∀ i, p < i → i ≤ hi → copy_at is_copy m i t = true) →
      copy_at is_copy m (hi + 1) t = false →
      ∃ m', copy_walk is_copy mdb_successor w t fuel p m = .ok m' := by
  intro fuel
  induction fuel with
  | zero => intro p hi m _ _ _ h; omega
  | succ n ih =>
    intro p hi m hle hhi ht hf hcop hstop
    rw [copy_walk]
    have hp : p < m.length := by omega
    have hpe : m[p]? = some m[p] := List.getElem?_eq_getElem hp
    simp only [hpe]
    have hl1 : (m.set p (w m[p])).length = m.length := by simp
    have hsucc : mdb_successor (m.set p (w m[p])) p = some (p + 1) := by
      unfold mdb_successor
      have h1 : p + 1 < m.length := by omega
      simp [h1]
    simp only [hsucc]
    have hq : (m.set p (w m[p]))[p + 1]? = some (m.set p (w m[p]))[p + 1] :=
      List.getElem?_eq_getElem (by omega)
    have htt : (m.set p (w m[p]))[t]? = some (m.set p (w m[p]))[t] :=
      List.getElem?_eq_getElem (by omega)
    rw [hq, htt]
    simp only
    have hqt : is_copy (m.set p (w m[p]))[p + 1].cap (m.set p (w m[p]))[t].cap
        = copy_at is_copy m (p + 1) t := by
      rw [← copy_at_set is_copy m p m[p] w hw hpe (p + 1) t]
      exact (copy_at_of is_copy _ (p + 1) t _ _ hq htt).symm
    rw [hqt]
    by_cases he : p = hi
    · have hs : copy_at is_copy m (p + 1) t = false := by rw [he]; exact hstop
      rw [hs]
      exact ⟨m.set p (w m[p]), by simp⟩
    · rw [hcop (p + 1) (by omega) (by omega)]
      simp only [if_true]
      apply ih (p + 1) hi _ (by omega) (by omega) (by omega) (by omega)
      · intro i h1 h2
        rw [copy_at_set is_copy m p m[p] w hw hpe]
        exact hcop i (by omega) h2
      · rw [copy_at_set is_copy m p m[p] w hw hpe]
        exact hstop

/-- Totality away from the ends of the MDB: when the copies of the target
occupy positions `lo..hi` with a non-copy entry on either side,
`sys_lock_cap_common` returns a state. -/
theorem lock_cap_common_interior (m : MDB) (t lo hi : Nat) (b : Bool)
    (h0 : 0 < lo) (hlo : lo ≤ t) (hhi : t ≤ hi) (hlt : hi + 1 < m.length)
    (hcop : ∀ i, lo ≤ i → i ≤ hi → i ≠ t → copy_at is_copy m i t = true)
    (hs1 : copy_at is_copy m (lo - 1) t = false)
    (hs2 : copy_at is_copy m (hi + 1) t = false) :
    ∃ m', sys_lock_cap_common is_copy m t b = .ok m' := by
  obtain ⟨m1, h1⟩ := walk_pred_complete is_copy (write_locked b) (write_locked_cap b) t
    m.length t lo m h0 hlo (by omega) (by omega) (by omega)
    (fun i a c => hcop i a (by omega) (by omega)) hs1
  obtain ⟨lo1, _, _, _, hlen, hget, _, _⟩ := walk_pred_spec is_copy (write_locked b)
    (write_locked_cap b) t m.length t m m1 h1
  have hcc : ∀ a c, copy_at is_copy m1 a c = copy_at is_copy m a c :=
    copy_at_congr is_copy m m1
      (map_cap_of_range (write_locked b) (write_locked_cap b) m m1
        (fun i => lo1 ≤ i ∧ i ≤ t) hget)
  obtain ⟨m2, h2⟩ := walk_succ_complete is_copy (write_locked b) (write_locked_cap b) t
    m1.length t hi m1 hhi (by omega) (by omega) (by omega)
    (fun i a c => by rw [hcc]; exact hcop i (by omega) c (by omega))
    (by rw [hcc]; exact hs2)
  exact ⟨m2, by unfold sys_lock_cap_common; rw [h1]; exact h2⟩

/-- Closure of the lock walks: in an MDB with contiguous copies, after
`sys_lock_cap_common` has returned a state, every copy of the target has the
`locked` flag that was written. -/
theorem lock_cap_common_closure (m m' : MDB) (t : Nat) (b : Bool)
    (hc : copies_contiguous is_copy m)
    (h : sys_lock_cap_common is_copy m t b = .ok m') :
    ∀ (j : Nat) (ej et : cte), m'[j]? = some ej → m'[t]? = some et →
      is_copy ej.cap et.cap = true → ej.mdbnode.locked = b := by
  intro j ej et hj ht hcopy
  unfold sys_lock_cap_common at h
  split at h
  · cases h
  · rename_i m1 h1
    obtain ⟨lo, hi, h0, hlo, hhi, hlt, hlen, hget, hcop, hs1, hs2⟩ :=
      class_walk_spec is_copy (write_locked b) (write_locked_cap b) (write_locked_idem b)
        t _ _ m m1 m' h1 h
    have hcaps := map_cap_of_range (write_locked b) (write_locked_cap b) m m'
      (fun i => lo ≤ i ∧ i ≤ hi) hget
    have hjc : copy_at is_copy m j t = true := by
      rw [← copy_at_congr is_copy m m' hcaps, copy_at_of is_copy m' j t ej et hj ht]
      exact hcopy
    have hrange := copy_in_range is_copy m hc t lo hi j h0 hlo hhi hs1 hs2 hjc
    have := hget j
    rw [if_pos hrange, hj] at this
    cases hx : m[j]? with
    | none => rw [hx] at this; cases this
    | some x =>
      rw [hx] at this
      simp only [Option.map_some', Option.some.injEq] at this
      rw [this]; rfl

/-- Repeating the walks changes nothing: `sys_lock_cap_common` applied to the
state it returned returns that state again. -/
theorem lock_cap_common_idem (m m' : MDB) (t : Nat) (b : Bool)
    (h : sys_lock_cap_common is_copy m t b = .ok m') :
    sys_lock_cap_common is_copy m' t b = .ok m' := by
  have h' := h
  unfold sys_lock_cap_common at h
  split at h
  · cases h
  · rename_i m1 h1
    obtain ⟨lo, hi, h0, hlo, hhi, hlt, hlen, hget, hcop, hs1, hs2⟩ :=
      class_walk_spec is_copy (write_locked b) (write_locked_cap b) (write_locked_idem b)
        t _ _ m m1 m' h1 h
    have hcc : ∀ a c, copy_at is_copy m' a c = copy_at is_copy m a c :=
      copy_at_congr is_copy m m'
        (map_cap_of_range (write_locked b) (write_locked_cap b) m m'
          (fun i => lo ≤ i ∧ i ≤ hi) hget)
    have hfix : ∀ i : Nat, lo ≤ i → i ≤ hi →
        Option.map (write_locked b) (m'[i]?) = m'[i]? := by
      intro i a c
      rw [hget i, if_pos ⟨a, c⟩]
      cases m[i]? <;> simp [write_locked_idem]
    obtain ⟨n1, g1⟩ := walk_pred_complete is_copy (write_locked b) (write_locked_cap b) t
      m'.length t lo m' h0 hlo (by omega) (by omega) (by omega)
      (fun i a c => by rw [hcc]; exact hcop i a (by omega) (by omega))
      (by rw [hcc]; exact hs1)
    obtain ⟨lo1, k0, klo, _, klen, kget, kcop, _⟩ := walk_pred_spec is_copy (write_locked b)
      (write_locked_cap b) t m'.length t m' n1 g1
    have hlo1 : lo ≤ lo1 := by
      by_contra hc
      have := kcop (lo - 1) (by omega) (by omega)
      rw [hcc, hs1] at this
      cases this
    have e1 : n1 = m' := by
      apply List.ext_getElem?
      intro i
      rw [kget i]
      by_cases hi1 : lo1 ≤ i ∧ i ≤ t
      · rw [if_pos hi1]; exact hfix i (by omega) (by omega)
      · rw [if_neg hi1]
    subst e1
    obtain ⟨n2, g2⟩ := walk_succ_complete is_copy (write_locked b) (write_locked_cap b) t
      n1.length t hi n1 hhi (by omega) (by omega) (by omega)
      (fun i a c => by rw [hcc]; exact hcop i (by omega) c (by omega))
      (by rw [hcc]; exact hs2)
    obtain ⟨hi1, khi, _, _, kget2, kcop2, _⟩ := walk_succ_spec is_copy (write_locked b)
      (write_locked_cap b) t n1.length t n1 n2 g2
    have hhi1 : hi1 ≤ hi := by
      by_contra hc
      have := kcop2 (hi + 1) (by omega) (by omega)
      rw [hcc, hs2] at this
      cases this
    have e2 : n2 = n1 := by
      apply List.ext_getElem?
      intro i
      rw [kget2 i]
      by_cases hi2 : t ≤ i ∧ i ≤ hi1
      · rw [if_pos hi2]; exact hfix i (by omega) (by omega)
      · rw [if_neg hi2]
    subst e2
    unfold sys_lock_cap_common
    rw [g1]
    exact g2

/-- Once `sys_lock_cap_common` has returned a state for a target, it returns
a state for that target again, whichever flag is written: a lock that returned
can be followed by an unlock, and this by a lock. -/
theorem lock_cap_common_again (m m' : MDB) (t : Nat) (b b' : Bool)
    (h : sys_lock_cap_common is_copy m t b = .ok m') :
    ∃ m'', sys_lock_cap_common is_copy m' t b' = .ok m'' := by
  unfold sys_lock_cap_common at h
  split at h
  · cases h
  · rename_i m1 h1
    obtain ⟨lo, hi, h0, hlo, hhi, hlt, hlen, hget, hcop, hs1, hs2⟩ :=
      class_walk_spec is_copy (write_locked b) (write_locked_cap b) (write_locked_idem b)
        t _ _ m m1 m' h1 h
    have hcc : ∀ a c, copy_at is_copy m' a c = copy_at is_copy m a c :=
      copy_at_congr is_copy m m'
        (map_cap_of_range (write_locked b) (write_locked_cap b) m m'
          (fun i => lo ≤ i ∧ i ≤ hi) hget)
    exact lock_cap_common_interior is_copy m' t lo hi b' h0 hlo hhi (by omega)
      (fun i a c d => by rw [hcc]; exact hcop i a c d)
      (by rw [hcc]; exact hs1) (by rw [hcc]; exact hs2)

/-- C1: owner propagation closure.  In every MDB state in which all copies of
one object are contiguous, for every slot `C` that resolves in the caller's
CSpace and every core id `v`: after `sys_set_cap_owner(C, v)` has returned OK,
every entry whose capability `is_copy` of the capability of `C` has owner `v`,
and `sys_get_cap_owner` on any address that resolves to such an entry returns
OK with value `v`. -/
theorem set_cap_owner_closure
    (caps_lookup_slot : MDB → capability → Nat → Nat → CapRights → Except errval_t Nat)
    (s s' : CapState) (cptr bits v C : Nat) (r : sysret)
    (hcontig : copies_contiguous is_copy s.mdb)
    (hres : caps_lookup_slot s.mdb s.cspace_root cptr bits .CAPRIGHTS_NORIGHTS = .ok C)
    (hrun : sys_set_cap_owner is_copy caps_lookup_slot s cptr bits v = .ok (r, s'))
    (hok : r.error = SYS_ERR_OK) :
    ∀ (j : Nat) (ej eC : cte), s'.mdb[j]? = some ej → s'.mdb[C]? = some eC →
      is_copy ej.cap eC.cap = true →
      ej.mdbnode.owner = v ∧
      ∀ cptr2 bits2 : Nat,
        caps_lookup_slot s'.mdb s'.cspace_root cptr2 bits2 .CAPRIGHTS_NORIGHTS = .ok j →
        sys_get_cap_owner caps_lookup_slot s' cptr2 bits2 =
          .ok ({ error := SYS_ERR_OK, value := v }, s') := by
  intro j ej eC hj hC hcopy
  unfold sys_get_cap_owner
  unfold sys_set_cap_owner at hrun
  simp only [hres] at hrun
  split at hrun
  · cases hrun
  · rename_i e he
    split at hrun
    · cases hrun
    · rename_i m1 h1
      split at hrun
      · cases hrun
      · rename_i m2 h2
        cases hrun
        simp only at hj hC ⊢
        obtain ⟨lo, hi, h0, hlo, hhi, hlt, hlen, hget, hcop, hs1, hs2⟩ :=
          class_walk_spec is_copy (write_owner v) (write_owner_cap v) (write_owner_idem v)
            C _ _ _ m1 m2 h1 h2
        have hcaps0 : ∀ i : Nat, Option.map cte.cap ((s.mdb.set C (write_owner v e))[i]?)
            = Option.map cte.cap (s.mdb[i]?) := by
          intro i
          rw [getElem?_set_write s.mdb C e (write_owner v) he i]
          by_cases hi : i = C
          · rw [if_pos hi]; cases s.mdb[i]? <;> simp [write_owner_cap]
          · rw [if_neg hi]
        have hcaps2 := map_cap_of_range (write_owner v) (write_owner_cap v) _ m2
          (fun i => lo ≤ i ∧ i ≤ hi) hget
        have hc0 : copies_contiguous is_copy (s.mdb.set C (write_owner v e)) := by
          intro k hk j' hj' i hi'
          rw [copy_at_congr is_copy s.mdb _ hcaps0, copy_at_congr is_copy s.mdb _ hcaps0,
            copy_at_congr is_copy s.mdb _ hcaps0, copy_at_congr is_copy s.mdb _ hcaps0]
          exact hcontig k (by simpa using hk) j' hj' i hi'
        have hjc : copy_at is_copy (s.mdb.set C (write_owner v e)) j C = true := by
          rw [← copy_at_congr is_copy _ m2 hcaps2, copy_at_of is_copy m2 j C ej eC hj hC]
          exact hcopy
        have hrange := copy_in_range is_copy _ hc0 C lo hi j h0 hlo hhi hs1 hs2 hjc
        have hej : ej.mdbnode.owner = v := by
          have := hget j
          rw [if_pos hrange, hj] at this
          cases hx : (s.mdb.set C (write_owner v e))[j]? with
          | none => rw [hx] at this; cases this
          | some x =>
            rw [hx] at this
            simp only [Option.map_some', Option.some.injEq] at this
            rw [this]; rfl
        refine ⟨hej, ?_⟩
        intro cptr2 bits2 hl
        simp only [hl, hj, hej]

/-- C1 witness: in `mdb_inner` the two copies of frame 1 are contiguous; setting
the owner through the first copy returns OK, and afterwards the second copy
has the new owner, which `sys_get_cap_owner` returns. -/
theorem set_cap_owner_closure_witness :
    copies_contiguous is_copy_spec mdb_inner.mdb ∧
    sys_set_cap_owner is_copy_spec flat_lookup_slot mdb_inner 1 8 5
      = .ok (SYSRET SYS_ERR_OK, mdb_inner_owned) ∧
    (mk_cte (frame_cap 1) 5 false).mdbnode.owner = 5 ∧
    sys_get_cap_owner flat_lookup_slot mdb_inner_owned 2 8
      = .ok ({ error := SYS_ERR_OK, value := 5 }, mdb_inner_owned) :=
  have h := set_cap_owner_closure is_copy_spec flat_lookup_slot mdb_inner mdb_inner_owned
    1 8 5 1 (SYSRET SYS_ERR_OK) (by decide) (by decide) (by decide) rfl
    2 (mk_cte (frame_cap 1) 5 false) (mk_cte (frame_cap 1) 5 false)
    (by decide) (by decide) (by decide)
  ⟨by decide, by decide, h.1, h.2 2 8 (by decide)⟩

/-- C2, failing input: in `mdb_inner` all copies are contiguous, the target at
position 0 resolves and is unlocked, and it is the first entry of the MDB.
`sys_lock_cap` does not return OK: after locking the target the predecessor
walk evaluates `is_copy` through the null pointer that `mdb_predecessor`
yields. -/
theorem lock_cap_first_entry :
    copies_contiguous is_copy_spec mdb_inner.mdb ∧
    sys_double_lookup flat_lookup_slot flat_lookup_cap mdb_inner 0 32 0 8 = .ok (.ok 0) ∧
    Option.map (fun e => e.mdbnode.locked) (mdb_inner.mdb[0]?) = some false ∧
    sys_lock_cap is_copy_spec flat_lookup_slot flat_lookup_cap mdb_inner 0 32 0 8
      = .error .null_deref := by
  decide

/-- The test that `sys_lock_cap` makes is on the target's own flag: in every
state in which the target resolves to an entry whose `locked` flag is set,
`sys_lock_cap` returns `SYS_ERR_CAP_LOCKED` and the state is the one before
the call. -/
theorem lock_cap_locked_target
    (caps_lookup_slot : MDB → capability → Nat → Nat → CapRights → Except errval_t Nat)
    (caps_lookup_cap : MDB → capability → Nat → Nat → CapRights → Except errval_t capability)
    (s : CapState) (root_addr root_bits target_addr target_bits T : Nat) (e : cte)
    (hres : sys_double_lookup caps_lookup_slot caps_lookup_cap s root_addr root_bits
      target_addr target_bits = .ok (.ok T))
    (he : s.mdb[T]? = some e) (hl : e.mdbnode.locked = true) :
    sys_lock_cap is_copy caps_lookup_slot caps_lookup_cap s root_addr root_bits
      target_addr target_bits = .ok (SYSRET [.SYS_ERR_CAP_LOCKED], s) := by
  unfold sys_lock_cap
  simp [hres, he, hl]

/-- C3: lock is exclusive and fails atomically.  For every copy test, every
lookup and every state that satisfies the class invariant of the `locked`
flag: if the target `T` resolves and some entry `j` that is `T` itself or a
copy of `T` is locked, `sys_lock_cap` returns `SYS_ERR_CAP_LOCKED` and the
state, that is every capability, owner and locked flag, is the one before the
call. -/
theorem lock_cap_exclusive
    (caps_lookup_slot : MDB → capability → Nat → Nat → CapRights → Except errval_t Nat)
    (caps_lookup_cap : MDB → capability → Nat → Nat → CapRights → Except errval_t capability)
    (s : CapState) (root_addr root_bits target_addr target_bits T j : Nat)
    (hinv : locks_consistent is_copy s.mdb)
    (hres : sys_double_lookup caps_lookup_slot caps_lookup_cap s root_addr root_bits
      target_addr target_bits = .ok (.ok T))
    (hcopy : j = T ∨ copy_at is_copy s.mdb j T = true)
    (hlocked : Option.map (fun e => e.mdbnode.locked) (s.mdb[j]?) = some true) :
    sys_lock_cap is_copy caps_lookup_slot caps_lookup_cap s root_addr root_bits
      target_addr target_bits = .ok (SYSRET [.SYS_ERR_CAP_LOCKED], s) := by
  have hT : Option.map (fun e => e.mdbnode.locked) (s.mdb[T]?) = some true := by
    rcases hcopy with h | h
    · rw [← h]; exact hlocked
    · obtain ⟨h1, h2⟩ := copy_at_lt is_copy s.mdb j T h
      rw [← hinv j h1 T h2 h]; exact hlocked
  cases he : s.mdb[T]? with
  | none => rw [he] at hT; cases hT
  | some e =>
    rw [he] at hT
    simp only [Option.map_some', Option.some.injEq] at hT
    unfold sys_lock_cap
    simp [hres, he, hT]

/-- C3 witness: `mdb_inner_locked` satisfies the class invariant, the target
at position 1 resolves, and its copy at position 2 is locked; `sys_lock_cap`
on the target fails with `SYS_ERR_CAP_LOCKED` and changes nothing. -/
theorem lock_cap_exclusive_witness :
    locks_consistent is_copy_spec mdb_inner_locked.mdb ∧
    sys_double_lookup flat_lookup_slot flat_lookup_cap mdb_inner_locked 0 32 1 8
      = .ok (.ok 1) ∧
    copy_at is_copy_spec mdb_inner_locked.mdb 2 1 = true ∧
    sys_lock_cap is_copy_spec flat_lookup_slot flat_lookup_cap mdb_inner_locked 0 32 1 8
      = .ok (SYSRET [.SYS_ERR_CAP_LOCKED], mdb_inner_locked) :=
  ⟨by decide, by decide, by decide,
   lock_cap_exclusive is_copy_spec flat_lookup_slot flat_lookup_cap mdb_inner_locked
     0 32 1 8 1 2 (by decide) (by decide) (Or.inr (by decide)) (by decide)⟩

/-- C4, failing input: the target at position 3 of `mdb_inner` resolves and is
the last entry of the MDB.  `sys_unlock_cap` does not return OK: the
successor walk evaluates `is_copy` through the null pointer that
`mdb_successor` yields. -/
theorem unlock_cap_last_entry :
    sys_double_lookup flat_lookup_slot flat_lookup_cap mdb_inner 0 32 3 8 = .ok (.ok 3) ∧
    mdb_successor mdb_inner.mdb 3 = none ∧
    sys_unlock_cap is_copy_spec flat_lookup_slot flat_lookup_cap mdb_inner 0 32 3 8
      = .error .null_deref := by
  decide

end OwnerLockTheorems

/-! ## Dispatcher setup -/

section DispatcherTheorems

variable (caps_lookup_slot : capability → Nat → Nat → CapRights → Except errval_t cte)
variable (caps_lookup_cap : capability → Nat → Nat → CapRights → Except errval_t capability)
variable (caps_copy_to_cte : cte → cte → Bool → Nat → Nat → errval_t × cte)
variable (gen_phys_to_local_phys : Nat → Nat)
variable (local_phys_to_mem : Nat → Nat)
variable (CONFIG_PAE : Bool)

theorem keeps_refl (k : Nat) (d : dcb) : keeps k d d := by
  unfold keeps; simp

theorem keeps_trans (k k1 : Nat) (d d1 d2 : dcb) (h : keeps k d d1) (h1 : keeps k1 d1 d2) :
    keeps (max k k1) d d2 := by
  unfold keeps at *
  obtain ⟨a1, a2, a3, a4, a5, a6, a7⟩ := h
  obtain ⟨b1, b2, b3, b4, b5, b6, b7⟩ := h1
  refine ⟨?_, ?_, ?_, ?_, ?_, ?_, ?_⟩
  · intro hk; rw [b1 (by omega), a1 (by omega)]
  · intro hk; rw [b2 (by omega), a2 (by omega)]
  · intro hk; rw [(b3 (by omega)).1, (b3 (by omega)).2, (a3 (by omega)).1, (a3 (by omega)).2]
    exact ⟨rfl, rfl⟩
  · intro hk; rw [b4 (by omega), a4 (by omega)]
  · intro hk; rw [b5 (by omega), a5 (by omega)]
  · rw [b6, a6]
  · rw [b7, a7]

theorem stage_rel_refl (k dcbp : Nat) (s : DispState) : stage_rel k dcbp s s :=
  ⟨rfl, rfl, rfl, fun _ => rfl, fun _ _ => rfl, fun d hd => ⟨d, hd, keeps_refl k d⟩⟩

theorem stage_rel_trans (k k1 dcbp : Nat) (s s1 s2 : DispState)
    (h : stage_rel k dcbp s s1) (h1 : stage_rel k1 dcbp s1 s2) :
    stage_rel (max k k1) dcbp s s2 := by
  obtain ⟨a1, a2, a3, a4, a5, a6⟩ := h
  obtain ⟨b1, b2, b3, b4, b5, b6⟩ := h1
  refine ⟨by rw [b1, a1], by rw [b2, a2], by rw [b3, a3], ?_, ?_, ?_⟩
  · intro hk; rw [b4 (by omega), a4 (by omega)]
  · intro p hp; rw [b5 p hp, a5 p hp]
  · intro d hd
    obtain ⟨d1, hd1, hk1⟩ := a6 d hd
    obtain ⟨d2, hd2, hk2⟩ := b6 d1 hd1
    exact ⟨d2, hd2, keeps_trans k k1 d d1 d2 hk1 hk2⟩

theorem stage_rel_set (k dcbp : Nat) (s : DispState) (d d1 : dcb)
    (hd : s.dcbs[dcbp]? = some d) (hk : keeps k d d1) :
    stage_rel k dcbp s { s with dcbs := s.dcbs.set dcbp d1 } := by
  have hlt := getElem?_some_lt s.dcbs dcbp d hd
  refine ⟨rfl, rfl, by simp, fun _ => rfl, ?_, ?_⟩
  · intro p hp
    have : ¬ dcbp = p := fun h => hp h.symm
    simp [List.getElem?_set, this]
  · intro d' hd'
    rw [hd] at hd'; cases hd'
    exact ⟨d1, by simp [List.getElem?_set, hlt], hk⟩

theorem err_is_fail_false (err : errval_t) (h : ¬ err_is_fail err = true) :
    err = SYS_ERR_OK := by
  cases err with
  | nil => rfl
  | cons a l => simp [err_is_fail] at h

theorem setup_cspace_cont (dcbp cptr depth : Nat) (err err1 : errval_t) (s s1 : DispState)
    (herr : err = SYS_ERR_OK)
    (h : setup_cspace caps_lookup_slot caps_copy_to_cte dcbp cptr depth err s = .cont err1 s1) :
    err1 = SYS_ERR_OK ∧ stage_rel 1 dcbp s s1 := by
  unfold setup_cspace at h
  split at h
  · split at h
    · cases h
    · split at h
      · cases h
      · simp only at h
        split at h
        · cases h
        · split at h
          · cases h
          · rename_i d hd
            split at h
            · cases h
            · rename_i hf
              cases h
              refine ⟨err_is_fail_false _ hf, stage_rel_set 1 dcbp s d _ hd ?_⟩
              unfold keeps; simp
  · cases h; exact ⟨herr, stage_rel_refl _ _ _⟩

theorem setup_vspace_ret (dcbp vptr : Nat) (err : errval_t) (s s1 : DispState) (r : sysret)
    (h : setup_vspace caps_lookup_cap gen_phys_to_local_phys CONFIG_PAE dcbp vptr err s
      = .ret r s1) :
    (r.error.head? = some .SYS_ERR_DISP_VSPACE_ROOT ∨
      r = SYSRET [.SYS_ERR_DISP_VSPACE_INVALID]) ∧ s1 = s := by
  unfold setup_vspace at h
  split at h
  · split at h
    · cases h
    · split at h
      · cases h; exact ⟨Or.inl rfl, rfl⟩
      · simp only at h
        split at h
        · split at h <;> cases h
        · cases h; exact ⟨Or.inr rfl, rfl⟩
  · cases h

theorem setup_vspace_cont (dcbp vptr : Nat) (err err1 : errval_t) (s s1 : DispState)
    (herr : err = SYS_ERR_OK)
    (h : setup_vspace caps_lookup_cap gen_phys_to_local_phys CONFIG_PAE dcbp vptr err s
      = .cont err1 s1) :
    err1 = SYS_ERR_OK ∧ stage_rel 2 dcbp s s1 := by
  unfold setup_vspace at h
  split at h
  · split at h
    · cases h
    · split at h
      · cases h
      · simp only at h
        split at h
        · split at h
          · cases h
          · rename_i d hd
            cases h
            refine ⟨rfl, stage_rel_set 2 dcbp s d _ hd ?_⟩
            unfold keeps; simp
        · cases h
  · cases h; exact ⟨herr, stage_rel_refl _ _ _⟩

theorem setup_frame_ret (dcbp dptr : Nat) (err : errval_t) (s s1 : DispState) (r : sysret)
    (h : setup_frame caps_lookup_slot caps_copy_to_cte gen_phys_to_local_phys local_phys_to_mem
      dcbp dptr err s = .ret r s1) :
    (r.error.head? = some .SYS_ERR_DISP_FRAME ∨
      r = SYSRET [.SYS_ERR_DISP_FRAME_INVALID]) ∧ s1 = s := by
  unfold setup_frame at h
  split at h
  · split at h
    · cases h
    · split at h
      · cases h; exact ⟨Or.inl rfl, rfl⟩
      · simp only at h
        split at h
        · cases h; exact ⟨Or.inr rfl, rfl⟩
        · split at h
          · cases h
          · split at h <;> cases h
  · cases h

theorem setup_frame_cont (dcbp dptr : Nat) (err err1 : errval_t) (s s1 : DispState)
    (herr : err = SYS_ERR_OK)
    (h : setup_frame caps_lookup_slot caps_copy_to_cte gen_phys_to_local_phys local_phys_to_mem
      dcbp dptr err s = .cont err1 s1) :
    err1 = SYS_ERR_OK ∧ stage_rel 3 dcbp s s1 := by
  unfold setup_frame at h
  split at h
  · split at h
    · cases h
    · split at h
      · cases h
      · simp only at h
        split at h
        · cases h
        · split at h
          · cases h
          · rename_i d hd
            split at h
            · cases h
            · rename_i hf
              cases h
              refine ⟨err_is_fail_false _ hf, stage_rel_set 3 dcbp s d _ hd ?_⟩
              unfold keeps; simp
  · cases h; exact ⟨herr, stage_rel_refl _ _ _⟩


theorem stage_rel_mono (k k1 dcbp : Nat) (s s1 : DispState) (hk : k ≤ k1)
    (h : stage_rel k dcbp s s1) : stage_rel k1 dcbp s s1 := by
  have := stage_rel_trans k k1 dcbp s s1 s1 h (stage_rel_refl k1 dcbp s1)
  rwa [max_eq_right hk] at this

theorem setup_install_cont (s s3 : DispState) (dcbp cptr depth vptr dptr : Nat) (err3 : errval_t)
    (h : setup_install caps_lookup_slot caps_lookup_cap caps_copy_to_cte gen_phys_to_local_phys
      local_phys_to_mem CONFIG_PAE s dcbp cptr depth vptr dptr = .cont err3 s3) :
    err3 = SYS_ERR_OK ∧ stage_rel 3 dcbp s s3 := by
  unfold setup_install at h
  cases h1 : setup_cspace caps_lookup_slot caps_copy_to_cte dcbp cptr depth SYS_ERR_OK s with
  | abort a => rw [h1] at h; cases h
  | ret r s1 => rw [h1] at h; cases h
  | cont e1 s1 =>
    rw [h1] at h
    simp only [Flow.andThen] at h
    obtain ⟨he1, hr1⟩ := setup_cspace_cont caps_lookup_slot caps_copy_to_cte dcbp cptr depth
      _ e1 s s1 rfl h1
    cases h2 : setup_vspace caps_lookup_cap gen_phys_to_local_phys CONFIG_PAE dcbp vptr e1 s1 with
    | abort a => rw [h2] at h; cases h
    | ret r s2 => rw [h2] at h; cases h
    | cont e2 s2 =>
      rw [h2] at h
      simp only [Flow.andThen] at h
      obtain ⟨he2, hr2⟩ := setup_vspace_cont caps_lookup_cap gen_phys_to_local_phys CONFIG_PAE
        dcbp vptr e1 e2 s1 s2 he1 h2
      obtain ⟨he3, hr3⟩ := setup_frame_cont caps_lookup_slot caps_copy_to_cte
        gen_phys_to_local_phys local_phys_to_mem dcbp dptr e2 err3 s2 s3 he2 h
      exact ⟨he3, stage_rel_trans _ 3 dcbp s s2 s3 (stage_rel_trans 1 2 dcbp s s1 s2 hr1 hr2) hr3⟩

theorem setup_run_ret (dcbp : Nat) (run : Bool) (err : errval_t) (s s1 : DispState) (r : sysret)
    (h : setup_run dcbp run err s = .ret r s1) :
    s1 = s ∧ r = SYSRET (err_push err .SYS_ERR_DISP_NOT_RUNNABLE) ∧
      ∃ d, s.dcbs[dcbp]? = some d ∧ d.not_runnable = true := by
  unfold setup_run at h
  split at h
  · split at h
    · cases h
    · rename_i d hd
      split at h
      · rename_i hn; cases h; exact ⟨rfl, rfl, d, hd, hn⟩
      · cases h
  · cases h

theorem setup_run_cont (dcbp : Nat) (run : Bool) (err err1 : errval_t) (s s1 : DispState)
    (h : setup_run dcbp run err s = .cont err1 s1) :
    err1 = err ∧ stage_rel 5 dcbp s s1 ∧
      (run = true → ∃ d, s.dcbs[dcbp]? = some d ∧ d.not_runnable = false ∧
        s1 = { s with dcbs := s.dcbs.set dcbp { d with disabled := true },
                      events := .make_runnable dcbp :: s.events }) := by
  unfold setup_run at h
  split at h
  · split at h
    · cases h
    · rename_i d hd
      split at h
      · cases h
      · rename_i hn
        cases h
        refine ⟨rfl, ?_, fun _ => ⟨d, hd, by simpa using hn, rfl⟩⟩
        have hlt := getElem?_some_lt s.dcbs dcbp d hd
        refine ⟨rfl, rfl, by simp, fun hk => absurd hk (by omega), ?_, ?_⟩
        · intro p hp
          have : ¬ dcbp = p := fun h => hp h.symm
          simp [List.getElem?_set, this]
        · intro d' hd'
          rw [hd] at hd'; cases hd'
          refine ⟨{ d with disabled := true }, by simp [List.getElem?_set, hlt], ?_⟩
          unfold keeps; simp
  · rename_i hr
    cases h
    exact ⟨rfl, stage_rel_refl _ _ _, fun h => absurd h hr⟩

theorem setup_domain_ret (dcbp odptr : Nat) (err : errval_t) (s s1 : DispState) (r : sysret)
    (h : setup_domain caps_lookup_cap dcbp odptr err s = .ret r s1) :
    r.error.head? = some .SYS_ERR_DISP_OCAP_LOOKUP ∧ s1 = s := by
  unfold setup_domain at h
  split at h
  · split at h
    · cases h
    · split at h
      · cases h; exact ⟨rfl, rfl⟩
      · simp only at h
        split at h <;> cases h
  · cases h

theorem setup_register_not_ret (dcbp : Nat) (err : errval_t) (s s1 : DispState) (r : sysret) :
    setup_register dcbp err s ≠ .ret r s1 := by
  intro h
  unfold setup_register at h
  split at h
  · cases h
  · simp only at h
    split at h
    · split at h <;> cases h
    · cases h


theorem keeps_unless_refl (c v f r : Bool) (d : dcb) : keeps_unless c v f r d d := by
  unfold keeps_unless; simp

theorem keeps_unless_trans (c v f r c1 v1 f1 r1 : Bool) (d d1 d2 : dcb)
    (h : keeps_unless c v f r d d1) (h1 : keeps_unless c1 v1 f1 r1 d1 d2) :
    keeps_unless (c || c1) (v || v1) (f || f1) (r || r1) d d2 := by
  unfold keeps_unless at *
  obtain ⟨a1, a2, a3, a4, a5, a6, a7⟩ := h
  obtain ⟨b1, b2, b3, b4, b5, b6, b7⟩ := h1
  simp only [Bool.or_eq_false_iff]
  refine ⟨?_, ?_, ?_, ?_, ?_, ?_, ?_⟩
  · intro hk; rw [b1 hk.2, a1 hk.1]
  · intro hk; rw [b2 hk.2, a2 hk.1]
  · intro hk; rw [(b3 hk.2).1, (b3 hk.2).2, (a3 hk.1).1, (a3 hk.1).2]
    exact ⟨rfl, rfl⟩
  · intro hk; rw [b4 hk.2, a4 hk.1]
  · rw [b5, a5]
  · rw [b6, a6]
  · rw [b7, a7]

theorem only_wrote_refl (c v f r : Bool) (dcbp : Nat) (s : DispState) :
    only_wrote c v f r dcbp s s :=
  ⟨rfl, rfl, rfl, fun _ => rfl, fun _ _ => rfl, fun d hd => ⟨d, hd, keeps_unless_refl c v f r d⟩⟩

theorem only_wrote_trans (c v f r c1 v1 f1 r1 : Bool) (dcbp : Nat) (s s1 s2 : DispState)
    (h : only_wrote c v f r dcbp s s1) (h1 : only_wrote c1 v1 f1 r1 dcbp s1 s2) :
    only_wrote (c || c1) (v || v1) (f || f1) (r || r1) dcbp s s2 := by
  obtain ⟨a1, a2, a3, a4, a5, a6⟩ := h
  obtain ⟨b1, b2, b3, b4, b5, b6⟩ := h1
  refine ⟨by rw [b1, a1], by rw [b2, a2], by rw [b3, a3], ?_, ?_, ?_⟩
  · intro hk
    rw [Bool.or_eq_false_iff] at hk
    rw [b4 hk.2, a4 hk.1]
  · intro p hp; rw [b5 p hp, a5 p hp]
  · intro d hd
    obtain ⟨d1, hd1, hk1⟩ := a6 d hd
    obtain ⟨d2, hd2, hk2⟩ := b6 d1 hd1
    exact ⟨d2, hd2, keeps_unless_trans c v f r c1 v1 f1 r1 d d1 d2 hk1 hk2⟩

theorem only_wrote_set (c v f r : Bool) (dcbp : Nat) (s : DispState) (d d1 : dcb)
    (hd : s.dcbs[dcbp]? = some d) (hk : keeps_unless c v f r d d1) :
    only_wrote c v f r dcbp s { s with dcbs := s.dcbs.set dcbp d1 } := by
  have hlt := getElem?_some_lt s.dcbs dcbp d hd
  refine ⟨rfl, rfl, by simp, fun _ => rfl, ?_, ?_⟩
  · intro p hp
    have : ¬ dcbp = p := fun h => hp h.symm
    simp [List.getElem?_set, this]
  · intro d' hd'
    rw [hd] at hd'; cases hd'
    exact ⟨d1, by simp [List.getElem?_set, hlt], hk⟩

theorem bne_null_true (p : Nat) (h : p ≠ CPTR_NULL) : (p != CPTR_NULL) = true := by
  simpa using h

theorem bne_null_false (p : Nat) (h : ¬ p ≠ CPTR_NULL) : (p != CPTR_NULL) = false := by
  simpa using h

/-- An early return of stage 1: the lookup failed or the capability is not a
CNode, and nothing has been written; or `caps_copy_to_cte` reported failure,
and the state differs by what it left in `dcb->cspace`. -/
theorem setup_cspace_ret_cases (dcbp cptr depth : Nat) (err : errval_t) (s s1 : DispState)
    (r : sysret)
    (h : setup_cspace caps_lookup_slot caps_copy_to_cte dcbp cptr depth err s = .ret r s1) :
    (r = SYSRET [.SYS_ERR_DISP_CSPACE_INVALID] ∧ s1 = s) ∨
    (r.error.head? = some .SYS_ERR_DISP_CSPACE_ROOT ∧
      ((∃ croot e, s.current_root = some croot ∧
          caps_lookup_slot croot cptr depth .CAPRIGHTS_READ = .error e ∧ s1 = s) ∨
       (∃ croot root d e c, s.current_root = some croot ∧
          caps_lookup_slot croot cptr depth .CAPRIGHTS_READ = .ok root ∧
          s.dcbs[dcbp]? = some d ∧
          caps_copy_to_cte d.cspace root false 0 0 = (e, c) ∧ err_is_fail e = true ∧
          s1 = { s with dcbs := s.dcbs.set dcbp { d with cspace := c } }))) := by
  unfold setup_cspace at h
  split at h
  · split at h
    · cases h
    · rename_i croot hcroot
      split at h
      · rename_i e he
        cases h; right; exact ⟨rfl, Or.inl ⟨croot, e, hcroot, he, rfl⟩⟩
      · rename_i root hroot
        simp only at h
        split at h
        · cases h; left; exact ⟨rfl, rfl⟩
        · split at h
          · cases h
          · rename_i d hd
            split at h
            · rename_i hf
              cases h
              right
              exact ⟨rfl, Or.inr ⟨croot, root, d, _, _, hcroot, hroot, hd, rfl, hf, rfl⟩⟩
            · cases h
  · cases h

theorem setup_cspace_wrote (dcbp cptr depth : Nat) (err err1 : errval_t) (s s1 : DispState)
    (h : setup_cspace caps_lookup_slot caps_copy_to_cte dcbp cptr depth err s = .cont err1 s1) :
    only_wrote (cptr != CPTR_NULL) false false false dcbp s s1 := by
  unfold setup_cspace at h
  split at h
  · rename_i hc
    rw [bne_null_true cptr hc]
    split at h
    · cases h
    · split at h
      · cases h
      · simp only at h
        split at h
        · cases h
        · split at h
          · cases h
          · rename_i d hd
            split at h
            · cases h
            · cases h
              refine only_wrote_set _ _ _ _ dcbp s d _ hd ?_
              unfold keeps_unless; simp
  · cases h; exact only_wrote_refl _ _ _ _ _ _

theorem setup_vspace_wrote (dcbp vptr : Nat) (err err1 : errval_t) (s s1 : DispState)
    (h : setup_vspace caps_lookup_cap gen_phys_to_local_phys CONFIG_PAE dcbp vptr err s
      = .cont err1 s1) :
    only_wrote false (vptr != CPTR_NULL) false false dcbp s s1 := by
  unfold setup_vspace at h
  split at h
  · rename_i hc
    rw [bne_null_true vptr hc]
    split at h
    · cases h
    · split at h
      · cases h
      · simp only at h
        split at h
        · split at h
          · cases h
          · rename_i d hd
            cases h
            refine only_wrote_set _ _ _ _ dcbp s d _ hd ?_
            unfold keeps_unless; simp
        · cases h
  · cases h; exact only_wrote_refl _ _ _ _ _ _

theorem setup_frame_wrote (dcbp dptr : Nat) (err err1 : errval_t) (s s1 : DispState)
    (h : setup_frame caps_lookup_slot caps_copy_to_cte gen_phys_to_local_phys local_phys_to_mem
      dcbp dptr err s = .cont err1 s1) :
    only_wrote false false (dptr != CPTR_NULL) false dcbp s s1 := by
  unfold setup_frame at h
  split at h
  · rename_i hc
    rw [bne_null_true dptr hc]
    split at h
    · cases h
    · split at h
      · cases h
      · simp only at h
        split at h
        · cases h
        · split at h
          · cases h
          · rename_i d hd
            split at h
            · cases h
            · cases h
              refine only_wrote_set _ _ _ _ dcbp s d _ hd ?_
              unfold keeps_unless; simp
  · cases h; exact only_wrote_refl _ _ _ _ _ _

theorem setup_run_wrote (dcbp : Nat) (run : Bool) (err err1 : errval_t) (s s1 : DispState)
    (h : setup_run dcbp run err s = .cont err1 s1) :
    only_wrote false false false run dcbp s s1 := by
  unfold setup_run at h
  split at h
  · rename_i hr
    rw [hr]
    split at h
    · cases h
    · rename_i d hd
      split at h
      · cases h
      · cases h
        have hlt := getElem?_some_lt s.dcbs dcbp d hd
        refine ⟨rfl, rfl, by simp, (fun hk => by cases hk), ?_, ?_⟩
        · intro p hp
          have : ¬ dcbp = p := fun h => hp h.symm
          simp [List.getElem?_set, this]
        · intro d' hd'
          rw [hd] at hd'; cases hd'
          refine ⟨{ d with disabled := true }, by simp [List.getElem?_set, hlt], ?_⟩
          unfold keeps_unless; simp
  · cases h; exact only_wrote_refl _ _ _ _ _ _

/-- C6 (amended): an error return of `sys_dispatcher_setup` leaves unchanged
every field that the failing stage or a later stage installs.  Every call
that returns an error is one of these: a CSpace root that is no CNode, or a
CSpace address that does not resolve, and the whole state is the one before
the call; a copy into `dcb->cspace` for which `caps_copy_to_cte` reports
failure, and the state differs only by what that function left in the slot;
a VSpace error, and the state differs at most in `cspace`, and in it only if
`cptr` was given; a dispatcher frame error, at most in `cspace` and `vspace`,
each only if its address was given; not-runnable, at most in `cspace`,
`vspace`, `disp` and `disp_cte`, likewise; a failed lookup of the other
dispatcher, in these and, if `run` was set, in `disabled` and the call of
`make_runnable`.  In every case `domain_id`, `next_all`, every other DCB and
the global `dcbs_list` are as before. -/
theorem dispatcher_setup_error_frame (s s' : DispState) (to_cap : capability)
    (cptr depth vptr dptr : Nat) (run : Bool) (odptr : Nat) (r : sysret)
    (hrun : sys_dispatcher_setup caps_lookup_slot caps_lookup_cap caps_copy_to_cte
      gen_phys_to_local_phys local_phys_to_mem CONFIG_PAE s to_cap cptr depth vptr dptr run odptr
      = .ok (r, s'))
    (hfail : r.error ≠ SYS_ERR_OK) :
    (r.error.head? = some .SYS_ERR_DISP_CSPACE_INVALID ∧ s' = s) ∨
    (r.error.head? = some .SYS_ERR_DISP_CSPACE_ROOT ∧
      ((∃ croot e, s.current_root = some croot ∧
          caps_lookup_slot croot cptr depth .CAPRIGHTS_READ = .error e ∧ s' = s) ∨
       (∃ croot root d e c, s.current_root = some croot ∧
          caps_lookup_slot croot cptr depth .CAPRIGHTS_READ = .ok root ∧
          s.dcbs[to_cap.dcb]? = some d ∧
          caps_copy_to_cte d.cspace root false 0 0 = (e, c) ∧ err_is_fail e = true ∧
          s' = { s with dcbs := s.dcbs.set to_cap.dcb { d with cspace := c } }))) ∨
    ((r.error.head? = some .SYS_ERR_DISP_VSPACE_ROOT ∨
        r.error.head? = some .SYS_ERR_DISP_VSPACE_INVALID) ∧
      only_wrote (cptr != CPTR_NULL) false false false to_cap.dcb s s') ∨
    ((r.error.head? = some .SYS_ERR_DISP_FRAME ∨
        r.error.head? = some .SYS_ERR_DISP_FRAME_INVALID) ∧
      only_wrote (cptr != CPTR_NULL) (vptr != CPTR_NULL) false false to_cap.dcb s s') ∨
    (r.error.head? = some .SYS_ERR_DISP_NOT_RUNNABLE ∧
      only_wrote (cptr != CPTR_NULL) (vptr != CPTR_NULL) (dptr != CPTR_NULL) false
        to_cap.dcb s s') ∨
    (r.error.head? = some .SYS_ERR_DISP_OCAP_LOOKUP ∧
      only_wrote (cptr != CPTR_NULL) (vptr != CPTR_NULL) (dptr != CPTR_NULL) run
        to_cap.dcb s s') := by
  unfold sys_dispatcher_setup at hrun
  split at hrun
  · cases hrun
  · simp only [setup_install] at hrun
    cases h1 : setup_cspace caps_lookup_slot caps_copy_to_cte to_cap.dcb cptr depth
        SYS_ERR_OK s with
    | abort a => rw [h1] at hrun; simp [Flow.andThen] at hrun
    | ret r1 s1 =>
      rw [h1] at hrun
      simp only [Flow.andThen] at hrun
      cases hrun
      rcases setup_cspace_ret_cases caps_lookup_slot caps_copy_to_cte to_cap.dcb cptr depth
        _ s s' r h1 with ⟨hr, hs⟩ | hh
      · exact Or.inl ⟨by rw [hr]; rfl, hs⟩
      · exact Or.inr (Or.inl hh)
    | cont e1 s1 =>
      rw [h1] at hrun
      simp only [Flow.andThen] at hrun
      have w1 := setup_cspace_wrote caps_lookup_slot caps_copy_to_cte to_cap.dcb cptr depth
        _ e1 s s1 h1
      cases h2 : setup_vspace caps_lookup_cap gen_phys_to_local_phys CONFIG_PAE to_cap.dcb
          vptr e1 s1 with
      | abort a => rw [h2] at hrun; simp at hrun
      | ret r2 s2 =>
        rw [h2] at hrun
        simp only at hrun
        cases hrun
        obtain ⟨hh, hs⟩ := setup_vspace_ret caps_lookup_cap gen_phys_to_local_phys CONFIG_PAE
          to_cap.dcb vptr e1 s1 s' r h2
        subst hs
        refine Or.inr (Or.inr (Or.inl ⟨?_, w1⟩))
        rcases hh with hh | hh
        · exact Or.inl hh
        · exact Or.inr (by rw [hh]; rfl)
      | cont e2 s2 =>
        rw [h2] at hrun
        simp only at hrun
        have w2 := setup_vspace_wrote caps_lookup_cap gen_phys_to_local_phys CONFIG_PAE
          to_cap.dcb vptr e1 e2 s1 s2 h2
        have w12 := only_wrote_trans _ _ _ _ _ _ _ _ to_cap.dcb s s1 s2 w1 w2
        simp only [Bool.or_false, Bool.false_or] at w12
        cases h3 : setup_frame caps_lookup_slot caps_copy_to_cte gen_phys_to_local_phys
            local_phys_to_mem to_cap.dcb dptr e2 s2 with
        | abort a => rw [h3] at hrun; simp at hrun
        | ret r3 s3 =>
          rw [h3] at hrun
          simp only at hrun
          cases hrun
          obtain ⟨hh, hs⟩ := setup_frame_ret caps_lookup_slot caps_copy_to_cte
            gen_phys_to_local_phys local_phys_to_mem to_cap.dcb dptr e2 s2 s' r h3
          subst hs
          refine Or.inr (Or.inr (Or.inr (Or.inl ⟨?_, w12⟩)))
          rcases hh with hh | hh
          · exact Or.inl hh
          · exact Or.inr (by rw [hh]; rfl)
        | cont e3 s3 =>
          rw [h3] at hrun
          simp only at hrun
          have w3 := setup_frame_wrote caps_lookup_slot caps_copy_to_cte gen_phys_to_local_phys
            local_phys_to_mem to_cap.dcb dptr e2 e3 s2 s3 h3
          have w123 := only_wrote_trans _ _ _ _ _ _ _ _ to_cap.dcb s s2 s3 w12 w3
          simp only [Bool.or_false, Bool.false_or] at w123
          cases h5 : setup_run to_cap.dcb run e3 s3 with
          | abort a => rw [h5] at hrun; simp at hrun
          | ret r5 s5 =>
            rw [h5] at hrun
            simp only at hrun
            cases hrun
            obtain ⟨hs, hr, _⟩ := setup_run_ret to_cap.dcb run e3 s3 s' r h5
            subst hs
            exact Or.inr (Or.inr (Or.inr (Or.inr (Or.inl ⟨by rw [hr]; rfl, w123⟩))))
          | cont e5 s5 =>
            rw [h5] at hrun
            simp only at hrun
            have w5 := setup_run_wrote to_cap.dcb run e3 e5 s3 s5 h5
            have w1235 := only_wrote_trans _ _ _ _ _ _ _ _ to_cap.dcb s s3 s5 w123 w5
            simp only [Bool.or_false, Bool.false_or] at w1235
            cases h6 : setup_domain caps_lookup_cap to_cap.dcb odptr e5 s5 with
            | abort a => rw [h6] at hrun; simp at hrun
            | ret r6 s6 =>
              rw [h6] at hrun
              simp only at hrun
              cases hrun
              obtain ⟨hh, hs⟩ := setup_domain_ret caps_lookup_cap to_cap.dcb odptr e5 s5 s' r h6
              subst hs
              exact Or.inr (Or.inr (Or.inr (Or.inr (Or.inr ⟨hh, w1235⟩))))
            | cont e6 s6 =>
              rw [h6] at hrun
              simp only at hrun
              cases h7 : setup_register to_cap.dcb e6 s6 with
              | abort a => rw [h7] at hrun; simp at hrun
              | ret r7 s7 => exact absurd h7 (setup_register_not_ret _ _ _ _ _)
              | cont e7 s7 =>
                rw [h7] at hrun
                simp only at hrun
                cases hrun
                exact absurd rfl hfail

/-- C6 counterexample: a call that installs a CSpace root and then fails to
resolve the VSpace address returns an error, and the target DCB's `cspace`
is no longer the one before the call. -/
theorem dispatcher_setup_partial_counterexample :
    ∃ r s', demo_setup demo_disp (dispatcher_cap 1) 1 8 9 0 false 0 = .ok (r, s') ∧
      r.error = [.SYS_ERR_DISP_VSPACE_ROOT, .helper 0] ∧
      Option.map dcb.cspace (s'.dcbs[1]?) = some (mk_cte (cnode_cap 100 8) 0 false) ∧
      Option.map dcb.cspace (demo_disp.dcbs[1]?) = some null_cte ∧
      Option.map dcb.cspace (s'.dcbs[1]?) ≠ Option.map dcb.cspace (demo_disp.dcbs[1]?) :=
  ⟨_, _, rfl, by decide, by decide, by decide, by decide⟩

theorem getElem?_set_self' {α : Type} (l : List α) (p : Nat) (x y : α) (h : l[p]? = some x) :
    (l.set p y)[p]? = some y := by
  have hlt := getElem?_some_lt l p x h
  simp [List.getElem?_set, hlt]

theorem getElem?_set_other' {α : Type} (l : List α) (p q : Nat) (y : α) (h : q ≠ p) :
    (l.set p y)[q]? = l[q]? := by
  have : ¬ p = q := fun hh => h hh.symm
  simp [List.getElem?_set, this]

theorem setup_domain_ok (dcbp odptr : Nat) (err : errval_t) (s : DispState) (d : dcb)
    (hd : s.dcbs[dcbp]? = some d)
    (hod : odptr = CPTR_NULL ∨ ∃ croot odisp od, s.current_root = some croot ∧
      caps_lookup_cap croot odptr CPTR_BITS .CAPRIGHTS_READ_WRITE = .ok odisp ∧
      s.dcbs[odisp.dcb]? = some od) :
    ∃ err1 x, setup_domain caps_lookup_cap dcbp odptr err s
      = .cont err1 { s with dcbs := s.dcbs.set dcbp { d with domain_id := x } } := by
  unfold setup_domain
  by_cases h0 : odptr = CPTR_NULL
  · refine ⟨err, d.domain_id, ?_⟩
    simp only [h0, ne_eq, not_true_eq_false, if_false]
    have : s.dcbs.set dcbp { d with domain_id := d.domain_id } = s.dcbs := by
      apply List.ext_getElem?
      intro i
      by_cases hi : i = dcbp
      · subst hi; rw [getElem?_set_self' _ _ _ _ hd, hd]
      · rw [getElem?_set_other' _ _ _ _ hi]
    rw [this]
  · rcases hod with h | ⟨croot, odisp, od, h1, h2, h3⟩
    · exact absurd h h0
    · refine ⟨SYS_ERR_OK, od.domain_id, ?_⟩
      simp only [ne_eq, h0, not_false_eq_true, if_true, h1, h2, h3, hd]

theorem setup_register_ok (dcbp : Nat) (err : errval_t) (s : DispState) (d : dcb)
    (hd : s.dcbs[dcbp]? = some d) (hg : d.is_vm_guest = true ∨ d.disp ≠ 0) :
    ∃ s1 n, setup_register dcbp err s = .cont err s1 ∧
      s1.dcbs[dcbp]? = some { d with next_all := n } ∧
      ∀ e, e ∈ s.events → e ∈ s1.events := by
  unfold setup_register
  simp only [hd]
  by_cases hn : d.next_all = none
  · by_cases hv : d.is_vm_guest = true
    · simp only [hn, hv, if_true, Bool.not_true, Bool.false_eq_true, if_false]
      exact ⟨_, s.dcbs_list, rfl, getElem?_set_self' _ _ _ _ hd, fun e he => he⟩
    · have hdisp : d.disp ≠ 0 := by
        rcases hg with h | h
        · exact absurd h hv
        · exact h
      have hv' : d.is_vm_guest = false := by simpa using hv
      simp only [hn, hv', hdisp, if_true, if_false, Bool.not_false]
      exact ⟨_, s.dcbs_list, rfl, getElem?_set_self' _ _ _ _ hd,
        fun e he => List.mem_cons_of_mem _ he⟩
  · by_cases hv : d.is_vm_guest = true
    · simp only [hn, hv, if_true, Bool.not_true, Bool.false_eq_true, if_false]
      exact ⟨_, d.next_all, rfl, by rw [hd]; cases d; simp_all, fun e he => he⟩
    · have hdisp : d.disp ≠ 0 := by
        rcases hg with h | h
        · exact absurd h hv
        · exact h
      have hv' : d.is_vm_guest = false := by simpa using hv
      simp only [hn, hv', hdisp, if_true, if_false, Bool.not_false]
      exact ⟨_, d.next_all, rfl, by simp only [hd]; cases d; simp_all,
        fun e he => List.mem_cons_of_mem _ he⟩

theorem not_runnable_iff (d : dcb) :
    d.not_runnable = true ↔
      (d.vspace = 0 ∨ (d.is_vm_guest = false ∧
        (d.disp = 0 ∨ d.cspace.cap.type ≠ .ObjType_CNode))) := by
  unfold dcb.not_runnable
  simp

/-- C5: dispatcher run precondition.  For every call with `run = true` in
which the requested installations go through (`setup_install` falls through
to the run stage with state `s3`) and the other-dispatcher address, if
supplied, resolves to a capability that points to a DCB: the call returns,
and it fails with `SYS_ERR_DISP_NOT_RUNNABLE` if and only if after the
installations `vspace` is 0, or the DCB is not a VM guest and `disp` is 0 or
`cspace` is not a CNode capability.  When it fails so, the state is the one
after the installations and `make_runnable` has not been called; otherwise
the call returns OK, `make_runnable` has been called for the DCB, and the
DCB has `disabled` set. -/
theorem dispatcher_run_precondition (s s3 : DispState) (to_cap : capability)
    (cptr depth vptr dptr odptr : Nat) (err3 : errval_t) (d : dcb)
    (hto : to_cap.type = .ObjType_Dispatcher)
    (hd : s.dcbs[to_cap.dcb]? = some d)
    (hinst : setup_install caps_lookup_slot caps_lookup_cap caps_copy_to_cte
      gen_phys_to_local_phys local_phys_to_mem CONFIG_PAE s to_cap.dcb cptr depth vptr dptr
      = .cont err3 s3)
    (hod : odptr = CPTR_NULL ∨ ∃ croot odisp od, s3.current_root = some croot ∧
      caps_lookup_cap croot odptr CPTR_BITS .CAPRIGHTS_READ_WRITE = .ok odisp ∧
      s3.dcbs[odisp.dcb]? = some od) :
    ∃ d3 r s', s3.dcbs[to_cap.dcb]? = some d3 ∧
      sys_dispatcher_setup caps_lookup_slot caps_lookup_cap caps_copy_to_cte
        gen_phys_to_local_phys local_phys_to_mem CONFIG_PAE s to_cap cptr depth vptr dptr true
        odptr = .ok (r, s') ∧
      (r = SYSRET [.SYS_ERR_DISP_NOT_RUNNABLE] ↔
        (d3.vspace = 0 ∨ (d3.is_vm_guest = false ∧
          (d3.disp = 0 ∨ d3.cspace.cap.type ≠ .ObjType_CNode)))) ∧
      (r = SYSRET [.SYS_ERR_DISP_NOT_RUNNABLE] → s' = s3 ∧ s'.events = s.events) ∧
      (r ≠ SYSRET [.SYS_ERR_DISP_NOT_RUNNABLE] →
        r = SYSRET SYS_ERR_OK ∧ Event.make_runnable to_cap.dcb ∈ s'.events ∧
        ∃ d', s'.dcbs[to_cap.dcb]? = some d' ∧ d'.disabled = true ∧
          d'.vspace = d3.vspace ∧ d'.disp = d3.disp ∧ d'.cspace = d3.cspace) := by
  obtain ⟨he3, hr3⟩ := setup_install_cont caps_lookup_slot caps_lookup_cap caps_copy_to_cte
    gen_phys_to_local_phys local_phys_to_mem CONFIG_PAE s s3 to_cap.dcb cptr depth vptr dptr
    err3 hinst
  obtain ⟨_, _, _, hev, _, hk⟩ := hr3
  obtain ⟨d3, hd3, _⟩ := hk d hd
  subst he3
  have hne : ¬ to_cap.type ≠ .ObjType_Dispatcher := by simp [hto]
  unfold sys_dispatcher_setup
  simp only [hne, if_false, hinst, Flow.andThen]
  by_cases hn : d3.not_runnable = true
  · have hrun : setup_run to_cap.dcb true SYS_ERR_OK s3
        = .ret (SYSRET [.SYS_ERR_DISP_NOT_RUNNABLE]) s3 := by
      unfold setup_run
      simp only [if_true, hd3, hn]
      rfl
    refine ⟨d3, SYSRET [.SYS_ERR_DISP_NOT_RUNNABLE], s3, hd3, ?_, ?_, ?_, ?_⟩
    · rw [hrun]
    · exact ⟨fun _ => (not_runnable_iff d3).mp hn, fun _ => rfl⟩
    · intro _; exact ⟨rfl, hev (by omega)⟩
    · intro h; exact absurd rfl h
  · have hrun : setup_run to_cap.dcb true SYS_ERR_OK s3
        = .cont SYS_ERR_OK (DispState.mk (s3.dcbs.set to_cap.dcb { d3 with disabled := true })
          s3.dcbs_list s3.dcb_current (.make_runnable to_cap.dcb :: s3.events)) := by
      have hn' : d3.not_runnable = false := by simpa using hn
      unfold setup_run
      simp [hd3, hn']
    rw [hrun]
    simp only
    have hd5 : (s3.dcbs.set to_cap.dcb { d3 with disabled := true })[to_cap.dcb]?
        = some { d3 with disabled := true } := getElem?_set_self' _ _ _ _ hd3
    have hod5 : odptr = CPTR_NULL ∨ ∃ croot odisp od,
        DispState.current_root (DispState.mk
          (s3.dcbs.set to_cap.dcb { d3 with disabled := true })
          s3.dcbs_list s3.dcb_current (.make_runnable to_cap.dcb :: s3.events)) = some croot ∧
        caps_lookup_cap croot odptr CPTR_BITS .CAPRIGHTS_READ_WRITE = .ok odisp ∧
        (s3.dcbs.set to_cap.dcb { d3 with disabled := true })[odisp.dcb]? = some od := by
      rcases hod with h | ⟨croot, odisp, od, h1, h2, h3⟩
      · exact Or.inl h
      · right
        refine ⟨croot, odisp, ?_⟩
        by_cases hp : odisp.dcb = to_cap.dcb
        · refine ⟨{ d3 with disabled := true }, ?_, h2, by rw [hp]; exact hd5⟩
          unfold DispState.current_root at h1 ⊢
          simp only
          by_cases hc : s3.dcb_current = to_cap.dcb
          · rw [hc] at h1 ⊢
            rw [hd5]; rw [hd3] at h1; exact h1
          · rw [getElem?_set_other' _ _ _ _ hc]; exact h1
        · refine ⟨od, ?_, h2, by rw [getElem?_set_other' _ _ _ _ hp]; exact h3⟩
          unfold DispState.current_root at h1 ⊢
          simp only
          by_cases hc : s3.dcb_current = to_cap.dcb
          · rw [hc] at h1 ⊢
            rw [hd5]; rw [hd3] at h1; exact h1
          · rw [getElem?_set_other' _ _ _ _ hc]; exact h1
    obtain ⟨e6, x, hdom⟩ := setup_domain_ok caps_lookup_cap to_cap.dcb odptr SYS_ERR_OK
      (DispState.mk (s3.dcbs.set to_cap.dcb { d3 with disabled := true })
        s3.dcbs_list s3.dcb_current (.make_runnable to_cap.dcb :: s3.events))
      { d3 with disabled := true } hd5 hod5
    rw [hdom]
    simp only
    have hnr : ¬ (d3.vspace = 0 ∨ (d3.is_vm_guest = false ∧
        (d3.disp = 0 ∨ d3.cspace.cap.type ≠ .ObjType_CNode))) :=
      fun h => hn ((not_runnable_iff d3).mpr h)
    have hg : d3.is_vm_guest = true ∨ d3.disp ≠ 0 := by
      by_cases hv : d3.is_vm_guest = true
      · exact Or.inl hv
      · right
        intro h0
        exact hnr (Or.inr ⟨by simpa using hv, Or.inl h0⟩)
    have hd6 : ((s3.dcbs.set to_cap.dcb { d3 with disabled := true }).set to_cap.dcb
        { d3 with disabled := true, domain_id := x })[to_cap.dcb]?
        = some { d3 with disabled := true, domain_id := x } :=
      getElem?_set_self' _ _ _ _ hd5
    obtain ⟨s7, n, hreg, hd7, hev7⟩ := setup_register_ok to_cap.dcb e6
      (DispState.mk ((s3.dcbs.set to_cap.dcb { d3 with disabled := true }).set to_cap.dcb
          { d3 with disabled := true, domain_id := x })
        s3.dcbs_list s3.dcb_current (.make_runnable to_cap.dcb :: s3.events))
      { d3 with disabled := true, domain_id := x } hd6 hg
    rw [hreg]
    refine ⟨d3, SYSRET SYS_ERR_OK, s7, hd3, rfl, ?_, ?_, ?_⟩
    · constructor
      · intro h; cases h
      · intro h; exact absurd h hnr
    · intro h; cases h
    · intro _
      refine ⟨rfl, hev7 _ (List.mem_cons_self _ _), _, hd7, rfl, rfl, rfl, rfl⟩

theorem vroot_supported_false (t : objtype)
    (h1 : t ≠ .ObjType_VNode_x86_64_pml4) (h2 : t ≠ .ObjType_VNode_ARM_l1)
    (h3 : CONFIG_PAE = true → t ≠ .ObjType_VNode_x86_32_pdpt)
    (h4 : CONFIG_PAE = false → t ≠ .ObjType_VNode_x86_32_pdir) :
    vroot_supported CONFIG_PAE t = false := by
  cases t <;> cases CONFIG_PAE <;> simp_all [vroot_supported]

/-- C8: dispatcher setup type validation.  A cspace address that resolves to
a capability that is not a CNode is rejected with
`SYS_ERR_DISP_CSPACE_INVALID` and nothing is written.  When the cspace stage
falls through, a vspace address that resolves to a capability whose type is
none of the root page-table types of the `switch` (PML4, ARM L1, and PDPT with
`CONFIG_PAE` or PDIR without) is rejected with `SYS_ERR_DISP_VSPACE_INVALID`
and `vspace` is as before the call.  When the cspace and vspace stages fall
through, a frame address that resolves to a capability that is not a Frame is
rejected with `SYS_ERR_DISP_FRAME_INVALID`, and `disp` and `disp_cte` are as
before the call. -/
theorem dispatcher_setup_type_validation (s : DispState) (to_cap : capability)
    (cptr depth vptr dptr : Nat) (run : Bool) (odptr : Nat)
    (hto : to_cap.type = .ObjType_Dispatcher) :
    (∀ croot root, cptr ≠ CPTR_NULL → s.current_root = some croot →
      caps_lookup_slot croot cptr depth .CAPRIGHTS_READ = .ok root →
      root.cap.type ≠ .ObjType_CNode →
      sys_dispatcher_setup caps_lookup_slot caps_lookup_cap caps_copy_to_cte
        gen_phys_to_local_phys local_phys_to_mem CONFIG_PAE s to_cap cptr depth vptr dptr run
        odptr = .ok (SYSRET [.SYS_ERR_DISP_CSPACE_INVALID], s)) ∧
    (∀ e1 s1 croot vroot,
      setup_cspace caps_lookup_slot caps_copy_to_cte to_cap.dcb cptr depth SYS_ERR_OK s
        = .cont e1 s1 →
      vptr ≠ CPTR_NULL → s1.current_root = some croot →
      caps_lookup_cap croot vptr CPTR_BITS .CAPRIGHTS_WRITE = .ok vroot →
      vroot.type ≠ .ObjType_VNode_x86_64_pml4 → vroot.type ≠ .ObjType_VNode_ARM_l1 →
      (CONFIG_PAE = true → vroot.type ≠ .ObjType_VNode_x86_32_pdpt) →
      (CONFIG_PAE = false → vroot.type ≠ .ObjType_VNode_x86_32_pdir) →
      sys_dispatcher_setup caps_lookup_slot caps_lookup_cap caps_copy_to_cte
        gen_phys_to_local_phys local_phys_to_mem CONFIG_PAE s to_cap cptr depth vptr dptr run
        odptr = .ok (SYSRET [.SYS_ERR_DISP_VSPACE_INVALID], s1) ∧
      Option.map dcb.vspace (s1.dcbs[to_cap.dcb]?) = Option.map dcb.vspace (s.dcbs[to_cap.dcb]?)) ∧
    (∀ e2 s2 croot dispcte,
      (setup_cspace caps_lookup_slot caps_copy_to_cte to_cap.dcb cptr depth SYS_ERR_OK s).andThen
        (setup_vspace caps_lookup_cap gen_phys_to_local_phys CONFIG_PAE to_cap.dcb vptr)
        = .cont e2 s2 →
      dptr ≠ CPTR_NULL → s2.current_root = some croot →
      caps_lookup_slot croot dptr CPTR_BITS .CAPRIGHTS_WRITE = .ok dispcte →
      dispcte.cap.type ≠ .ObjType_Frame →
      sys_dispatcher_setup caps_lookup_slot caps_lookup_cap caps_copy_to_cte
        gen_phys_to_local_phys local_phys_to_mem CONFIG_PAE s to_cap cptr depth vptr dptr run
        odptr = .ok (SYSRET [.SYS_ERR_DISP_FRAME_INVALID], s2) ∧
      Option.map dcb.disp (s2.dcbs[to_cap.dcb]?) = Option.map dcb.disp (s.dcbs[to_cap.dcb]?) ∧
      Option.map dcb.disp_cte (s2.dcbs[to_cap.dcb]?)
        = Option.map dcb.disp_cte (s.dcbs[to_cap.dcb]?)) := by
  have hne : ¬ to_cap.type ≠ .ObjType_Dispatcher := by simp [hto]
  have hfield : ∀ (k : Nat) (s1 : DispState), stage_rel k to_cap.dcb s s1 →
      (k < 2 → Option.map dcb.vspace (s1.dcbs[to_cap.dcb]?)
        = Option.map dcb.vspace (s.dcbs[to_cap.dcb]?)) ∧
      (k < 3 → Option.map dcb.disp (s1.dcbs[to_cap.dcb]?)
          = Option.map dcb.disp (s.dcbs[to_cap.dcb]?) ∧
        Option.map dcb.disp_cte (s1.dcbs[to_cap.dcb]?)
          = Option.map dcb.disp_cte (s.dcbs[to_cap.dcb]?)) := by
    intro k s1 hr
    obtain ⟨_, _, hlen, _, _, hk⟩ := hr
    cases hd : s.dcbs[to_cap.dcb]? with
    | none =>
      have h1 : s1.dcbs[to_cap.dcb]? = none := by
        rw [List.getElem?_eq_none_iff] at hd ⊢
        omega
      rw [h1]; simp
    | some d =>
      obtain ⟨d1, hd1, _, b2, b3, _⟩ := hk d hd
      rw [hd1]
      refine ⟨fun h => ?_, fun h => ?_⟩
      · simp [b2 h]
      · simp [(b3 h).1, (b3 h).2]
  refine ⟨?_, ?_, ?_⟩
  · intro croot root h0 h1 h2 h3
    have hs : setup_cspace caps_lookup_slot caps_copy_to_cte to_cap.dcb cptr depth SYS_ERR_OK s
        = .ret (SYSRET [.SYS_ERR_DISP_CSPACE_INVALID]) s := by
      unfold setup_cspace
      simp only [h0, ne_eq, not_false_eq_true, if_true, h1, h2, h3]
      rfl
    unfold sys_dispatcher_setup setup_install
    simp only [hne, if_false, hs, Flow.andThen]
  · intro e1 s1 croot vroot hc h0 h1 h2 t1 t2 t3 t4
    obtain ⟨he1, hr1⟩ := setup_cspace_cont caps_lookup_slot caps_copy_to_cte to_cap.dcb cptr depth
      _ e1 s s1 rfl hc
    subst he1
    have hv : setup_vspace caps_lookup_cap gen_phys_to_local_phys CONFIG_PAE to_cap.dcb vptr
        SYS_ERR_OK s1 = .ret (SYSRET [.SYS_ERR_DISP_VSPACE_INVALID]) s1 := by
      unfold setup_vspace
      simp only [h0, ne_eq, not_false_eq_true, if_true, h1, h2,
        vroot_supported_false CONFIG_PAE vroot.type t1 t2 t3 t4, Bool.false_eq_true, if_false]
      rfl
    refine ⟨?_, (hfield 1 s1 hr1).1 (by omega)⟩
    unfold sys_dispatcher_setup setup_install
    simp only [hne, if_false, hc, hv, Flow.andThen]
  · intro e2 s2 croot dispcte hc h0 h1 h2 h3
    have hr2 : e2 = SYS_ERR_OK ∧ stage_rel 2 to_cap.dcb s s2 := by
      cases h1' : setup_cspace caps_lookup_slot caps_copy_to_cte to_cap.dcb cptr depth
          SYS_ERR_OK s with
      | abort a => rw [h1'] at hc; cases hc
      | ret r s1 => rw [h1'] at hc; cases hc
      | cont e1 s1 =>
        rw [h1'] at hc
        simp only [Flow.andThen] at hc
        obtain ⟨he1, hr1⟩ := setup_cspace_cont caps_lookup_slot caps_copy_to_cte to_cap.dcb
          cptr depth _ e1 s s1 rfl h1'
        obtain ⟨he2, hr2⟩ := setup_vspace_cont caps_lookup_cap gen_phys_to_local_phys CONFIG_PAE
          to_cap.dcb vptr e1 e2 s1 s2 he1 hc
        exact ⟨he2, stage_rel_trans 1 2 to_cap.dcb s s1 s2 hr1 hr2⟩
    obtain ⟨he2, hr2⟩ := hr2
    subst he2
    have hf : setup_frame caps_lookup_slot caps_copy_to_cte gen_phys_to_local_phys
        local_phys_to_mem to_cap.dcb dptr SYS_ERR_OK s2
        = .ret (SYSRET [.SYS_ERR_DISP_FRAME_INVALID]) s2 := by
      unfold setup_frame
      simp only [h0, ne_eq, not_false_eq_true, if_true, h1, h2, h3]
      rfl
    refine ⟨?_, (hfield 2 s2 hr2).2 (by omega)⟩
    unfold sys_dispatcher_setup setup_install
    simp only [hne, if_false]
    rw [hc]
    simp only [hf, Flow.andThen]

end DispatcherTheorems

/-- C5 witness: for the second DCB of `demo_disp`, with a CNode, a PML4 and a
frame supplied and the domain taken from a dispatcher capability, the
installations go through and the DCB is made runnable. -/
theorem dispatcher_run_precondition_witness :
    setup_install demo_lookup_slot demo_lookup_cap copy_spec id id false demo_disp 1 1 8 2 3
      = .cont SYS_ERR_OK demo_installed ∧
    ∃ d3 r s', demo_installed.dcbs[1]? = some d3 ∧
      sys_dispatcher_setup demo_lookup_slot demo_lookup_cap copy_spec id id false demo_disp
        (dispatcher_cap 1) 1 8 2 3 true 4 = .ok (r, s') ∧
      (r = SYSRET [.SYS_ERR_DISP_NOT_RUNNABLE] ↔
        (d3.vspace = 0 ∨ (d3.is_vm_guest = false ∧
          (d3.disp = 0 ∨ d3.cspace.cap.type ≠ .ObjType_CNode)))) ∧
      (r = SYSRET [.SYS_ERR_DISP_NOT_RUNNABLE] → s' = demo_installed ∧
        s'.events = demo_disp.events) ∧
      (r ≠ SYSRET [.SYS_ERR_DISP_NOT_RUNNABLE] →
        r = SYSRET SYS_ERR_OK ∧ Event.make_runnable 1 ∈ s'.events ∧
        ∃ d', s'.dcbs[1]? = some d' ∧ d'.disabled = true ∧
          d'.vspace = d3.vspace ∧ d'.disp = d3.disp ∧ d'.cspace = d3.cspace) :=
  ⟨by decide,
   dispatcher_run_precondition demo_lookup_slot demo_lookup_cap copy_spec id id false
    demo_disp demo_installed (dispatcher_cap 1) 1 8 2 3 4 SYS_ERR_OK
    { fresh_dcb with domain_id := 7 } rfl (by decide) (by decide)
    (Or.inr ⟨plain_cap .ObjType_Null 0, dispatcher_cap 1,
      { cspace := mk_cte (cnode_cap 100 8) 0 false, vspace := 4096, disp := 8192,
        disp_cte := mk_cte (plain_cap .ObjType_Frame 8192) 0 false, disabled := false,
        domain_id := 7, is_vm_guest := false, next_all := none },
      by decide, by decide, by decide⟩)⟩

/-- C6 witness: the call of the counterexample returns
`SYS_ERR_DISP_VSPACE_ROOT` and its state differs from the one before in the
installed `cspace` alone; a call whose CSpace address does not resolve
returns `SYS_ERR_DISP_CSPACE_ROOT` and its state is the one before. -/
theorem dispatcher_setup_error_frame_witness :
    demo_setup demo_disp (dispatcher_cap 1) 1 8 9 0 false 0
      = .ok (SYSRET [.SYS_ERR_DISP_VSPACE_ROOT, .helper 0], demo_partial) ∧
    only_wrote true false false false 1 demo_disp demo_partial ∧
    demo_setup demo_disp (dispatcher_cap 1) 9 8 0 0 false 0
      = .ok (SYSRET [.SYS_ERR_DISP_CSPACE_ROOT, .helper 0],
          state_after demo_disp (demo_setup demo_disp (dispatcher_cap 1) 9 8 0 0 false 0)) ∧
    state_after demo_disp (demo_setup demo_disp (dispatcher_cap 1) 9 8 0 0 false 0)
      = demo_disp := by
  refine ⟨by decide, ?_, by decide, ?_⟩
  · rcases dispatcher_setup_error_frame demo_lookup_slot demo_lookup_cap copy_spec id id false
      demo_disp demo_partial (dispatcher_cap 1) 1 8 9 0 false 0
      (SYSRET [.SYS_ERR_DISP_VSPACE_ROOT, .helper 0]) (by decide) (by decide)
      with h | h | h | h | h | h
    · exact absurd h.1 (by decide)
    · exact absurd h.1 (by decide)
    · exact h.2
    · exact absurd h.1 (by decide)
    · exact absurd h.1 (by decide)
    · exact absurd h.1 (by decide)
  · rcases dispatcher_setup_error_frame demo_lookup_slot demo_lookup_cap copy_spec id id false
      demo_disp (state_after demo_disp (demo_setup demo_disp (dispatcher_cap 1) 9 8 0 0 false 0))
      (dispatcher_cap 1) 9 8 0 0 false 0
      (SYSRET [.SYS_ERR_DISP_CSPACE_ROOT, .helper 0]) (by decide) (by decide)
      with h | h | h | h | h | h
    · exact h.2
    · rcases h.2 with ⟨_, _, _, _, hs⟩ | ⟨croot, root, d, e, c, hc, hl, _⟩
      · exact hs
      · have hcr : croot = null_cte.cap := by
          have : demo_disp.current_root = some null_cte.cap := by decide
          rw [this] at hc; cases hc; rfl
        have hl9 : demo_lookup_slot null_cte.cap 9 8 .CAPRIGHTS_READ = .error [.helper 0] := by
          decide
        rw [hcr, hl9] at hl
        cases hl
    · exact absurd h.1 (by decide)
    · exact absurd h.1 (by decide)
    · exact absurd h.1 (by decide)
    · exact absurd h.1 (by decide)

/-- C8 witness: a frame given as the CSpace root is rejected with
`SYS_ERR_DISP_CSPACE_INVALID` and the state is unchanged. -/
theorem dispatcher_setup_type_validation_witness :
    demo_lookup_slot (plain_cap .ObjType_Null 0) 3 8 .CAPRIGHTS_READ
      = .ok (mk_cte (plain_cap .ObjType_Frame 8192) 0 false) ∧
    sys_dispatcher_setup demo_lookup_slot demo_lookup_cap copy_spec id id false demo_disp
      (dispatcher_cap 1) 3 8 0 0 false 0
      = .ok (SYSRET [.SYS_ERR_DISP_CSPACE_INVALID], demo_disp) :=
  ⟨by decide,
   (dispatcher_setup_type_validation demo_lookup_slot demo_lookup_cap copy_spec id id false
    demo_disp (dispatcher_cap 1) 3 8 0 0 false 0 rfl).1 (plain_cap .ObjType_Null 0)
    (mk_cte (plain_cap .ObjType_Frame 8192) 0 false) (by decide) (by decide) (by decide)
    (by decide)⟩

/-- C7, failing input: starting from an empty `dcbs_list`, the same
successful call is made twice on the same DCB.  After the first call the list
is that DCB alone, with `next_all` null as it was before registration; the
second call therefore registers it again, and its `next_all` then points to
itself: following `next_all` from `dcbs_list` never ends and meets the DCB
again and again. -/
theorem dcbs_list_registers_twice :
    demo_disp.dcbs_list = none ∧
    demo_setup demo_disp (dispatcher_cap 1) 0 0 0 3 false 0 = .ok (SYSRET SYS_ERR_OK, demo_once) ∧
    demo_setup demo_once (dispatcher_cap 1) 0 0 0 3 false 0 = .ok (SYSRET SYS_ERR_OK, demo_twice) ∧
    demo_once.dcbs_list = some 1 ∧
    Option.map dcb.next_all (demo_once.dcbs[1]?) = some none ∧
    demo_twice.dcbs_list = some 1 ∧
    Option.map dcb.next_all (demo_twice.dcbs[1]?) = some (some 1) ∧
    dcbs_list_entries demo_once 4 demo_once.dcbs_list = [1] ∧
    dcbs_list_entries demo_twice 4 demo_twice.dcbs_list = [1, 1, 1, 1] := by
  decide


/-! ## Monitor step protocol -/

/-- C9, failing input: two calls that differ only in `del_cn_addr`, which
resolves to the CNode at 200 in the one and to the CNode at 400 in the other.
Both pass the same trash slot to `caps_continue_revoke`: slot `del_slot` of
the CNode at 300, which is the capability that the target address resolves
to. -/
theorem revoke_step_ignores_del_cnode :
    MonState.lookup_cap demo_mon demo_mon.root 1 8 .CAPRIGHTS_WRITE = .ok (cnode_cap 200 8) ∧
    MonState.lookup_cap demo_mon demo_mon.root 3 8 .CAPRIGHTS_WRITE = .ok (cnode_cap 400 8) ∧
    demo_revoke_step demo_mon 0 32 2 8 1 8 1 = .ok (SYSRET SYS_ERR_OK, demo_mon_revoked) ∧
    demo_revoke_step demo_mon 0 32 2 8 3 8 1 = .ok (SYSRET SYS_ERR_OK, demo_mon_revoked) ∧
    demo_mon_revoked.calls = [.continue_revoke ⟨100, 2⟩ (caps_locate_slot 300 1)] := by
  decide

/-- C10 counterexample: slot 0 of the CNode at 300 is in range and holds a
frame; `sys_monitor_clear_step` rejects the call with `SYS_ERR_SLOT_IN_USE`
and does not call `caps_continue_clear`. -/
theorem clear_step_filled_slot_counterexample :
    MonState.lookup_cap demo_mon demo_mon.root 2 8 .CAPRIGHTS_WRITE = .ok (cnode_cap 300 8) ∧
    (demo_mon.cte_at (caps_locate_slot 300 0)).cap.type = .ObjType_Frame ∧
    0 < 2 ^ 8 ∧
    demo_clear_step demo_mon 2 8 0 = .ok (SYSRET [.SYS_ERR_SLOT_IN_USE], demo_mon) ∧
    demo_clear_step demo_mon 2 8 0 ≠
      .ok (SYSRET (demo_mon.continue_clear (caps_locate_slot 300 0)).1,
           (demo_mon.continue_clear (caps_locate_slot 300 0)).2) := by
  decide

section MonitorTheorems

variable {σ : Type}
variable (cspace_root : σ → capability)
variable (cte_at : σ → SlotPtr → cte)
variable (caps_lookup_slot : σ → capability → Nat → Nat → CapRights → Except errval_t SlotPtr)
variable (caps_lookup_cap : σ → capability → Nat → Nat → CapRights → Except errval_t capability)
variable (caps_continue_revoke : σ → SlotPtr → SlotPtr → errval_t × σ)
variable (caps_continue_clear : σ → SlotPtr → errval_t × σ)

theorem revoke_step_del_cnode_unused (s : σ) (root_addr root_bits target_addr target_bits
    a b a' b' del_slot : Nat) :
    sys_monitor_revoke_step cspace_root cte_at caps_lookup_slot caps_lookup_cap
      caps_continue_revoke s root_addr root_bits target_addr target_bits a b del_slot =
    sys_monitor_revoke_step cspace_root cte_at caps_lookup_slot caps_lookup_cap
      caps_continue_revoke s root_addr root_bits target_addr target_bits a' b' del_slot := rfl

/-- C10 (amended): `sys_monitor_clear_step` takes an empty return slot.  For
every return CNode and in-range slot index: if the slot holds a capability
(type not Null) the call is rejected with `SYS_ERR_SLOT_IN_USE`, the state is
unchanged and `caps_continue_clear` is not called; if the slot is empty the
call invokes `caps_continue_clear` on that slot and returns its result. -/
theorem clear_step_requires_empty_slot (s : σ) (ret_cn_addr ret_cn_bits ret_slot : Nat)
    (retcn : capability)
    (hl : caps_lookup_cap s (cspace_root s) ret_cn_addr ret_cn_bits .CAPRIGHTS_WRITE = .ok retcn)
    (ht : retcn.type = .ObjType_CNode) (hb : retcn.bits < 31)
    (hs : ret_slot < 2 ^ retcn.bits) :
    ((cte_at s (caps_locate_slot retcn.cnode ret_slot)).cap.type ≠ .ObjType_Null →
      sys_monitor_clear_step cspace_root cte_at caps_lookup_cap caps_continue_clear s
        ret_cn_addr ret_cn_bits ret_slot = .ok (SYSRET [.SYS_ERR_SLOT_IN_USE], s)) ∧
    ((cte_at s (caps_locate_slot retcn.cnode ret_slot)).cap.type = .ObjType_Null →
      sys_monitor_clear_step cspace_root cte_at caps_lookup_cap caps_continue_clear s
        ret_cn_addr ret_cn_bits ret_slot =
        .ok (SYSRET (caps_continue_clear s (caps_locate_slot retcn.cnode ret_slot)).1,
             (caps_continue_clear s (caps_locate_slot retcn.cnode ret_slot)).2)) := by
  have h1 : ¬ retcn.type ≠ .ObjType_CNode := by simp [ht]
  have h2 : ¬ 31 ≤ retcn.bits := by omega
  have h3 : ¬ ret_slot > 1 <<< retcn.bits := by
    rw [Nat.shiftLeft_eq, Nat.one_mul]; omega
  constructor
  · intro hn
    unfold sys_monitor_clear_step
    simp only [hl, h1, h2, h3, if_false, hn, ne_eq, not_false_eq_true, if_true]
  · intro hn
    unfold sys_monitor_clear_step
    simp only [hl, h1, h2, h3, if_false, hn, ne_eq, not_true_eq_false]

end MonitorTheorems

/-- C10 witness: the filled slot 0 of the CNode at 300 is rejected, the
empty slot 1 is passed to `caps_continue_clear`. -/
theorem clear_step_requires_empty_slot_witness :
    demo_clear_step demo_mon 2 8 0 = .ok (SYSRET [.SYS_ERR_SLOT_IN_USE], demo_mon) ∧
    demo_clear_step demo_mon 2 8 1 =
      .ok (SYSRET SYS_ERR_OK, { demo_mon with calls := [.continue_clear ⟨300, 1⟩] }) :=
  ⟨(clear_step_requires_empty_slot MonState.root MonState.cte_at MonState.lookup_cap
      MonState.continue_clear demo_mon 2 8 0 (cnode_cap 300 8) (by decide) rfl (by decide)
      (by decide)).1 (by decide),
   (clear_step_requires_empty_slot MonState.root MonState.cte_at MonState.lookup_cap
      MonState.continue_clear demo_mon 2 8 1 (cnode_cap 300 8) (by decide) rfl (by decide)
      (by decide)).2 (by decide)⟩

/-! ## Monitor step protocol: slot index and trash slot -/

/-- C11, failing input: the CNodes at 200 and 300 have `bits = 8`, so their
slots are 0..255.  With slot index 256 = 2^8 none of the three calls returns
`SYS_ERR_SLOTS_INVALID`: each applies `caps_locate_slot` with index 256 and
hands that slot to its algorithm. -/
theorem monitor_slot_index_boundary :
    MonState.lookup_cap demo_mon demo_mon.root 1 8 .CAPRIGHTS_WRITE = .ok (cnode_cap 200 8) ∧
    MonState.lookup_cap demo_mon demo_mon.root 2 8 .CAPRIGHTS_WRITE = .ok (cnode_cap 300 8) ∧
    2 ^ (cnode_cap 200 8).bits ≤ 256 ∧ 2 ^ (cnode_cap 300 8).bits ≤ 256 ∧
    demo_delete_last demo_mon 0 32 2 8 1 8 256 =
      .ok (SYSRET SYS_ERR_OK,
        { demo_mon with calls := [.delete_last ⟨100, 2⟩ (caps_locate_slot 200 256)] }) ∧
    demo_revoke_step demo_mon 0 32 2 8 1 8 256 =
      .ok (SYSRET SYS_ERR_OK,
        { demo_mon with calls := [.continue_revoke ⟨100, 2⟩ (caps_locate_slot 300 256)] }) ∧
    demo_clear_step demo_mon 1 8 256 =
      .ok (SYSRET SYS_ERR_OK,
        { demo_mon with calls := [.continue_clear (caps_locate_slot 200 256)] }) := by
  decide

section MonitorRangeTheorems

variable {σ : Type}
variable (cspace_root : σ → capability)
variable (cte_at : σ → SlotPtr → cte)
variable (caps_lookup_slot : σ → capability → Nat → Nat → CapRights → Except errval_t SlotPtr)
variable (caps_lookup_cap : σ → capability → Nat → Nat → CapRights → Except errval_t capability)
variable (caps_continue_revoke : σ → SlotPtr → SlotPtr → errval_t × σ)
variable (caps_continue_clear : σ → SlotPtr → errval_t × σ)
variable (caps_delete_last : σ → SlotPtr → SlotPtr → errval_t × σ)

/-- The range check of `sys_monitor_delete_last` rejects every index above
`2^bits`, and lets the index `2^bits` itself through to `caps_locate_slot`. -/
theorem delete_last_range_check (s : σ) (root_addr root_bits target_addr target_bits
    ret_cn_addr ret_cn_bits ret_slot : Nat) (root retcn : capability) (target : SlotPtr)
    (hr : caps_lookup_cap s (cspace_root s) root_addr root_bits .CAPRIGHTS_READ = .ok root)
    (ht : caps_lookup_slot s root target_addr target_bits .CAPRIGHTS_READ = .ok target)
    (hl : caps_lookup_cap s (cspace_root s) ret_cn_addr ret_cn_bits .CAPRIGHTS_WRITE = .ok retcn)
    (hc : retcn.type = .ObjType_CNode) (hb : retcn.bits < 31) :
    (2 ^ retcn.bits < ret_slot →
      sys_monitor_delete_last cspace_root caps_lookup_slot caps_lookup_cap caps_delete_last s
        root_addr root_bits target_addr target_bits ret_cn_addr ret_cn_bits ret_slot
        = .ok (SYSRET [.SYS_ERR_SLOTS_INVALID], s)) ∧
    (ret_slot ≤ 2 ^ retcn.bits →
      sys_monitor_delete_last cspace_root caps_lookup_slot caps_lookup_cap caps_delete_last s
        root_addr root_bits target_addr target_bits ret_cn_addr ret_cn_bits ret_slot
        = .ok (SYSRET (caps_delete_last s target (caps_locate_slot retcn.cnode ret_slot)).1,
               (caps_delete_last s target (caps_locate_slot retcn.cnode ret_slot)).2)) := by
  have h1 : ¬ retcn.type ≠ .ObjType_CNode := by simp [hc]
  have h2 : ¬ 31 ≤ retcn.bits := by omega
  constructor
  · intro hs
    have h3 : ret_slot > 1 <<< retcn.bits := by
      rw [Nat.shiftLeft_eq, Nat.one_mul]; omega
    unfold sys_monitor_delete_last
    simp only [hr, ht, hl, h1, h2, h3, if_false, if_true]
  · intro hs
    have h3 : ¬ ret_slot > 1 <<< retcn.bits := by
      rw [Nat.shiftLeft_eq, Nat.one_mul]; omega
    unfold sys_monitor_delete_last
    simp only [hr, ht, hl, h1, h2, h3, if_false]

/-- The range check of `sys_monitor_clear_step` rejects every index above
`2^bits`. -/
theorem clear_step_range_check (s : σ) (ret_cn_addr ret_cn_bits ret_slot : Nat)
    (retcn : capability)
    (hl : caps_lookup_cap s (cspace_root s) ret_cn_addr ret_cn_bits .CAPRIGHTS_WRITE = .ok retcn)
    (hc : retcn.type = .ObjType_CNode) (hb : retcn.bits < 31)
    (hs : 2 ^ retcn.bits < ret_slot) :
    sys_monitor_clear_step cspace_root cte_at caps_lookup_cap caps_continue_clear s
      ret_cn_addr ret_cn_bits ret_slot = .ok (SYSRET [.SYS_ERR_SLOTS_INVALID], s) := by
  have h1 : ¬ retcn.type ≠ .ObjType_CNode := by simp [hc]
  have h2 : ¬ 31 ≤ retcn.bits := by omega
  have h3 : ret_slot > 1 <<< retcn.bits := by
    rw [Nat.shiftLeft_eq, Nat.one_mul]; omega
  unfold sys_monitor_clear_step
  simp only [hl, h1, h2, h3, if_false, if_true]

/-- The range check of `sys_monitor_revoke_step` rejects every index above
`2^bits`. -/
theorem revoke_step_range_check (s : σ) (root_addr root_bits target_addr target_bits
    del_cn_addr del_cn_bits del_slot : Nat) (root delcn : capability) (target : SlotPtr)
    (hr : caps_lookup_cap s (cspace_root s) root_addr root_bits .CAPRIGHTS_READ = .ok root)
    (ht : caps_lookup_slot s root target_addr target_bits .CAPRIGHTS_READ = .ok target)
    (hl : caps_lookup_cap s root target_addr target_bits .CAPRIGHTS_WRITE = .ok delcn)
    (hc : delcn.type = .ObjType_CNode) (hb : delcn.bits < 31)
    (hs : 2 ^ delcn.bits < del_slot) :
    sys_monitor_revoke_step cspace_root cte_at caps_lookup_slot caps_lookup_cap
      caps_continue_revoke s root_addr root_bits target_addr target_bits del_cn_addr
      del_cn_bits del_slot = .ok (SYSRET [.SYS_ERR_SLOTS_INVALID], s) := by
  have h1 : ¬ delcn.type ≠ .ObjType_CNode := by simp [hc]
  have h2 : ¬ 31 ≤ delcn.bits := by omega
  have h3 : del_slot > 1 <<< delcn.bits := by
    rw [Nat.shiftLeft_eq, Nat.one_mul]; omega
  unfold sys_monitor_revoke_step
  simp only [hr, ht, hl, h1, h2, h3, if_false, if_true]

/-- The checks that `sys_monitor_revoke_step` does make are made on the
capability `delcn` that its third lookup yields, which is the lookup of the
target address: if `delcn` is not a CNode the call returns
`SYS_ERR_DEST_CNODE_INVALID`; if it is a CNode and slot `del_slot` of it holds
a capability of type other than Null, the call returns `SYS_ERR_SLOT_IN_USE`.
In both cases the state is the one before the call. -/
theorem revoke_step_checks_target_cnode (s : σ) (root_addr root_bits target_addr target_bits
    del_cn_addr del_cn_bits del_slot : Nat) (root delcn : capability) (target : SlotPtr)
    (hr : caps_lookup_cap s (cspace_root s) root_addr root_bits .CAPRIGHTS_READ = .ok root)
    (ht : caps_lookup_slot s root target_addr target_bits .CAPRIGHTS_READ = .ok target)
    (hl : caps_lookup_cap s root target_addr target_bits .CAPRIGHTS_WRITE = .ok delcn) :
    (delcn.type ≠ .ObjType_CNode →
      sys_monitor_revoke_step cspace_root cte_at caps_lookup_slot caps_lookup_cap
        caps_continue_revoke s root_addr root_bits target_addr target_bits del_cn_addr
        del_cn_bits del_slot = .ok (SYSRET [.SYS_ERR_DEST_CNODE_INVALID], s)) ∧
    (delcn.type = .ObjType_CNode → delcn.bits < 31 → del_slot < 2 ^ delcn.bits →
      (cte_at s (caps_locate_slot delcn.cnode del_slot)).cap.type ≠ .ObjType_Null →
      sys_monitor_revoke_step cspace_root cte_at caps_lookup_slot caps_lookup_cap
        caps_continue_revoke s root_addr root_bits target_addr target_bits del_cn_addr
        del_cn_bits del_slot = .ok (SYSRET [.SYS_ERR_SLOT_IN_USE], s)) := by
  constructor
  · intro hc
    unfold sys_monitor_revoke_step
    simp only [hr, ht, hl, hc, ne_eq, not_false_eq_true, if_true]
  · intro hc hb hs hn
    have h1 : ¬ delcn.type ≠ .ObjType_CNode := by simp [hc]
    have h2 : ¬ 31 ≤ delcn.bits := by omega
    have h3 : ¬ del_slot > 1 <<< delcn.bits := by
      rw [Nat.shiftLeft_eq, Nat.one_mul]; omega
    unfold sys_monitor_revoke_step
    simp only [hr, ht, hl, h1, h2, h3, if_false, hn, ne_eq, not_false_eq_true, if_true]

end MonitorRangeTheorems

/-- C12, failing inputs.  In `demo_mon` the root, the target (the CNode at 200
in slot 1) and the trash CNode named by `del_cn_addr = 2` (the CNode at 300)
all resolve, and the trash slot, slot 0 of the CNode at 300, holds a frame:
`sys_monitor_revoke_step` does not return `SYS_ERR_SLOT_IN_USE`, it returns
`SYS_ERR_OK` after calling `caps_continue_revoke` with slot 0 of the target
CNode at 200.  In `demo_cspace` the address `del_cn_addr = 3` names a frame,
not a CNode: the call does not return `SYS_ERR_DEST_CNODE_INVALID`, it
returns `SYS_ERR_OK` after calling `caps_continue_revoke` with slot 1 of the
target CNode at 200. -/
theorem revoke_step_named_trash_unchecked :
    MonState.lookup_cap demo_mon demo_mon.root 0 32 .CAPRIGHTS_READ = .ok (cnode_cap 100 8) ∧
    MonState.lookup_slot demo_mon (cnode_cap 100 8) 1 8 .CAPRIGHTS_READ = .ok ⟨100, 1⟩ ∧
    MonState.lookup_cap demo_mon (cnode_cap 100 8) 2 8 .CAPRIGHTS_WRITE
      = .ok (cnode_cap 300 8) ∧
    (demo_mon.cte_at (caps_locate_slot 300 0)).cap.type = .ObjType_Frame ∧
    demo_revoke_step demo_mon 0 32 1 8 2 8 0
      = .ok (SYSRET SYS_ERR_OK,
          MonState.mk demo_mon.slots demo_mon.root [.continue_revoke ⟨100, 1⟩ ⟨200, 0⟩]) ∧
    demo_revoke_step demo_mon 0 32 1 8 2 8 0 ≠ .ok (SYSRET [.SYS_ERR_SLOT_IN_USE], demo_mon) ∧
    MonState.lookup_cap demo_cspace demo_cspace.root 0 32 .CAPRIGHTS_READ
      = .ok (cnode_cap 100 8) ∧
    MonState.lookup_slot demo_cspace (cnode_cap 100 8) 1 8 .CAPRIGHTS_READ = .ok ⟨100, 1⟩ ∧
    Except.map capability.type
      (MonState.lookup_cap demo_cspace (cnode_cap 100 8) 3 8 .CAPRIGHTS_WRITE)
      = .ok .ObjType_Frame ∧
    demo_revoke_step demo_cspace 0 32 1 8 3 8 1
      = .ok (SYSRET SYS_ERR_OK,
          MonState.mk demo_cspace.slots demo_cspace.root
            [.continue_revoke ⟨100, 1⟩ ⟨200, 1⟩]) ∧
    demo_revoke_step demo_cspace 0 32 1 8 3 8 1
      ≠ .ok (SYSRET [.SYS_ERR_DEST_CNODE_INVALID], demo_cspace) := by
  decide

/-! ## Retype and create -/

section CapOpsTheorems

variable {σ : Type}
variable (ObjType_Num : Nat)
variable (objtype_value : objtype → Nat)
variable (cte_at : σ → SlotPtr → cte)
variable (caps_lookup_slot : σ → capability → Nat → Nat → CapRights → Except errval_t SlotPtr)
variable (caps_lookup_cap : σ → capability → Nat → Nat → CapRights → Except errval_t capability)
variable (caps_retype : σ → objtype → Nat → capability → Nat → SlotPtr → Bool → errval_t × σ)
variable (caps_create_new : σ → objtype → Nat → Nat → Nat → SlotPtr → errval_t × σ)
variable (type_is_vnode : objtype → Bool)
variable (caps_copy_to_cnode : σ → SlotPtr → Nat → SlotPtr → Bool → Nat → Nat → errval_t × σ)
variable (caps_copy_to_vnode : σ → SlotPtr → Nat → SlotPtr → Nat → Nat → errval_t × σ)

/-- C13: validation order and result of `sys_retype`.  For every input: an
illegal type (Null, or a number from `ObjType_Num` on) gives
`SYS_ERR_ILLEGAL_DEST_TYPE`, whatever the lookups would yield; otherwise a
failing source lookup (width `CPTR_BITS`, read rights) gives its error pushed
with `SYS_ERR_SOURCE_CAP_LOOKUP`; otherwise a failing destination lookup
(read-write rights) gives its error pushed with `SYS_ERR_DEST_CNODE_LOOKUP`;
otherwise a destination that is not a CNode gives `SYS_ERR_DEST_CNODE_INVALID`;
in these four cases the state is unchanged.  In the remaining case the call
returns the result and the state of `caps_retype`. -/
theorem retype_validation_order (s : σ) (root : capability) (source_cptr : Nat)
    (type : objtype) (objbits dest_cnode_cptr dest_slot dest_vbits : Nat)
    (from_monitor : Bool) :
    ((type = .ObjType_Null ∨ ObjType_Num ≤ objtype_value type) →
      sys_retype ObjType_Num objtype_value caps_lookup_slot caps_lookup_cap caps_retype s root
        source_cptr type objbits dest_cnode_cptr dest_slot dest_vbits from_monitor
        = (SYSRET [.SYS_ERR_ILLEGAL_DEST_TYPE], s)) ∧
    (¬ (type = .ObjType_Null ∨ ObjType_Num ≤ objtype_value type) →
      (∀ err, caps_lookup_slot s root source_cptr CPTR_BITS .CAPRIGHTS_READ = .error err →
        sys_retype ObjType_Num objtype_value caps_lookup_slot caps_lookup_cap caps_retype s root
          source_cptr type objbits dest_cnode_cptr dest_slot dest_vbits from_monitor
          = (SYSRET (err_push err .SYS_ERR_SOURCE_CAP_LOOKUP), s)) ∧
      (∀ source_cap,
        caps_lookup_slot s root source_cptr CPTR_BITS .CAPRIGHTS_READ = .ok source_cap →
        (∀ err,
          caps_lookup_cap s root dest_cnode_cptr dest_vbits .CAPRIGHTS_READ_WRITE = .error err →
          sys_retype ObjType_Num objtype_value caps_lookup_slot caps_lookup_cap caps_retype s
            root source_cptr type objbits dest_cnode_cptr dest_slot dest_vbits from_monitor
            = (SYSRET (err_push err .SYS_ERR_DEST_CNODE_LOOKUP), s)) ∧
        (∀ dest_cnode_cap,
          caps_lookup_cap s root dest_cnode_cptr dest_vbits .CAPRIGHTS_READ_WRITE
            = .ok dest_cnode_cap →
          (dest_cnode_cap.type ≠ .ObjType_CNode →
            sys_retype ObjType_Num objtype_value caps_lookup_slot caps_lookup_cap caps_retype s
              root source_cptr type objbits dest_cnode_cptr dest_slot dest_vbits from_monitor
              = (SYSRET [.SYS_ERR_DEST_CNODE_INVALID], s)) ∧
          (dest_cnode_cap.type = .ObjType_CNode →
            sys_retype ObjType_Num objtype_value caps_lookup_slot caps_lookup_cap caps_retype s
              root source_cptr type objbits dest_cnode_cptr dest_slot dest_vbits from_monitor
              = (SYSRET (caps_retype s type objbits dest_cnode_cap dest_slot source_cap
                          from_monitor).1,
                 (caps_retype s type objbits dest_cnode_cap dest_slot source_cap
                          from_monitor).2))))) := by
  refine ⟨fun h => ?_, fun h => ⟨fun err hs => ?_, fun src hs => ⟨fun err hd => ?_,
    fun cn hd => ⟨fun hc => ?_, fun hc => ?_⟩⟩⟩⟩
  · unfold sys_retype; rw [if_pos h]
  · unfold sys_retype; rw [if_neg h]; simp only [hs]
  · unfold sys_retype; rw [if_neg h]; simp only [hs, hd]
  · unfold sys_retype; rw [if_neg h]; simp only [hs, hd, hc, ne_eq, not_false_eq_true, if_true]
  · unfold sys_retype; rw [if_neg h]; simp only [hs, hd, hc, ne_eq, not_true_eq_false, if_false]

/-- C14: `sys_create` creates only identifier capabilities into empty slots.
For every input: an illegal type gives `SYS_ERR_ILLEGAL_DEST_TYPE`; otherwise
a failing destination lookup gives its error pushed with
`SYS_ERR_DEST_CNODE_LOOKUP`; otherwise an occupied destination slot gives
`SYS_ERR_SLOTS_IN_USE`; otherwise a type other than `ObjType_ID` gives
`SYS_ERR_TYPE_NOT_CREATABLE`; in these four cases the state is unchanged,
whatever `caps_create_new` is.  Only in the remaining case, type `ObjType_ID`
and an empty slot, is `caps_create_new` invoked, with base 0 and bits 0, and
its result returned. -/
theorem create_only_id_into_empty_slot (s : σ) (root : capability) (type : objtype)
    (objbits dest_cnode_cptr dest_slot dest_vbits : Nat) :
    ((type = .ObjType_Null ∨ ObjType_Num ≤ objtype_value type) →
      sys_create ObjType_Num objtype_value cte_at caps_lookup_cap caps_create_new s root type
        objbits dest_cnode_cptr dest_slot dest_vbits
        = (SYSRET [.SYS_ERR_ILLEGAL_DEST_TYPE], s)) ∧
    (¬ (type = .ObjType_Null ∨ ObjType_Num ≤ objtype_value type) →
      (∀ err,
        caps_lookup_cap s root dest_cnode_cptr dest_vbits .CAPRIGHTS_READ_WRITE = .error err →
        sys_create ObjType_Num objtype_value cte_at caps_lookup_cap caps_create_new s root type
          objbits dest_cnode_cptr dest_slot dest_vbits
          = (SYSRET (err_push err .SYS_ERR_DEST_CNODE_LOOKUP), s)) ∧
      (∀ dest_cnode_cap,
        caps_lookup_cap s root dest_cnode_cptr dest_vbits .CAPRIGHTS_READ_WRITE
          = .ok dest_cnode_cap →
        ((cte_at s (caps_locate_slot dest_cnode_cap.cnode dest_slot)).cap.type
            ≠ .ObjType_Null →
          sys_create ObjType_Num objtype_value cte_at caps_lookup_cap caps_create_new s root
            type objbits dest_cnode_cptr dest_slot dest_vbits
            = (SYSRET [.SYS_ERR_SLOTS_IN_USE], s)) ∧
        ((cte_at s (caps_locate_slot dest_cnode_cap.cnode dest_slot)).cap.type
            = .ObjType_Null →
          (type ≠ .ObjType_ID →
            sys_create ObjType_Num objtype_value cte_at caps_lookup_cap caps_create_new s root
              type objbits dest_cnode_cptr dest_slot dest_vbits
              = (SYSRET [.SYS_ERR_TYPE_NOT_CREATABLE], s)) ∧
          (type = .ObjType_ID →
            sys_create ObjType_Num objtype_value cte_at caps_lookup_cap caps_create_new s root
              type objbits dest_cnode_cptr dest_slot dest_vbits
              = (SYSRET (caps_create_new s .ObjType_ID 0 0 objbits
                          (caps_locate_slot dest_cnode_cap.cnode dest_slot)).1,
                 (caps_create_new s .ObjType_ID 0 0 objbits
                          (caps_locate_slot dest_cnode_cap.cnode dest_slot)).2))))) := by
  refine ⟨fun h => ?_, fun h => ⟨fun err hd => ?_, fun cn hd => ⟨fun hn => ?_,
    fun hn => ⟨fun ht => ?_, fun ht => ?_⟩⟩⟩⟩
  · unfold sys_create; simp only; rw [if_pos h]
  · unfold sys_create; simp only; rw [if_neg h]; simp only [hd]
  · unfold sys_create; simp only; rw [if_neg h]
    simp only [hd, hn, ne_eq, not_false_eq_true, if_true]
  · unfold sys_create; simp only; rw [if_neg h]
    simp only [hd, hn, ne_eq, not_true_eq_false, if_false]
  · subst ht
    unfold sys_create; simp only; rw [if_neg h]
    simp only [hd, hn, ne_eq, not_true_eq_false, if_false]

end CapOpsTheorems

/-- C13 witness on `demo_cspace`: an illegal type, an unresolved source, an
unresolved destination, a destination that is a frame, and a call that
reaches `caps_retype`. -/
theorem retype_validation_order_witness :
    demo_retype demo_cspace 9 (.ObjType_Other 20) 12 9 1 8 false
      = (SYSRET [.SYS_ERR_ILLEGAL_DEST_TYPE], demo_cspace) ∧
    demo_retype demo_cspace 9 .ObjType_Frame 12 1 1 8 false
      = (SYSRET [.SYS_ERR_SOURCE_CAP_LOOKUP, .helper 0], demo_cspace) ∧
    demo_retype demo_cspace 3 .ObjType_Frame 12 9 1 8 false
      = (SYSRET [.SYS_ERR_DEST_CNODE_LOOKUP, .helper 0], demo_cspace) ∧
    demo_retype demo_cspace 3 .ObjType_Frame 12 3 1 8 false
      = (SYSRET [.SYS_ERR_DEST_CNODE_INVALID], demo_cspace) ∧
    demo_retype demo_cspace 3 .ObjType_Frame 12 1 1 8 false
      = (SYSRET SYS_ERR_OK,
         { demo_cspace with
           calls := [.retype .ObjType_Frame 12 (cnode_cap 200 8) 1 ⟨100, 3⟩ false] }) :=
  ⟨(retype_validation_order demo_ObjType_Num demo_objtype_value MonState.lookup_slot
      MonState.lookup_cap MonState.retype demo_cspace demo_cspace.root 9 (.ObjType_Other 20)
      12 9 1 8 false).1 (Or.inr (by decide)),
   ((retype_validation_order demo_ObjType_Num demo_objtype_value MonState.lookup_slot
      MonState.lookup_cap MonState.retype demo_cspace demo_cspace.root 9 .ObjType_Frame
      12 1 1 8 false).2 (by decide)).1 [.helper 0] (by decide),
   (((retype_validation_order demo_ObjType_Num demo_objtype_value MonState.lookup_slot
      MonState.lookup_cap MonState.retype demo_cspace demo_cspace.root 3 .ObjType_Frame
      12 9 1 8 false).2 (by decide)).2 ⟨100, 3⟩ (by decide)).1 [.helper 0] (by decide),
   ((((retype_validation_order demo_ObjType_Num demo_objtype_value MonState.lookup_slot
      MonState.lookup_cap MonState.retype demo_cspace demo_cspace.root 3 .ObjType_Frame
      12 3 1 8 false).2 (by decide)).2 ⟨100, 3⟩ (by decide)).2 (frame_cap 1) (by decide)).1
      (by decide),
   ((((retype_validation_order demo_ObjType_Num demo_objtype_value MonState.lookup_slot
      MonState.lookup_cap MonState.retype demo_cspace demo_cspace.root 3 .ObjType_Frame
      12 1 1 8 false).2 (by decide)).2 ⟨100, 3⟩ (by decide)).2 (cnode_cap 200 8)
      (by decide)).2 rfl⟩

/-- C14 witness on `demo_cspace`: an illegal type, an unresolved destination,
the occupied slot 0 of the CNode at 200, a frame for its empty slot 1, and an
identifier capability for slot 1, the only call that reaches
`caps_create_new`. -/
theorem create_only_id_into_empty_slot_witness :
    demo_create demo_cspace .ObjType_Null 0 1 1 8
      = (SYSRET [.SYS_ERR_ILLEGAL_DEST_TYPE], demo_cspace) ∧
    demo_create demo_cspace .ObjType_ID 0 9 1 8
      = (SYSRET [.SYS_ERR_DEST_CNODE_LOOKUP, .helper 0], demo_cspace) ∧
    demo_create demo_cspace .ObjType_ID 0 1 0 8
      = (SYSRET [.SYS_ERR_SLOTS_IN_USE], demo_cspace) ∧
    demo_create demo_cspace .ObjType_Frame 12 1 1 8
      = (SYSRET [.SYS_ERR_TYPE_NOT_CREATABLE], demo_cspace) ∧
    demo_create demo_cspace .ObjType_ID 0 1 1 8
      = (SYSRET SYS_ERR_OK,
         { demo_cspace with calls := [.create_new .ObjType_ID 0 0 0 ⟨200, 1⟩] }) :=
  ⟨(create_only_id_into_empty_slot demo_ObjType_Num demo_objtype_value MonState.cte_at
      MonState.lookup_cap MonState.create_new demo_cspace demo_cspace.root .ObjType_Null
      0 1 1 8).1 (Or.inl rfl),
   ((create_only_id_into_empty_slot demo_ObjType_Num demo_objtype_value MonState.cte_at
      MonState.lookup_cap MonState.create_new demo_cspace demo_cspace.root .ObjType_ID
      0 9 1 8).2 (by decide)).1 [.helper 0] (by decide),
   (((create_only_id_into_empty_slot demo_ObjType_Num demo_objtype_value MonState.cte_at
      MonState.lookup_cap MonState.create_new demo_cspace demo_cspace.root .ObjType_ID
      0 1 0 8).2 (by decide)).2 (cnode_cap 200 8) (by decide)).1 (by decide),
   ((((create_only_id_into_empty_slot demo_ObjType_Num demo_objtype_value MonState.cte_at
      MonState.lookup_cap MonState.create_new demo_cspace demo_cspace.root .ObjType_Frame
      12 1 1 8).2 (by decide)).2 (cnode_cap 200 8) (by decide)).2 (by decide)).1
      (by decide),
   ((((create_only_id_into_empty_slot demo_ObjType_Num demo_objtype_value MonState.cte_at
      MonState.lookup_cap MonState.create_new demo_cspace demo_cspace.root .ObjType_ID
      0 1 1 8).2 (by decide)).2 (cnode_cap 200 8) (by decide)).2 (by decide)).2 rfl⟩

/-! ## Copy and mint -/

section CopyTheorems

variable {σ : Type}
variable (cte_at : σ → SlotPtr → cte)
variable (caps_lookup_slot : σ → capability → Nat → Nat → CapRights → Except errval_t SlotPtr)
variable (type_is_vnode : objtype → Bool)
variable (caps_copy_to_cnode : σ → SlotPtr → Nat → SlotPtr → Bool → Nat → Nat → errval_t × σ)
variable (caps_copy_to_vnode : σ → SlotPtr → Nat → SlotPtr → Nat → Nat → errval_t × σ)

/-- C15: a plain copy ignores the caller's parameter words.  For every state
and all arguments, two calls of `sys_copy_or_mint` with `mint = false` that
differ only in `param1` and `param2` return the same result and the same
final state; and when source and destination resolve, the copy algorithm that
the call reaches (CNode or VNode) is invoked with both parameters 0. -/
theorem plain_copy_ignores_params (s : σ) (root : capability) (destcn_cptr dest_slot
    source_cptr destcn_vbits source_vbits param1 param2 param1' param2' : Nat) :
    sys_copy_or_mint cte_at caps_lookup_slot type_is_vnode caps_copy_to_cnode
        caps_copy_to_vnode s root destcn_cptr dest_slot source_cptr destcn_vbits source_vbits
        param1 param2 false
      = sys_copy_or_mint cte_at caps_lookup_slot type_is_vnode caps_copy_to_cnode
        caps_copy_to_vnode s root destcn_cptr dest_slot source_cptr destcn_vbits source_vbits
        param1' param2' false ∧
    ∀ src_cap dest_cap,
      caps_lookup_slot s root source_cptr source_vbits .CAPRIGHTS_READ = .ok src_cap →
      caps_lookup_slot s root destcn_cptr destcn_vbits .CAPRIGHTS_READ_WRITE = .ok dest_cap →
      ((cte_at s dest_cap).cap.type = .ObjType_CNode →
        sys_copy_or_mint cte_at caps_lookup_slot type_is_vnode caps_copy_to_cnode
          caps_copy_to_vnode s root destcn_cptr dest_slot source_cptr destcn_vbits
          source_vbits param1 param2 false
        = (SYSRET (caps_copy_to_cnode s dest_cap dest_slot src_cap false 0 0).1,
           (caps_copy_to_cnode s dest_cap dest_slot src_cap false 0 0).2)) ∧
      ((cte_at s dest_cap).cap.type ≠ .ObjType_CNode →
        type_is_vnode (cte_at s dest_cap).cap.type = true →
        sys_copy_or_mint cte_at caps_lookup_slot type_is_vnode caps_copy_to_cnode
          caps_copy_to_vnode s root destcn_cptr dest_slot source_cptr destcn_vbits
          source_vbits param1 param2 false
        = (SYSRET (caps_copy_to_vnode s dest_cap dest_slot src_cap 0 0).1,
           (caps_copy_to_vnode s dest_cap dest_slot src_cap 0 0).2)) := by
  refine ⟨rfl, fun src dest hs hd => ⟨fun hc => ?_, fun hc hv => ?_⟩⟩
  · unfold sys_copy_or_mint
    simp only [hs, hd, hc, if_true, Bool.not_false]
  · unfold sys_copy_or_mint
    simp only [hs, hd, hc, hv, if_true, if_false, Bool.not_false]

/-- C16: destination dispatch of `sys_copy_or_mint`, for a `type_is_vnode`
for which a CNode is no VNode.  If the source lookup (read rights) fails, the
result is its error pushed with `SYS_ERR_SOURCE_CAP_LOOKUP`, whatever the
destination lookup would yield.  If source and destination (read-write
rights) both resolve: a destination of type CNode routes the call to
`caps_copy_to_cnode`, a destination of a VNode type routes it to
`caps_copy_to_vnode`, and every other destination type gives
`SYS_ERR_DEST_TYPE_INVALID` with the state unchanged.  The parameter words
that are passed on are the caller's for a mint and 0 for a copy. -/
theorem copy_or_mint_dispatch (hcn : type_is_vnode .ObjType_CNode = false)
    (s : σ) (root : capability) (destcn_cptr dest_slot
    source_cptr destcn_vbits source_vbits param1 param2 : Nat) (mint : Bool) :
    (∀ err, caps_lookup_slot s root source_cptr source_vbits .CAPRIGHTS_READ = .error err →
      sys_copy_or_mint cte_at caps_lookup_slot type_is_vnode caps_copy_to_cnode
        caps_copy_to_vnode s root destcn_cptr dest_slot source_cptr destcn_vbits source_vbits
        param1 param2 mint = (SYSRET (err_push err .SYS_ERR_SOURCE_CAP_LOOKUP), s)) ∧
    ∀ src_cap dest_cap,
      caps_lookup_slot s root source_cptr source_vbits .CAPRIGHTS_READ = .ok src_cap →
      caps_lookup_slot s root destcn_cptr destcn_vbits .CAPRIGHTS_READ_WRITE = .ok dest_cap →
      ((cte_at s dest_cap).cap.type = .ObjType_CNode →
        sys_copy_or_mint cte_at caps_lookup_slot type_is_vnode caps_copy_to_cnode
          caps_copy_to_vnode s root destcn_cptr dest_slot source_cptr destcn_vbits
          source_vbits param1 param2 mint
        = (SYSRET (caps_copy_to_cnode s dest_cap dest_slot src_cap mint
              (if mint then param1 else 0) (if mint then param2 else 0)).1,
           (caps_copy_to_cnode s dest_cap dest_slot src_cap mint
              (if mint then param1 else 0) (if mint then param2 else 0)).2)) ∧
      (type_is_vnode (cte_at s dest_cap).cap.type = true →
        sys_copy_or_mint cte_at caps_lookup_slot type_is_vnode caps_copy_to_cnode
          caps_copy_to_vnode s root destcn_cptr dest_slot source_cptr destcn_vbits
          source_vbits param1 param2 mint
        = (SYSRET (caps_copy_to_vnode s dest_cap dest_slot src_cap
              (if mint then param1 else 0) (if mint then param2 else 0)).1,
           (caps_copy_to_vnode s dest_cap dest_slot src_cap
              (if mint then param1 else 0) (if mint then param2 else 0)).2)) ∧
      ((cte_at s dest_cap).cap.type ≠ .ObjType_CNode →
        type_is_vnode (cte_at s dest_cap).cap.type = false →
        sys_copy_or_mint cte_at caps_lookup_slot type_is_vnode caps_copy_to_cnode
          caps_copy_to_vnode s root destcn_cptr dest_slot source_cptr destcn_vbits
          source_vbits param1 param2 mint = (SYSRET [.SYS_ERR_DEST_TYPE_INVALID], s)) := by
  refine ⟨fun err hs => ?_, fun src dest hs hd => ⟨fun hc => ?_, fun hv => ?_, fun hc hv => ?_⟩⟩
  · unfold sys_copy_or_mint
    simp only [hs]
  · unfold sys_copy_or_mint
    cases mint <;> simp [hs, hd, hc]
  · have hc : (cte_at s dest).cap.type ≠ .ObjType_CNode := by
      intro h; rw [h, hcn] at hv; cases hv
    unfold sys_copy_or_mint
    cases mint <;> simp [hs, hd, hc, hv]
  · unfold sys_copy_or_mint
    simp [hs, hd, hc, hv]

end CopyTheorems

/-- C15 witness on `demo_cspace`: a plain copy of the frame in slot 3 into the
CNode in slot 1, and one into the PML4 table in slot 2, with parameter words
7 and 9, reach the copy algorithms with both parameters 0. -/
theorem plain_copy_ignores_params_witness :
    demo_copy_or_mint demo_cspace 1 5 3 8 8 7 9 false
      = demo_copy_or_mint demo_cspace 1 5 3 8 8 0 0 false ∧
    demo_copy_or_mint demo_cspace 1 5 3 8 8 7 9 false
      = (SYSRET SYS_ERR_OK,
         { demo_cspace with calls := [.copy_to_cnode ⟨100, 1⟩ 5 ⟨100, 3⟩ false 0 0] }) ∧
    demo_copy_or_mint demo_cspace 2 5 3 8 8 7 9 false
      = (SYSRET SYS_ERR_OK,
         { demo_cspace with calls := [.copy_to_vnode ⟨100, 2⟩ 5 ⟨100, 3⟩ 0 0] }) :=
  ⟨(plain_copy_ignores_params MonState.cte_at MonState.lookup_slot demo_type_is_vnode
      MonState.copy_to_cnode MonState.copy_to_vnode demo_cspace demo_cspace.root
      1 5 3 8 8 7 9 0 0).1,
   ((plain_copy_ignores_params MonState.cte_at MonState.lookup_slot demo_type_is_vnode
      MonState.copy_to_cnode MonState.copy_to_vnode demo_cspace demo_cspace.root
      1 5 3 8 8 7 9 0 0).2 ⟨100, 3⟩ ⟨100, 1⟩ (by decide) (by decide)).1 (by decide),
   ((plain_copy_ignores_params MonState.cte_at MonState.lookup_slot demo_type_is_vnode
      MonState.copy_to_cnode MonState.copy_to_vnode demo_cspace demo_cspace.root
      2 5 3 8 8 7 9 0 0).2 ⟨100, 3⟩ ⟨100, 2⟩ (by decide) (by decide)).2 (by decide)
      (by decide)⟩

/-- C16 witness on `demo_cspace`: an unresolved source; a mint into the CNode
in slot 1; a mint into the PML4 table in slot 2; a copy into the frame in
slot 3, which is refused. -/
theorem copy_or_mint_dispatch_witness :
    demo_type_is_vnode .ObjType_CNode = false ∧
    demo_copy_or_mint demo_cspace 9 5 9 8 8 7 9 true
      = (SYSRET [.SYS_ERR_SOURCE_CAP_LOOKUP, .helper 0], demo_cspace) ∧
    demo_copy_or_mint demo_cspace 1 5 3 8 8 7 9 true
      = (SYSRET SYS_ERR_OK,
         { demo_cspace with calls := [.copy_to_cnode ⟨100, 1⟩ 5 ⟨100, 3⟩ true 7 9] }) ∧
    demo_copy_or_mint demo_cspace 2 5 3 8 8 7 9 true
      = (SYSRET SYS_ERR_OK,
         { demo_cspace with calls := [.copy_to_vnode ⟨100, 2⟩ 5 ⟨100, 3⟩ 7 9] }) ∧
    demo_copy_or_mint demo_cspace 3 5 3 8 8 7 9 false
      = (SYSRET [.SYS_ERR_DEST_TYPE_INVALID], demo_cspace) :=
  ⟨by decide,
   (copy_or_mint_dispatch MonState.cte_at MonState.lookup_slot demo_type_is_vnode
      MonState.copy_to_cnode MonState.copy_to_vnode (by decide) demo_cspace demo_cspace.root
      9 5 9 8 8 7 9 true).1 [.helper 0] (by decide),
   ((copy_or_mint_dispatch MonState.cte_at MonState.lookup_slot demo_type_is_vnode
      MonState.copy_to_cnode MonState.copy_to_vnode (by decide) demo_cspace demo_cspace.root
      1 5 3 8 8 7 9 true).2 ⟨100, 3⟩ ⟨100, 1⟩ (by decide) (by decide)).1 (by decide),
   ((copy_or_mint_dispatch MonState.cte_at MonState.lookup_slot demo_type_is_vnode
      MonState.copy_to_cnode MonState.copy_to_vnode (by decide) demo_cspace demo_cspace.root
      2 5 3 8 8 7 9 true).2 ⟨100, 3⟩ ⟨100, 2⟩ (by decide) (by decide)).2.1 (by decide),
   ((copy_or_mint_dispatch MonState.cte_at MonState.lookup_slot demo_type_is_vnode
      MonState.copy_to_cnode MonState.copy_to_vnode (by decide) demo_cspace demo_cspace.root
      3 5 3 8 8 7 9 false).2 ⟨100, 3⟩ ⟨100, 3⟩ (by decide) (by decide)).2.2 (by decide)
      (by decide)⟩

/-! ## Yield -/

section YieldTheorems

variable (caps_lookup_cap : capability → Nat → Nat → CapRights → Except errval_t capability)
variable (schedule : YieldState → Nat)

theorem find_map_frame (l : List (Nat × dispatcher_shared_generic)) (h : Nat)
    (f g : dispatcher_shared_generic)
    (hf : (l.find? (fun x => x.1 = h)).map (fun x => x.2) = some g) :
    ((l.map (fun x => if x.1 = h then (x.1, f) else x)).find? (fun x => x.1 = h)).map
      (fun x => x.2) = some f := by
  induction l with
  | nil => simp at hf
  | cons a t ih =>
    by_cases ha : a.1 = h
    · simp [List.find?, ha]
    · have hf1 : (t.find? (fun x => x.1 = h)).map (fun x => x.2) = some g := by
        simpa [List.find?_cons, ha] using hf
      simpa [List.find?_cons, ha] using ih hf1

/-- Reading the shared frame after a write to it yields what was written. -/
theorem frame_at_set_frame (s : YieldState) (h : Nat) (f g : dispatcher_shared_generic)
    (hf : s.frame_at h = some g) : (s.set_frame h f).frame_at h = some f :=
  find_map_frame s.frames h f g hf

/-- The state after the two assignments that re-enable the caller. -/
theorem yield_enable_spec (s : YieldState) (cur : dcb) (disp : dispatcher_shared_generic)
    (hd : s.dcbs[s.dcb_current]? = some cur) (hf : s.frame_at cur.disp = some disp) :
    (yield_enable s cur disp).1.frame_at cur.disp = some { disp with disabled := false } ∧
    (yield_enable s cur disp).1.dcbs[s.dcb_current]? = some { cur with disabled := false } ∧
    (yield_enable s cur disp).1.calls = s.calls ∧
    (yield_enable s cur disp).1.dcb_current = s.dcb_current ∧
    (yield_enable s cur disp).1.kernel_now = s.kernel_now ∧
    (yield_enable s cur disp).2 = { disp with disabled := false } :=
  ⟨frame_at_set_frame s cur.disp { disp with disabled := false } disp hf,
   getElem?_set_self' s.dcbs s.dcb_current cur { cur with disabled := false } hd,
   rfl, rfl, rfl, rfl⟩

/-- Reading a shared frame depends on the frame memory only. -/
theorem frame_at_congr (s s' : YieldState) (h : s'.frames = s.frames) (handle : Nat) :
    s'.frame_at handle = s.frame_at handle := by
  unfold YieldState.frame_at; rw [h]

/-- The run-queue decision changes nothing but the recorded calls. -/
theorem yield_queue_frame (s : YieldState) (disp : dispatcher_shared_generic) :
    (yield_queue s disp).dcbs = s.dcbs ∧ (yield_queue s disp).frames = s.frames ∧
    (yield_queue s disp).dcb_current = s.dcb_current ∧
    (yield_queue s disp).kernel_now = s.kernel_now := by
  unfold yield_queue
  simp only
  split
  · split <;> exact ⟨rfl, rfl, rfl, rfl⟩
  · exact ⟨rfl, rfl, rfl, rfl⟩

/-- The calls of the run-queue decision. -/
theorem yield_queue_calls (s : YieldState) (disp : dispatcher_shared_generic) :
    ((disp.haswork = false ∧ disp.lmp_delivered = disp.lmp_seen ∧
        (disp.wakeup = 0 ∨ disp.wakeup > s.kernel_now)) →
      (yield_queue s disp).calls =
        (if disp.wakeup ≠ 0 then [.wakeup_set s.dcb_current disp.wakeup] else [])
          ++ [.scheduler_remove s.dcb_current] ++ s.calls) ∧
    (¬ (disp.haswork = false ∧ disp.lmp_delivered = disp.lmp_seen ∧
        (disp.wakeup = 0 ∨ disp.wakeup > s.kernel_now)) →
      (yield_queue s disp).calls = [.scheduler_yield s.dcb_current] ++ s.calls) := by
  have hiff : (!disp.haswork && disp.lmp_delivered == disp.lmp_seen
      && (disp.wakeup == 0 || decide (disp.wakeup > s.kernel_now))) = true ↔
      (disp.haswork = false ∧ disp.lmp_delivered = disp.lmp_seen ∧
        (disp.wakeup = 0 ∨ disp.wakeup > s.kernel_now)) := by
    simp [and_assoc]
  constructor
  · intro h
    unfold yield_queue
    simp only
    rw [if_pos (hiff.2 h)]
    by_cases hw : disp.wakeup ≠ 0
    · rw [if_pos hw, if_pos hw]; rfl
    · rw [if_neg hw, if_neg hw]; rfl
  · intro h
    unfold yield_queue
    simp only
    rw [if_neg (fun hc => h (hiff.1 hc))]
    rfl

/-- The directed or undirected dispatch changes nothing but the recorded
calls; with a valid target it does not end in the panic. -/
theorem yield_dispatch_spec (s : YieldState) (yield_to : Option capability)
    (hy : ∀ c, yield_to = some c → c.type = .ObjType_EndPoint ∨ c.type = .ObjType_Dispatcher) :
    ∃ post d, (∀ c ∈ post, c = .schedule ∨ ∃ d, c = .make_runnable d ∨ c = .dispatch d) ∧
      yield_dispatch schedule s yield_to = (.dispatched d, { s with calls := post ++ s.calls }) ∧
      (∀ c, yield_to = some c → d = c.dcb ∧ post = [.dispatch c.dcb, .make_runnable c.dcb]) := by
  cases yield_to with
  | none =>
    refine ⟨[.dispatch (schedule { s with calls := .schedule :: s.calls }), .schedule],
      schedule { s with calls := .schedule :: s.calls }, ?_, rfl, ?_⟩
    · intro c hc
      simp only [List.mem_cons, List.mem_singleton, List.mem_nil_iff, or_false] at hc
      rcases hc with h | h
      · exact Or.inr ⟨_, Or.inr h⟩
      · exact Or.inl h
    · intro c hc; cases hc
  | some c =>
    refine ⟨[.dispatch c.dcb, .make_runnable c.dcb], c.dcb, ?_, ?_, ?_⟩
    · intro x hx
      simp only [List.mem_cons, List.mem_singleton, List.mem_nil_iff, or_false] at hx
      rcases hx with h | h
      · exact Or.inr ⟨_, Or.inr h⟩
      · exact Or.inr ⟨_, Or.inl h⟩
    · unfold yield_dispatch
      rcases hy c rfl with h | h
      · simp only [h, if_true]; rfl
      · by_cases he : c.type = .ObjType_EndPoint
        · simp only [he, if_true]; rfl
        · simp only [h, if_true]
          rfl
    · intro c' hc'
      cases hc'
      exact ⟨rfl, rfl⟩

/-- C17: yield requires a disabled caller.  For every state in which the
disabled flag of the current dispatcher (the flag in its shared frame, which
`sys_yield` tests) is false, and for every target argument, `sys_yield`
returns `SYS_ERR_CALLER_ENABLED` and the state is the one before the call:
both disabled flags are as before and no call into the scheduler, the wakeup
queue or the dispatch code is made. -/
theorem yield_requires_disabled_caller (s : YieldState) (target : Nat) (cur : dcb)
    (disp : dispatcher_shared_generic)
    (hd : s.dcbs[s.dcb_current]? = some cur) (hf : s.frame_at cur.disp = some disp)
    (he : disp.disabled = false) :
    sys_yield caps_lookup_cap schedule s target
      = .ok (.returned (SYSRET [.SYS_ERR_CALLER_ENABLED]), s) := by
  unfold sys_yield
  simp only [hd, hf, he, Bool.not_false, if_true]

/-- C18: the run-queue decision of yield.  For every call of `sys_yield` with
a disabled caller that passes target validation (the target is `CPTR_NULL`, or
resolves to an endpoint or a dispatcher capability), the call ends in a
dispatch; in the state it leaves, the disabled flags of the shared frame and
of the DCB are clear, and the calls made are, in this order: if `haswork` is
false, `lmp_delivered = lmp_seen` and (`wakeup = 0` or `wakeup > kernel_now`),
`scheduler_remove` on the caller, followed by `wakeup_set` exactly when
`wakeup` is not 0, and otherwise `scheduler_yield` on the caller alone; then
only calls of `make_runnable`, `schedule` and `dispatch`.  So exactly one of
`scheduler_remove` and `scheduler_yield` is called. -/
theorem yield_run_queue_decision (s : YieldState) (target : Nat) (cur : dcb)
    (disp : dispatcher_shared_generic)
    (hd : s.dcbs[s.dcb_current]? = some cur) (hf : s.frame_at cur.disp = some disp)
    (he : disp.disabled = true)
    (hv : target = CPTR_NULL ∨
      ∃ c, caps_lookup_cap cur.cspace.cap target CPTR_BITS .CAPRIGHTS_READ = .ok c ∧
        (c.type = .ObjType_EndPoint ∨ c.type = .ObjType_Dispatcher)) :
    ∃ d s' post, sys_yield caps_lookup_cap schedule s target = .ok (.dispatched d, s') ∧
      Option.map dispatcher_shared_generic.disabled (s'.frame_at cur.disp) = some false ∧
      Option.map dcb.disabled (s'.dcbs[s.dcb_current]?) = some false ∧
      (∀ c ∈ post, c = .schedule ∨ ∃ d, c = .make_runnable d ∨ c = .dispatch d) ∧
      ((disp.haswork = false ∧ disp.lmp_delivered = disp.lmp_seen ∧
          (disp.wakeup = 0 ∨ disp.wakeup > s.kernel_now)) →
        s'.calls =
          post ++ (if disp.wakeup ≠ 0 then [.wakeup_set s.dcb_current disp.wakeup] else [])
            ++ [.scheduler_remove s.dcb_current] ++ s.calls) ∧
      (¬ (disp.haswork = false ∧ disp.lmp_delivered = disp.lmp_seen ∧
          (disp.wakeup = 0 ∨ disp.wakeup > s.kernel_now)) →
        s'.calls = post ++ [.scheduler_yield s.dcb_current] ++ s.calls) := by
  have hred : ∃ yield_to : Option capability,
      (∀ c, yield_to = some c → c.type = .ObjType_EndPoint ∨ c.type = .ObjType_Dispatcher) ∧
      sys_yield caps_lookup_cap schedule s target
        = .ok (yield_switch schedule s cur disp yield_to) := by
    by_cases ht : target = CPTR_NULL
    · refine ⟨none, (fun c hc => by cases hc), ?_⟩
      unfold sys_yield
      simp only [hd, hf, he, ht, Bool.not_true, ne_eq, not_true_eq_false, if_false]
      rfl
    · rcases hv with hv | ⟨c, hl, hc⟩
      · exact absurd hv ht
      · refine ⟨some c, (fun c' hc' => by cases hc'; exact hc), ?_⟩
        have hn : ¬ (c.type ≠ .ObjType_EndPoint ∧ c.type ≠ .ObjType_Dispatcher) := by
          rcases hc with h | h <;> simp [h]
        unfold sys_yield
        simp only [hd, hf, he, ht, hl, hn, Bool.not_true, ne_eq, not_false_eq_true, if_true,
          if_false]
        rfl
  obtain ⟨yield_to, hy, hrun⟩ := hred
  obtain ⟨hef, hed, hec, hecur, henow, hedisp⟩ := yield_enable_spec s cur disp hd hf
  obtain ⟨post, d, hpost, hdisp, _⟩ := yield_dispatch_spec schedule
    (yield_queue (yield_enable s cur disp).1 (yield_enable s cur disp).2) yield_to hy
  obtain ⟨hqd, hqf, hqcur, hqnow⟩ :=
    yield_queue_frame (yield_enable s cur disp).1 (yield_enable s cur disp).2
  have hcalls :
      ((disp.haswork = false ∧ disp.lmp_delivered = disp.lmp_seen ∧
          (disp.wakeup = 0 ∨ disp.wakeup > s.kernel_now)) →
        (yield_queue (yield_enable s cur disp).1 (yield_enable s cur disp).2).calls =
          (if disp.wakeup ≠ 0 then [.wakeup_set s.dcb_current disp.wakeup] else [])
            ++ [.scheduler_remove s.dcb_current] ++ s.calls) ∧
      (¬ (disp.haswork = false ∧ disp.lmp_delivered = disp.lmp_seen ∧
          (disp.wakeup = 0 ∨ disp.wakeup > s.kernel_now)) →
        (yield_queue (yield_enable s cur disp).1 (yield_enable s cur disp).2).calls =
          [.scheduler_yield s.dcb_current] ++ s.calls) :=
    yield_queue_calls (yield_enable s cur disp).1 (yield_enable s cur disp).2
  have hsw : yield_switch schedule s cur disp yield_to =
      (.dispatched d, { yield_queue (yield_enable s cur disp).1 (yield_enable s cur disp).2
          with calls := post ++
            (yield_queue (yield_enable s cur disp).1 (yield_enable s cur disp).2).calls }) := by
    rw [← hdisp]; rfl
  refine ⟨d, _, post, by rw [hrun, hsw], ?_, ?_, hpost, ?_, ?_⟩
  · exact congrArg (Option.map dispatcher_shared_generic.disabled)
      ((frame_at_congr (yield_enable s cur disp).1
        (yield_queue (yield_enable s cur disp).1 (yield_enable s cur disp).2) hqf
        cur.disp).trans hef)
  · exact congrArg (Option.map dcb.disabled)
      ((congrArg (fun l : List dcb => l[s.dcb_current]?) hqd).trans hed)
  · intro h
    show post ++ (yield_queue (yield_enable s cur disp).1 (yield_enable s cur disp).2).calls = _
    rw [hcalls.1 h]
    simp only [List.append_assoc]
  · intro h
    show post ++ (yield_queue (yield_enable s cur disp).1 (yield_enable s cur disp).2).calls = _
    rw [hcalls.2 h]
    simp only [List.append_assoc]

/-- With a valid target, the second half of `sys_yield` ends in a dispatch. -/
theorem yield_switch_dispatched (s : YieldState) (cur : dcb) (disp : dispatcher_shared_generic)
    (yield_to : Option capability)
    (hy : ∀ c, yield_to = some c → c.type = .ObjType_EndPoint ∨ c.type = .ObjType_Dispatcher) :
    ∃ (post : List SchedCall) (d : Nat) (s1 : YieldState),
      yield_switch schedule s cur disp yield_to =
        (.dispatched d, { s1 with calls := post ++ s1.calls }) ∧
      (∀ c, yield_to = some c → d = c.dcb ∧ post = [.dispatch c.dcb, .make_runnable c.dcb]) := by
  obtain ⟨post, d, _, hdisp, hto⟩ := yield_dispatch_spec schedule
    (yield_queue (yield_enable s cur disp).1 (yield_enable s cur disp).2) yield_to hy
  exact ⟨post, d, _, hdisp, hto⟩

/-- C19: directed-yield target validation.  For every call of `sys_yield` with
a disabled caller and a target other than `CPTR_NULL` that resolves to a
capability `c`: if `c` is neither an endpoint nor a dispatcher capability the
call returns `SYS_ERR_INVALID_YIELD_TARGET` and the state is the one before
the call (the caller is not re-enabled and no scheduler call is made); if it
is one of the two, the call makes the DCB of `c` (the listener of an endpoint,
the DCB of a dispatcher capability) runnable and dispatches it.  And no call
of `sys_yield`, in any state and with any target, ends in the panic "invalid
type in yield cap". -/
theorem yield_target_validation (s : YieldState) (target : Nat) (cur : dcb)
    (disp : dispatcher_shared_generic) (c : capability)
    (hd : s.dcbs[s.dcb_current]? = some cur) (hf : s.frame_at cur.disp = some disp)
    (he : disp.disabled = true) (ht : target ≠ CPTR_NULL)
    (hl : caps_lookup_cap cur.cspace.cap target CPTR_BITS .CAPRIGHTS_READ = .ok c) :
    ((c.type ≠ .ObjType_EndPoint ∧ c.type ≠ .ObjType_Dispatcher) →
      sys_yield caps_lookup_cap schedule s target
        = .ok (.returned (SYSRET [.SYS_ERR_INVALID_YIELD_TARGET]), s)) ∧
    ((c.type = .ObjType_EndPoint ∨ c.type = .ObjType_Dispatcher) →
      ∃ s' rest, sys_yield caps_lookup_cap schedule s target = .ok (.dispatched c.dcb, s') ∧
        s'.calls = .dispatch c.dcb :: .make_runnable c.dcb :: rest) ∧
    (∀ (s2 : YieldState) (target2 : Nat) (s' : YieldState),
      sys_yield caps_lookup_cap schedule s2 target2 ≠ .ok (.panic_invalid_type, s')) := by
  refine ⟨fun hc => ?_, fun hc => ?_, fun s2 target2 s' => ?_⟩
  · unfold sys_yield
    simp only [hd, hf, he, ht, hl, hc, Bool.not_true, ne_eq, not_false_eq_true, if_true,
      if_false, and_self, Bool.false_eq_true]
  · have hn : ¬ (c.type ≠ .ObjType_EndPoint ∧ c.type ≠ .ObjType_Dispatcher) := by
      rcases hc with h | h <;> simp [h]
    obtain ⟨post, d, s1, hsw, hto⟩ := yield_switch_dispatched schedule s cur disp (some c)
      (fun c' hc' => by cases hc'; exact hc)
    obtain ⟨hdc, hpc⟩ := hto c rfl
    refine ⟨{ s1 with calls := post ++ s1.calls }, s1.calls, ?_, ?_⟩
    · unfold sys_yield
      simp only [hd, hf, he, ht, hl, hn, Bool.not_true, ne_eq, not_false_eq_true, if_true,
        if_false, Bool.false_eq_true]
      rw [hsw, hdc]
    · rw [hpc]; rfl
  · unfold sys_yield
    cases h1 : s2.dcbs[s2.dcb_current]? with
    | none => simp
    | some cur2 =>
      simp only
      cases h2 : s2.frame_at cur2.disp with
      | none => simp
      | some disp2 =>
        simp only
        split
        · simp
        · split
          · cases h3 : caps_lookup_cap cur2.cspace.cap target2 CPTR_BITS .CAPRIGHTS_READ with
            | error err => simp
            | ok c2 =>
              simp only
              split
              · simp
              · rename_i hv
                obtain ⟨post, d, s1, hsw, _⟩ := yield_switch_dispatched schedule s2 cur2 disp2
                  (some c2) (fun c' hc' => by
                    cases hc'
                    by_cases h4 : c2.type = .ObjType_EndPoint
                    · exact Or.inl h4
                    · by_cases h5 : c2.type = .ObjType_Dispatcher
                      · exact Or.inr h5
                      · exact absurd ⟨h4, h5⟩ hv)
                rw [hsw]
                simp
          · obtain ⟨post, d, s1, hsw, _⟩ := yield_switch_dispatched schedule s2 cur2 disp2
              none (fun c' hc' => by cases hc')
            rw [hsw]
            simp

end YieldTheorems

/-- C17 witness: the second dispatcher of `demo_yield` is enabled; when it is
the caller, `sys_yield` returns `SYS_ERR_CALLER_ENABLED` for the null target,
a dispatcher capability, a frame and an address that does not resolve. -/
theorem yield_requires_disabled_caller_witness :
    demo_sys_yield { demo_yield with dcb_current := 1 } CPTR_NULL
      = .ok (.returned (SYSRET [.SYS_ERR_CALLER_ENABLED]), { demo_yield with dcb_current := 1 }) ∧
    demo_sys_yield { demo_yield with dcb_current := 1 } 4
      = .ok (.returned (SYSRET [.SYS_ERR_CALLER_ENABLED]), { demo_yield with dcb_current := 1 }) ∧
    demo_sys_yield { demo_yield with dcb_current := 1 } 3
      = .ok (.returned (SYSRET [.SYS_ERR_CALLER_ENABLED]), { demo_yield with dcb_current := 1 }) ∧
    demo_sys_yield { demo_yield with dcb_current := 1 } 9
      = .ok (.returned (SYSRET [.SYS_ERR_CALLER_ENABLED]), { demo_yield with dcb_current := 1 }) :=
  ⟨yield_requires_disabled_caller yield_lookup_cap (fun _ => 1)
      { demo_yield with dcb_current := 1 } CPTR_NULL { fresh_dcb with disp := 12288 }
      { idle_frame with disabled := false } (by decide) (by decide) rfl,
   yield_requires_disabled_caller yield_lookup_cap (fun _ => 1)
      { demo_yield with dcb_current := 1 } 4 { fresh_dcb with disp := 12288 }
      { idle_frame with disabled := false } (by decide) (by decide) rfl,
   yield_requires_disabled_caller yield_lookup_cap (fun _ => 1)
      { demo_yield with dcb_current := 1 } 3 { fresh_dcb with disp := 12288 }
      { idle_frame with disabled := false } (by decide) (by decide) rfl,
   yield_requires_disabled_caller yield_lookup_cap (fun _ => 1)
      { demo_yield with dcb_current := 1 } 9 { fresh_dcb with disp := 12288 }
      { idle_frame with disabled := false } (by decide) (by decide) rfl⟩

/-- C19 witness on `demo_yield`: a frame as target is refused and nothing
changes; a dispatcher capability and an endpoint for DCB 1 are dispatched
to. -/
theorem yield_target_validation_witness :
    demo_sys_yield demo_yield 3
      = .ok (.returned (SYSRET [.SYS_ERR_INVALID_YIELD_TARGET]), demo_yield) ∧
    (∃ s' rest, demo_sys_yield demo_yield 4 = .ok (.dispatched 1, s') ∧
      s'.calls = .dispatch 1 :: .make_runnable 1 :: rest) ∧
    (∃ s' rest, demo_sys_yield demo_yield 6 = .ok (.dispatched 1, s') ∧
      s'.calls = .dispatch 1 :: .make_runnable 1 :: rest) :=
  ⟨(yield_target_validation yield_lookup_cap (fun _ => 1) demo_yield 3
      { fresh_dcb with disp := 8192, disabled := true } idle_frame
      (plain_cap .ObjType_Frame 8192) (by decide) (by decide) rfl (by decide) (by decide)).1
      (by decide),
   (yield_target_validation yield_lookup_cap (fun _ => 1) demo_yield 4
      { fresh_dcb with disp := 8192, disabled := true } idle_frame
      (dispatcher_cap 1) (by decide) (by decide) rfl (by decide) (by decide)).2.1
      (Or.inr rfl),
   (yield_target_validation yield_lookup_cap (fun _ => 1) demo_yield 6
      { fresh_dcb with disp := 8192, disabled := true } idle_frame
      { type := .ObjType_EndPoint, base := 0, cnode := 0, bits := 0, dcb := 1,
        coreid := 0, core_local_id := 0 } (by decide) (by decide) rfl (by decide)
      (by decide)).2.1 (Or.inl rfl)⟩

/-- C18 witness on `demo_yield`, whose caller has no work, no message and no
wakeup pending: an undirected yield clears both flags and removes the caller
from the run queue without setting a wakeup.  With a wakeup at 70, after the
current time 50, the wakeup is set as well; with a wakeup at 20, which is due,
and with work pending, the caller yields its timeslice instead. -/
theorem yield_run_queue_decision_witness :
    (∃ d s' post, demo_sys_yield demo_yield CPTR_NULL = .ok (.dispatched d, s') ∧
      Option.map dispatcher_shared_generic.disabled (s'.frame_at 8192) = some false ∧
      Option.map dcb.disabled (s'.dcbs[0]?) = some false ∧
      (∀ c ∈ post, c = .schedule ∨ ∃ d, c = .make_runnable d ∨ c = .dispatch d) ∧
      ((idle_frame.haswork = false ∧ idle_frame.lmp_delivered = idle_frame.lmp_seen ∧
          (idle_frame.wakeup = 0 ∨ idle_frame.wakeup > 50)) →
        s'.calls = post ++ (if idle_frame.wakeup ≠ 0 then [.wakeup_set 0 idle_frame.wakeup]
          else []) ++ [.scheduler_remove 0] ++ []) ∧
      (¬ (idle_frame.haswork = false ∧ idle_frame.lmp_delivered = idle_frame.lmp_seen ∧
          (idle_frame.wakeup = 0 ∨ idle_frame.wakeup > 50)) →
        s'.calls = post ++ [.scheduler_yield 0] ++ [])) ∧
    calls_of (demo_sys_yield demo_yield CPTR_NULL)
      = [.dispatch 1, .schedule, .scheduler_remove 0] ∧
    calls_of (demo_sys_yield
        { demo_yield with frames := [(8192, { idle_frame with wakeup := 70 })] } CPTR_NULL)
      = [.dispatch 1, .schedule, .wakeup_set 0 70, .scheduler_remove 0] ∧
    calls_of (demo_sys_yield
        { demo_yield with frames := [(8192, { idle_frame with wakeup := 20 })] } CPTR_NULL)
      = [.dispatch 1, .schedule, .scheduler_yield 0] ∧
    calls_of (demo_sys_yield
        { demo_yield with frames := [(8192, { idle_frame with haswork := true })] } 4)
      = [.dispatch 1, .make_runnable 1, .scheduler_yield 0] :=
  ⟨yield_run_queue_decision yield_lookup_cap (fun _ => 1) demo_yield CPTR_NULL
      { fresh_dcb with disp := 8192, disabled := true } idle_frame (by decide) (by decide) rfl
      (Or.inl rfl),
   by decide, by decide, by decide, by decide⟩

/-! ## Identifier capabilities -/

/-- The identifier that `sys_idcap_identify` stores, for field values within
their widths. -/
theorem idcap_id_eq (cap : capability) (hc : cap.coreid < 2 ^ 8)
    (hl : cap.core_local_id < 2 ^ 32) :
    (sys_idcap_identify cap).2 = cap.coreid * 2 ^ 32 + cap.core_local_id := by
  unfold sys_idcap_identify
  simp only
  have h1 : cap.coreid % 2 ^ 64 = cap.coreid := Nat.mod_eq_of_lt (by omega)
  have h2 : cap.core_local_id % 2 ^ 64 = cap.core_local_id := Nat.mod_eq_of_lt (by omega)
  have h3 : cap.coreid <<< 32 % 2 ^ 64 = 2 ^ 32 * cap.coreid := by
    rw [Nat.shiftLeft_eq, Nat.mul_comm]
    exact Nat.mod_eq_of_lt (by omega)
  rw [h1, h2, h3, ← Nat.mul_add_lt_is_or hl, Nat.mul_comm]

/-- C20: identifier packing.  For every capability whose `coreid` is an 8-bit
value `c` and whose `core_local_id` is a 32-bit value `l`,
`sys_idcap_identify` returns OK and stores `id = c * 2^32 + l`, a 64-bit
value with `id >> 32 = c`, `id mod 2^32 = l` and bits 40 to 63 zero; and two
such capabilities with the same `id` have the same `c` and the same `l`. -/
theorem idcap_identify_packing (cap : capability) (hc : cap.coreid < 2 ^ 8)
    (hl : cap.core_local_id < 2 ^ 32) :
    (sys_idcap_identify cap).1 = SYSRET SYS_ERR_OK ∧
    (sys_idcap_identify cap).2 = cap.coreid * 2 ^ 32 + cap.core_local_id ∧
    (sys_idcap_identify cap).2 < 2 ^ 64 ∧
    (sys_idcap_identify cap).2 >>> 32 = cap.coreid ∧
    (sys_idcap_identify cap).2 % 2 ^ 32 = cap.core_local_id ∧
    (sys_idcap_identify cap).2 / 2 ^ 40 = 0 ∧
    (∀ cap' : capability, cap'.coreid < 2 ^ 8 → cap'.core_local_id < 2 ^ 32 →
      (sys_idcap_identify cap').2 = (sys_idcap_identify cap).2 →
      cap'.coreid = cap.coreid ∧ cap'.core_local_id = cap.core_local_id) := by
  have hid := idcap_id_eq cap hc hl
  refine ⟨rfl, hid, ?_, ?_, ?_, ?_, ?_⟩
  · rw [hid]; omega
  · rw [hid, Nat.shiftRight_eq_div_pow]; omega
  · rw [hid]; omega
  · rw [hid]; omega
  · intro cap' hc' hl' he
    rw [hid, idcap_id_eq cap' hc' hl'] at he
    omega

/-- C20 witness: core 3 and core-local id 5 give `3 * 2^32 + 5`. -/
theorem idcap_identify_packing_witness :
    (sys_idcap_identify (id_cap 3 5)).1 = SYSRET SYS_ERR_OK ∧
    (sys_idcap_identify (id_cap 3 5)).2 = 12884901893 ∧
    (sys_idcap_identify (id_cap 3 5)).2 >>> 32 = 3 ∧
    (sys_idcap_identify (id_cap 3 5)).2 % 2 ^ 32 = 5 :=
  have h := idcap_identify_packing (id_cap 3 5) (by decide) (by decide)
  ⟨h.1, h.2.1, h.2.2.2.1, h.2.2.2.2.1⟩

/-! ## Ownership and locking: frame and totality of the walks -/

section OwnerLockFrame

variable (is_copy : capability → capability → Bool)

/-- What the two walks of one class leave: every entry is as before or has
been written, and an entry other than the target that is no copy of the target
is as before. -/
theorem class_walk_frame (w : cte → cte) (hw : ∀ x, (w x).cap = x.cap)
    (hidem : ∀ x, w (w x) = w x) (t f1 f2 : Nat) (m m1 m2 : MDB)
    (h1 : copy_walk is_copy mdb_predecessor w t f1 t m = .ok m1)
    (h2 : copy_walk is_copy mdb_successor w t f2 t m1 = .ok m2) :
    m2.length = m.length ∧
    ∀ j : Nat, (m2[j]? = m[j]? ∨ m2[j]? = Option.map w (m[j]?)) ∧
      (j ≠ t → copy_at is_copy m j t = false → m2[j]? = m[j]?) := by
  obtain ⟨lo, hi, h0, hlo, hhi, hlt, hlen, hget, hcop, hs1, hs2⟩ :=
    class_walk_spec is_copy w hw hidem t f1 f2 m m1 m2 h1 h2
  refine ⟨hlen, fun j => ⟨?_, ?_⟩⟩
  · rw [hget j]
    by_cases hr : lo ≤ j ∧ j ≤ hi
    · rw [if_pos hr]; exact Or.inr rfl
    · rw [if_neg hr]; exact Or.inl rfl
  · intro hne hnc
    rw [hget j]
    by_cases hr : lo ≤ j ∧ j ≤ hi
    · have := hcop j hr.1 hr.2 hne
      rw [hnc] at this; cases this
    · rw [if_neg hr]

/-- The frame of `sys_lock_cap_common`: no capability and no owner changes,
and the `locked` flag changes at the target and at copies of the target
only. -/
theorem lock_cap_common_frame (m m' : MDB) (t : Nat) (b : Bool)
    (h : sys_lock_cap_common is_copy m t b = .ok m') :
    m'.length = m.length ∧
    ∀ j : Nat, Option.map cte.cap (m'[j]?) = Option.map cte.cap (m[j]?) ∧
      Option.map (fun e => e.mdbnode.owner) (m'[j]?)
        = Option.map (fun e => e.mdbnode.owner) (m[j]?) ∧
      (j ≠ t → copy_at is_copy m j t = false → m'[j]? = m[j]?) := by
  unfold sys_lock_cap_common at h
  split at h
  · cases h
  · rename_i m1 h1
    obtain ⟨hlen, hfr⟩ := class_walk_frame is_copy (write_locked b) (write_locked_cap b)
      (write_locked_idem b) t _ _ m m1 m' h1 h
    refine ⟨hlen, fun j => ⟨?_, ?_, (hfr j).2⟩⟩
    · rcases (hfr j).1 with h3 | h3
      · rw [h3]
      · rw [h3]; cases m[j]? <;> rfl
    · rcases (hfr j).1 with h3 | h3
      · rw [h3]
      · rw [h3]; cases m[j]? <;> rfl

/-- The lock walks maintain the class invariant: when `is_copy` is an
equivalence and copies are contiguous, a call of `sys_lock_cap_common` that
returns from a state satisfying `locks_consistent` returns a state that
satisfies it.  (No other code of kernel/syscall.c writes a `locked` flag.) -/
theorem lock_cap_common_consistent (m m' : MDB) (t : Nat) (b : Bool)
    (hrefl : ∀ a, is_copy a a = true)
    (hsymm : ∀ a c, is_copy a c = true → is_copy c a = true)
    (htrans : ∀ a c d, is_copy a c = true → is_copy c d = true → is_copy a d = true)
    (hc : copies_contiguous is_copy m)
    (hinv : locks_consistent is_copy m)
    (h : sys_lock_cap_common is_copy m t b = .ok m') :
    locks_consistent is_copy m' := by
  obtain ⟨hlen, hfr⟩ := lock_cap_common_frame is_copy m m' t b h
  have hcl := lock_cap_common_closure is_copy m m' t b hc h
  have hcaps : ∀ i : Nat, Option.map cte.cap (m'[i]?) = Option.map cte.cap (m[i]?) :=
    fun i => (hfr i).1
  intro i hi j hj hij
  obtain ⟨ei, hei⟩ : ∃ e, m'[i]? = some e := ⟨m'[i], by simp [hi]⟩
  obtain ⟨ej, hej⟩ : ∃ e, m'[j]? = some e := ⟨m'[j], by simp [hj]⟩
  have hij' : is_copy ei.cap ej.cap = true := by
    rw [← copy_at_of is_copy m' i j ei ej hei hej]; exact hij
  by_cases hit : copy_at is_copy m' i t = true
  · obtain ⟨_, htl⟩ := copy_at_lt is_copy m' i t hit
    obtain ⟨et, het⟩ : ∃ e, m'[t]? = some e := ⟨m'[t], by simp [htl]⟩
    have h1 : is_copy ei.cap et.cap = true := by
      rw [← copy_at_of is_copy m' i t ei et hei het]; exact hit
    have h2 : is_copy ej.cap et.cap = true := htrans _ _ _ (hsymm _ _ hij') h1
    rw [hei, hej]
    simp only [Option.map_some', Option.some.injEq]
    rw [hcl i ei et hei het h1, hcl j ej et hej het h2]
  · have hit0 : copy_at is_copy m' i t = false := by
      cases hx : copy_at is_copy m' i t
      · rfl
      · exact absurd hx hit
    have hjt0 : copy_at is_copy m' j t = false := by
      cases hx : copy_at is_copy m' j t
      · rfl
      · exfalso
        obtain ⟨_, htl⟩ := copy_at_lt is_copy m' j t hx
        obtain ⟨et, het⟩ : ∃ e, m'[t]? = some e := ⟨m'[t], by simp [htl]⟩
        have h1 : is_copy ej.cap et.cap = true := by
          rw [← copy_at_of is_copy m' j t ej et hej het]; exact hx
        have h2 := htrans _ _ _ hij' h1
        rw [← copy_at_of is_copy m' i t ei et hei het] at h2
        exact hit h2
    have hne : ∀ k e, m'[k]? = some e → copy_at is_copy m' k t = false → k ≠ t := by
      intro k e hk hkt hkeq
      subst hkeq
      rw [copy_at_of is_copy m' k k e e hk hk, hrefl] at hkt
      cases hkt
    have hi0 : m'[i]? = m[i]? :=
      (hfr i).2.2 (hne i ei hei hit0) (by rw [← copy_at_congr is_copy m m' hcaps]; exact hit0)
    have hj0 : m'[j]? = m[j]? :=
      (hfr j).2.2 (hne j ej hej hjt0) (by rw [← copy_at_congr is_copy m m' hcaps]; exact hjt0)
    rw [hi0, hj0]
    exact hinv i (by omega) j (by omega)
      (by rw [← copy_at_congr is_copy m m' hcaps]; exact hij)

/-- C26: frame of owner and lock propagation.  For every MDB state and every
call of `sys_set_cap_owner`, `sys_lock_cap` or `sys_unlock_cap` that returns:
the MDB has the same entries in the same order with the same capabilities, and
the CSpace root is the same; `sys_set_cap_owner` changes no `locked` flag and
`sys_lock_cap`, `sys_unlock_cap` change no owner; and an entry other than the
target that is not a copy of the target is exactly as before. -/
theorem owner_lock_frame
    (caps_lookup_slot : MDB → capability → Nat → Nat → CapRights → Except errval_t Nat)
    (caps_lookup_cap : MDB → capability → Nat → Nat → CapRights → Except errval_t capability)
    (s : CapState) :
    (∀ (cptr bits v : Nat) (r : sysret) (s' : CapState),
      sys_set_cap_owner is_copy caps_lookup_slot s cptr bits v = .ok (r, s') →
      s'.cspace_root = s.cspace_root ∧ s'.mdb.length = s.mdb.length ∧
      ∀ j : Nat, Option.map cte.cap (s'.mdb[j]?) = Option.map cte.cap (s.mdb[j]?) ∧
        Option.map (fun e => e.mdbnode.locked) (s'.mdb[j]?)
          = Option.map (fun e => e.mdbnode.locked) (s.mdb[j]?) ∧
        (∀ C, caps_lookup_slot s.mdb s.cspace_root cptr bits .CAPRIGHTS_NORIGHTS = .ok C →
          j ≠ C → copy_at is_copy s.mdb j C = false → s'.mdb[j]? = s.mdb[j]?)) ∧
    (∀ (root_addr root_bits target_addr target_bits : Nat) (r : sysret) (s' : CapState),
      (sys_lock_cap is_copy caps_lookup_slot caps_lookup_cap s root_addr root_bits
          target_addr target_bits = .ok (r, s') ∨
        sys_unlock_cap is_copy caps_lookup_slot caps_lookup_cap s root_addr root_bits
          target_addr target_bits = .ok (r, s')) →
      s'.cspace_root = s.cspace_root ∧ s'.mdb.length = s.mdb.length ∧
      ∀ j : Nat, Option.map cte.cap (s'.mdb[j]?) = Option.map cte.cap (s.mdb[j]?) ∧
        Option.map (fun e => e.mdbnode.owner) (s'.mdb[j]?)
          = Option.map (fun e => e.mdbnode.owner) (s.mdb[j]?) ∧
        (∀ T, sys_double_lookup caps_lookup_slot caps_lookup_cap s root_addr root_bits
            target_addr target_bits = .ok (.ok T) →
          j ≠ T → copy_at is_copy s.mdb j T = false → s'.mdb[j]? = s.mdb[j]?)) := by
  constructor
  · intro cptr bits v r s' h
    unfold sys_set_cap_owner at h
    simp only at h
    split at h
    · cases h
      exact ⟨rfl, rfl, fun j => ⟨rfl, rfl, fun _ _ _ _ => rfl⟩⟩
    · rename_i C hC
      split at h
      · cases h
      · rename_i e he
        split at h
        · cases h
        · rename_i m1 h1
          split at h
          · cases h
          · rename_i m2 h2
            cases h
            obtain ⟨hlen, hfr⟩ := class_walk_frame is_copy (write_owner v) (write_owner_cap v)
              (write_owner_idem v) C _ _ _ m1 m2 h1 h2
            have h0 := getElem?_set_write s.mdb C e (write_owner v) he
            have hopt : ∀ j : Nat, m2[j]? = s.mdb[j]? ∨
                m2[j]? = Option.map (write_owner v) (s.mdb[j]?) := by
              intro j
              rcases (hfr j).1 with h3 | h3
              · rw [h3, h0 j]
                by_cases hj : j = C
                · rw [if_pos hj]; exact Or.inr rfl
                · rw [if_neg hj]; exact Or.inl rfl
              · rw [h3, h0 j]
                by_cases hj : j = C
                · rw [if_pos hj]; right
                  cases s.mdb[j]? <;> simp [write_owner_idem]
                · rw [if_neg hj]; exact Or.inr rfl
            refine ⟨rfl, by simpa using hlen, fun j => ⟨?_, ?_, ?_⟩⟩
            · rcases hopt j with h3 | h3
              · simp only [h3]
              · simp only [h3]; cases s.mdb[j]? <;> rfl
            · rcases hopt j with h3 | h3
              · simp only [h3]
              · simp only [h3]; cases s.mdb[j]? <;> rfl
            · intro C' hC' hne hnc
              rw [hC] at hC'
              cases hC'
              have := (hfr j).2 hne (by rw [copy_at_set is_copy s.mdb C e (write_owner v)
                (write_owner_cap v) he]; exact hnc)
              show m2[j]? = s.mdb[j]?
              rw [this, h0 j, if_neg hne]
  · intro root_addr root_bits target_addr target_bits r s' h
    have key : ∀ (b : Bool) (T : Nat) (m : MDB),
        sys_double_lookup caps_lookup_slot caps_lookup_cap s root_addr root_bits
          target_addr target_bits = .ok (.ok T) →
        sys_lock_cap_common is_copy s.mdb T b = .ok m →
        ({ s with mdb := m } : CapState).cspace_root = s.cspace_root ∧
        m.length = s.mdb.length ∧
        ∀ j : Nat, Option.map cte.cap (m[j]?) = Option.map cte.cap (s.mdb[j]?) ∧
          Option.map (fun e => e.mdbnode.owner) (m[j]?)
            = Option.map (fun e => e.mdbnode.owner) (s.mdb[j]?) ∧
          (∀ T', sys_double_lookup caps_lookup_slot caps_lookup_cap s root_addr root_bits
              target_addr target_bits = .ok (.ok T') →
            j ≠ T' → copy_at is_copy s.mdb j T' = false → m[j]? = s.mdb[j]?) := by
      intro b T m hT hm
      obtain ⟨hlen, hfr⟩ := lock_cap_common_frame is_copy s.mdb m T b hm
      refine ⟨rfl, hlen, fun j => ⟨(hfr j).1, (hfr j).2.1, ?_⟩⟩
      intro T' hT' hne hnc
      rw [hT] at hT'
      cases hT'
      exact (hfr j).2.2 hne hnc
    rcases h with h | h
    · unfold sys_lock_cap at h
      split at h
      · cases h
      · cases h
        exact ⟨rfl, rfl, fun j => ⟨rfl, rfl, fun _ _ _ _ => rfl⟩⟩
      · rename_i T hT
        split at h
        · cases h
        · split at h
          · cases h
            exact ⟨rfl, rfl, fun j => ⟨rfl, rfl, fun _ _ _ _ => rfl⟩⟩
          · split at h
            · cases h
            · rename_i m hm
              cases h
              exact key true T m hT hm
    · unfold sys_unlock_cap at h
      split at h
      · cases h
      · cases h
        exact ⟨rfl, rfl, fun j => ⟨rfl, rfl, fun _ _ _ _ => rfl⟩⟩
      · rename_i T hT
        split at h
        · cases h
        · rename_i m hm
          cases h
          exact key false T m hT hm

end OwnerLockFrame

/-- C26 witness on `mdb_inner`: setting the owner of frame 1 and locking
frame 1 return, and the entries for frame 0 and frame 2, which are no copies
of frame 1, are as before. -/
theorem owner_lock_frame_witness :
    (mdb_inner_owned.mdb[0]? = mdb_inner.mdb[0]? ∧
      mdb_inner_owned.mdb[3]? = mdb_inner.mdb[3]?) ∧
    (mdb_inner_locked.mdb[0]? = mdb_inner.mdb[0]? ∧
      Option.map (fun e => e.mdbnode.owner) (mdb_inner_locked.mdb[2]?)
        = Option.map (fun e => e.mdbnode.owner) (mdb_inner.mdb[2]?)) :=
  have h1 := (owner_lock_frame is_copy_spec flat_lookup_slot flat_lookup_cap mdb_inner).1
    1 8 5 (SYSRET SYS_ERR_OK) mdb_inner_owned (by decide)
  have h2 := (owner_lock_frame is_copy_spec flat_lookup_slot flat_lookup_cap mdb_inner).2
    0 32 1 8 (SYSRET SYS_ERR_OK) mdb_inner_locked (Or.inl (by decide))
  ⟨⟨(h1.2.2 0).2.2 1 (by decide) (by decide) (by decide),
    (h1.2.2 3).2.2 1 (by decide) (by decide) (by decide)⟩,
   ⟨(h2.2.2 0).2.2 1 (by decide) (by decide) (by decide), (h2.2.2 2).2.1⟩⟩

/-- C27, failing input: frame 0 is the first and frame 2 the last entry of
`mdb_inner`, and the frame of `mdb_single` is both.  There `mdb_predecessor`
or `mdb_successor` yields no entry, and the walks of `sys_set_cap_owner` and
`sys_lock_cap_common` have not stopped: they evaluate `is_copy` through the
null pointer. -/
theorem class_walks_reach_mdb_end :
    mdb_predecessor mdb_inner.mdb 0 = none ∧ mdb_successor mdb_inner.mdb 3 = none ∧
    sys_set_cap_owner is_copy_spec flat_lookup_slot mdb_inner 0 8 5 = .error .null_deref ∧
    sys_set_cap_owner is_copy_spec flat_lookup_slot mdb_inner 3 8 5 = .error .null_deref ∧
    sys_lock_cap_common is_copy_spec mdb_inner.mdb 0 true = .error .null_deref ∧
    sys_lock_cap_common is_copy_spec mdb_inner.mdb 3 false = .error .null_deref ∧
    sys_lock_cap_common is_copy_spec mdb_single.mdb 0 true = .error .null_deref := by
  decide

/-- C25, failing input: in `demo_installed` the address 3 resolves to a frame
capability, not a dispatcher capability.  `sys_dispatcher_setup` with
`odptr = 3` is not rejected: it returns OK, and the domain id of the target
DCB, 7 before the call, has been overwritten with the one read through the
`u.dispatcher.dcb` field of the frame capability. -/
theorem dispatcher_setup_other_not_dispatcher :
    demo_lookup_cap (plain_cap .ObjType_Null 0) 3 CPTR_BITS .CAPRIGHTS_READ_WRITE
      = .ok (plain_cap .ObjType_Frame 8192) ∧
    Option.map dcb.domain_id (demo_installed.dcbs[1]?) = some 7 ∧
    demo_setup demo_installed (dispatcher_cap 1) 0 0 0 0 false 3 =
      .ok (SYSRET SYS_ERR_OK,
        { dcbs := [fresh_dcb,
            { cspace := mk_cte (cnode_cap 100 8) 0 false, vspace := 4096, disp := 8192,
              disp_cte := mk_cte (plain_cap .ObjType_Frame 8192) 0 false, disabled := false,
              domain_id := 0, is_vm_guest := false, next_all := none }],
          dcbs_list := some 1, dcb_current := 0,
          events := [.trace_write_event 1 8192] }) := by
  decide

/-! ## Scheduling parameters -/

/-- C21, failing input: with the RBED scheduler configured, a caller who
passes `wcet = 2` with `deadline = 1`, or `wcet = 2` with `period = 1`, or
weight 0 for a best-effort task, or the task type 7, reaches a failed
assertion: `sys_dispatcher_properties` does not return to its caller. -/
theorem dispatcher_properties_assertion_fails :
    demo_properties demo_props (dispatcher_cap 1) 0 1 2 5 0 1 = .error .assert_failed ∧
    demo_properties demo_props (dispatcher_cap 1) 0 5 2 1 0 1 = .error .assert_failed ∧
    demo_properties demo_props (dispatcher_cap 1) 0 5 2 5 0 0 = .error .assert_failed ∧
    demo_properties demo_props (dispatcher_cap 1) 7 5 2 5 0 1 = .error .assert_failed := by
  decide

/-- C22 counterexample: the task type 7 with `wcet = 1`, `deadline = 5`,
`period = 5` and weight 1 satisfies `wcet <= deadline`, `wcet <= period` and
(type is not best-effort or `weight > 0`), yet the call does not return OK
with the DCB updated: it ends in the failed assertion on the task type. -/
theorem dispatcher_properties_type_counterexample :
    (1 ≤ 5 ∧ 1 ≤ 5 ∧ ((7 : Int) ≠ 0 ∨ 1 > 0)) ∧
    Option.isSome (demo_props.dcbs[(dispatcher_cap 1).dcb]?) = true ∧
    demo_properties demo_props (dispatcher_cap 1) 7 5 1 5 0 1 = .error .assert_failed ∧
    ¬ ∃ s', demo_properties demo_props (dispatcher_cap 1) 7 5 1 5 0 1
      = .ok (SYSRET SYS_ERR_OK, s') := by
  refine ⟨by decide, by decide, by decide, ?_⟩
  rintro ⟨s', h⟩
  have h2 : demo_properties demo_props (dispatcher_cap 1) 7 5 1 5 0 1
      = .error .assert_failed := by decide
  rw [h2] at h
  cases h

section PropertiesTheorems

variable (TASK_TYPE_BEST_EFFORT TASK_TYPE_HARD_REALTIME : Int)

/-- Without the RBED scheduler nothing but the type of `to` is tested, and
the call returns OK with the state unchanged. -/
theorem dispatcher_properties_no_rbed (s : PropState) (to_cap : capability) (type : Int)
    (deadline wcet period release weight : Nat) (hto : to_cap.type = .ObjType_Dispatcher) :
    sys_dispatcher_properties false TASK_TYPE_BEST_EFFORT TASK_TYPE_HARD_REALTIME s to_cap
      type deadline wcet period release weight = .ok (SYSRET SYS_ERR_OK, s) := by
  unfold sys_dispatcher_properties
  simp [hto]

/-- C22 (amended): effect of the scheduling-parameter update.  With the RBED
scheduler configured, for every dispatcher capability `to` of an existing DCB
and every input with the task type within best-effort..hard-real-time,
`wcet <= deadline`, `wcet <= period` and (type is not best-effort or
`weight > 0`): the call returns OK; it calls `scheduler_remove` on the DCB
while the DCB still has its old parameters and `make_runnable` when it has the
new ones, and makes no other call; on return the DCB has type, deadline, wcet,
period and weight equal to the arguments and `release_time` equal to `release`
when that is not 0 and to `kernel_now` when it is; no other DCB is changed. -/
theorem dispatcher_properties_effect (s : PropState) (to_cap : capability) (type : Int)
    (deadline wcet period release weight : Nat) (d : dcb_sched)
    (hto : to_cap.type = .ObjType_Dispatcher) (hd : s.dcbs[to_cap.dcb]? = some d)
    (htype : type ≥ TASK_TYPE_BEST_EFFORT ∧ type ≤ TASK_TYPE_HARD_REALTIME)
    (h1 : wcet ≤ deadline) (h2 : wcet ≤ period)
    (h3 : type ≠ TASK_TYPE_BEST_EFFORT ∨ weight > 0) :
    ∃ s', sys_dispatcher_properties true TASK_TYPE_BEST_EFFORT TASK_TYPE_HARD_REALTIME s
        to_cap type deadline wcet period release weight = .ok (SYSRET SYS_ERR_OK, s') ∧
      s'.dcbs[to_cap.dcb]? = some
        { type := type, deadline := deadline, wcet := wcet, period := period,
          release_time := if release = 0 then s.kernel_now else release, weight := weight } ∧
      s'.calls = .make_runnable to_cap.dcb
          { type := type, deadline := deadline, wcet := wcet, period := period,
            release_time := if release = 0 then s.kernel_now else release, weight := weight }
        :: .scheduler_remove to_cap.dcb d :: s.calls ∧
      (∀ p : Nat, p ≠ to_cap.dcb → s'.dcbs[p]? = s.dcbs[p]?) ∧
      s'.kernel_now = s.kernel_now := by
  refine ⟨PropState.mk
      (s.dcbs.set to_cap.dcb (dcb_sched.mk type deadline wcet period
        (if release = 0 then s.kernel_now else release) weight))
      s.kernel_now
      (.make_runnable to_cap.dcb (dcb_sched.mk type deadline wcet period
          (if release = 0 then s.kernel_now else release) weight)
        :: .scheduler_remove to_cap.dcb d :: s.calls), ?_, ?_, rfl, ?_, rfl⟩
  · unfold sys_dispatcher_properties
    simp only [hto, ne_eq, not_true_eq_false, if_false, Bool.not_true, Bool.false_eq_true,
      htype, and_self, h1, h2, h3, hd]
  · exact getElem?_set_self' s.dcbs to_cap.dcb d _ hd
  · intro p hp
    exact getElem?_set_other' s.dcbs to_cap.dcb p _ hp

end PropertiesTheorems

/-- C22 witness: a soft real-time task with deadline 20, wcet 5 and period
10, released at once, for the second DCB of `demo_props` at time 50. -/
theorem dispatcher_properties_effect_witness :
    ∃ s', demo_properties demo_props (dispatcher_cap 1) 1 20 5 10 0 3
        = .ok (SYSRET SYS_ERR_OK, s') ∧
      s'.dcbs[1]? = some
        { type := 1, deadline := 20, wcet := 5, period := 10, release_time := 50,
          weight := 3 } ∧
      s'.calls = [.make_runnable 1
          { type := 1, deadline := 20, wcet := 5, period := 10, release_time := 50,
            weight := 3 },
        .scheduler_remove 1 idle_sched] ∧
      (∀ p : Nat, p ≠ 1 → s'.dcbs[p]? = demo_props.dcbs[p]?) ∧
      s'.kernel_now = 50 :=
  dispatcher_properties_effect 0 2 demo_props (dispatcher_cap 1) 1 20 5 10 0 3 idle_sched
    rfl (by decide) (by decide) (by decide) (by decide) (by decide)

/-! ## Derivation by retype -/

section RetypeTheorems

variable (is_copy : capability → capability → Bool)
variable (ObjType_Num : Nat)
variable (objtype_value : objtype → Nat)
variable (caps_lookup_slot :
  DerivState → capability → Nat → Nat → CapRights → Except errval_t SlotPtr)
variable (caps_lookup_cap :
  DerivState → capability → Nat → Nat → CapRights → Except errval_t capability)

/-- A retype has at least one child, and every child is a descendant of the
source. -/
theorem retype_children_spec (hrefl : ∀ c, is_copy c c = true) (src : mdb_entry)
    (type : objtype) (objbits : Nat) (dest_cnode : capability) (dest_slot : Nat) :
    retype_children src type objbits dest_cnode dest_slot ≠ [] ∧
    ∀ k ∈ retype_children src type objbits dest_cnode dest_slot,
      is_descendant is_copy k src.cte.cap = true := by
  constructor
  · unfold retype_children
    intro h
    have hl := congrArg List.length h
    simp only [List.length_map, List.length_range, List.length_nil] at hl
    have : 0 < 2 ^ (src.cte.cap.bits - objbits) := Nat.pow_pos (by decide)
    omega
  · intro k hk
    unfold retype_children at hk
    simp only [List.mem_map, List.mem_range] at hk
    obtain ⟨i, _, rfl⟩ := hk
    simp [is_descendant, hrefl]

/-- The retype algorithm refuses a source that has a descendant, unless the
monitor calls, and changes nothing. -/
theorem caps_retype_conflict (s : DerivState) (type : objtype) (objbits : Nat)
    (dest_cnode_cap : capability) (dest_slot : Nat) (source_cap : SlotPtr) (src : mdb_entry)
    (hs : s.entry_at source_cap = some src)
    (hd : has_descendants is_copy s src.cte.cap = true) :
    caps_retype_spec is_copy s type objbits dest_cnode_cap dest_slot source_cap false
      = (derivation_conflict, s) := by
  unfold caps_retype_spec
  simp [hs, hd]

/-- After the retype algorithm has succeeded, the children are in the MDB. -/
theorem caps_retype_children (s s' : DerivState) (type : objtype) (objbits : Nat)
    (dest_cnode_cap : capability) (dest_slot : Nat) (source_cap : SlotPtr) (src : mdb_entry)
    (from_monitor : Bool) (hs : s.entry_at source_cap = some src)
    (h : caps_retype_spec is_copy s type objbits dest_cnode_cap dest_slot source_cap
      from_monitor = (SYS_ERR_OK, s')) :
    ∀ k ∈ retype_children src type objbits dest_cnode_cap dest_slot, k ∈ s'.entries := by
  unfold caps_retype_spec at h
  simp only [hs] at h
  split at h
  · cases h
  · split at h
    · cases h
    · cases h
      intro k hk
      have hmem : src ∈ s.entries := by
        unfold DerivState.entry_at at hs
        exact List.mem_of_find?_eq_some hs
      have hslot : src.slot = source_cap := by
        unfold DerivState.entry_at at hs
        have := List.find?_some hs
        simpa using this
      simp only [List.mem_flatMap]
      exact ⟨src, hmem, by rw [if_pos hslot]; exact List.mem_cons_of_mem _ hk⟩

/-- C23: retype exclusivity, for the retype algorithm modelled from the spec
and a reflexive `is_copy`.  After a successful `sys_retype` of the capability
C in the source slot, the children it made (at least one) are in the MDB and
are descendants of C.  In every later state in which one of those children is
still in the MDB, every `sys_retype` with `from_monitor = false` whose source
resolves to a slot holding C fails and changes nothing; and when the call
gets past the argument checks of `sys_retype` (a legal type, a destination
that resolves to a CNode) the error is the derivation conflict. -/
theorem retype_exclusivity (hrefl : ∀ c, is_copy c c = true) (s s' : DerivState)
    (root : capability) (source_cptr : Nat) (type : objtype)
    (objbits dest_cnode_cptr dest_slot dest_vbits : Nat) (from_monitor : Bool)
    (source_cap : SlotPtr) (src : mdb_entry) (dest_cnode_cap : capability)
    (hsrc : caps_lookup_slot s root source_cptr CPTR_BITS .CAPRIGHTS_READ = .ok source_cap)
    (he : s.entry_at source_cap = some src)
    (hdst : caps_lookup_cap s root dest_cnode_cptr dest_vbits .CAPRIGHTS_READ_WRITE
      = .ok dest_cnode_cap)
    (h1 : sys_retype ObjType_Num objtype_value caps_lookup_slot caps_lookup_cap
      (caps_retype_spec is_copy) s root source_cptr type objbits dest_cnode_cptr dest_slot
      dest_vbits from_monitor = (SYSRET SYS_ERR_OK, s')) :
    (retype_children src type objbits dest_cnode_cap dest_slot ≠ [] ∧
      ∀ k ∈ retype_children src type objbits dest_cnode_cap dest_slot,
        k ∈ s'.entries ∧ is_descendant is_copy k src.cte.cap = true) ∧
    ∀ t : DerivState,
      (∃ k ∈ retype_children src type objbits dest_cnode_cap dest_slot, k ∈ t.entries) →
      ∀ (root2 : capability) (source_cptr2 : Nat) (type2 : objtype)
        (objbits2 dest_cnode_cptr2 dest_slot2 dest_vbits2 : Nat) (source2 : SlotPtr)
        (src2 : mdb_entry),
        caps_lookup_slot t root2 source_cptr2 CPTR_BITS .CAPRIGHTS_READ = .ok source2 →
        t.entry_at source2 = some src2 → src2.cte.cap = src.cte.cap →
        (sys_retype ObjType_Num objtype_value caps_lookup_slot caps_lookup_cap
          (caps_retype_spec is_copy) t root2 source_cptr2 type2 objbits2 dest_cnode_cptr2
          dest_slot2 dest_vbits2 false).2 = t ∧
        (sys_retype ObjType_Num objtype_value caps_lookup_slot caps_lookup_cap
          (caps_retype_spec is_copy) t root2 source_cptr2 type2 objbits2 dest_cnode_cptr2
          dest_slot2 dest_vbits2 false).1.error ≠ SYS_ERR_OK ∧
        (¬ (type2 = .ObjType_Null ∨ ObjType_Num ≤ objtype_value type2) →
          ∀ dest2, caps_lookup_cap t root2 dest_cnode_cptr2 dest_vbits2 .CAPRIGHTS_READ_WRITE
              = .ok dest2 → dest2.type = .ObjType_CNode →
            (sys_retype ObjType_Num objtype_value caps_lookup_slot caps_lookup_cap
              (caps_retype_spec is_copy) t root2 source_cptr2 type2 objbits2 dest_cnode_cptr2
              dest_slot2 dest_vbits2 false).1 = SYSRET derivation_conflict) := by
  obtain ⟨hne, hdesc⟩ := retype_children_spec is_copy hrefl src type objbits dest_cnode_cap
    dest_slot
  refine ⟨⟨hne, fun k hk => ⟨?_, hdesc k hk⟩⟩, ?_⟩
  · -- the first call reached the retype algorithm, which succeeded
    unfold sys_retype at h1
    split at h1
    · cases h1
    · simp only [hsrc, hdst] at h1
      split at h1
      · cases h1
      · have hr : caps_retype_spec is_copy s type objbits dest_cnode_cap dest_slot source_cap
            from_monitor = (SYS_ERR_OK, s') := by
          have h2 := congrArg (fun x => x.1.error) h1
          have h3 := congrArg (fun x => x.2) h1
          simp only [SYSRET] at h2 h3
          exact Prod.ext h2 h3
        exact caps_retype_children is_copy s s' type objbits dest_cnode_cap dest_slot
          source_cap src from_monitor he hr k hk
  · intro t ⟨k, hk, hkt⟩ root2 source_cptr2 type2 objbits2 dcptr2 dslot2 dvbits2 source2 src2
      hsrc2 he2 hcap
    have hhas : has_descendants is_copy t src2.cte.cap = true := by
      unfold has_descendants
      rw [List.any_eq_true]
      exact ⟨k, hkt, by rw [hcap]; exact hdesc k hk⟩
    have hconf : ∀ (dc : capability), caps_retype_spec is_copy t type2 objbits2 dc dslot2
        source2 false = (derivation_conflict, t) :=
      fun dc => caps_retype_conflict is_copy t type2 objbits2 dc dslot2 source2 src2 he2 hhas
    by_cases hill : type2 = .ObjType_Null ∨ ObjType_Num ≤ objtype_value type2
    · have hval : sys_retype ObjType_Num objtype_value caps_lookup_slot caps_lookup_cap
          (caps_retype_spec is_copy) t root2 source_cptr2 type2 objbits2 dcptr2 dslot2 dvbits2
          false = (SYSRET [.SYS_ERR_ILLEGAL_DEST_TYPE], t) := by
        unfold sys_retype; rw [if_pos hill]
      rw [hval]
      exact ⟨rfl, by simp [SYSRET, SYS_ERR_OK], fun h => absurd hill h⟩
    · cases hd2 : caps_lookup_cap t root2 dcptr2 dvbits2 .CAPRIGHTS_READ_WRITE with
      | error err =>
        have hval : sys_retype ObjType_Num objtype_value caps_lookup_slot caps_lookup_cap
            (caps_retype_spec is_copy) t root2 source_cptr2 type2 objbits2 dcptr2 dslot2
            dvbits2 false = (SYSRET (err_push err .SYS_ERR_DEST_CNODE_LOOKUP), t) := by
          unfold sys_retype; rw [if_neg hill]; simp only [hsrc2, hd2]
        rw [hval]
        exact ⟨rfl, by simp [SYSRET, SYS_ERR_OK, err_push], fun _ d hd => by cases hd⟩
      | ok dc =>
        by_cases hcn : dc.type = .ObjType_CNode
        · have hval : sys_retype ObjType_Num objtype_value caps_lookup_slot caps_lookup_cap
              (caps_retype_spec is_copy) t root2 source_cptr2 type2 objbits2 dcptr2 dslot2
              dvbits2 false = (SYSRET derivation_conflict, t) := by
            unfold sys_retype; rw [if_neg hill]
            simp only [hsrc2, hd2, hcn, ne_eq, not_true_eq_false, if_false, hconf dc]
          rw [hval]
          exact ⟨rfl, by simp [SYSRET, SYS_ERR_OK, derivation_conflict], fun _ d hd _ => rfl⟩
        · have hval : sys_retype ObjType_Num objtype_value caps_lookup_slot caps_lookup_cap
              (caps_retype_spec is_copy) t root2 source_cptr2 type2 objbits2 dcptr2 dslot2
              dvbits2 false = (SYSRET [.SYS_ERR_DEST_CNODE_INVALID], t) := by
            unfold sys_retype; rw [if_neg hill]
            simp only [hsrc2, hd2, hcn, ne_eq, not_false_eq_true, if_true]
          rw [hval]
          refine ⟨rfl, by simp [SYSRET, SYS_ERR_OK], fun _ d hd hdc => ?_⟩
          cases hd
          exact absurd hdc hcn

end RetypeTheorems

/-- C23 witness on `demo_deriv`: the region in slot 3 is retyped into two
frames; a second retype of the region fails with the derivation conflict, also
after the first of the two frames has been removed from the MDB; once both are
gone the region can be retyped again. -/
theorem retype_exclusivity_witness :
    (deriv_retype demo_deriv 3 .ObjType_Frame 12 1 0 8 false).1 = SYSRET SYS_ERR_OK ∧
    (deriv_retype (deriv_retype demo_deriv 3 .ObjType_Frame 12 1 0 8 false).2
      3 .ObjType_Frame 12 1 4 8 false).1 = SYSRET derivation_conflict ∧
    (deriv_retype
      { entries := demo_deriv.entries ++
          (retype_children ram_entry .ObjType_Frame 12 (cnode_cap 200 8) 0).drop 1 }
      3 .ObjType_Frame 12 1 4 8 false).1 = SYSRET derivation_conflict ∧
    (deriv_retype demo_deriv 3 .ObjType_Frame 12 1 4 8 false).1 = SYSRET SYS_ERR_OK :=
  have h := retype_exclusivity is_copy_spec demo_ObjType_Num demo_objtype_value
    DerivState.lookup_slot DerivState.lookup_cap (by intro c; simp [is_copy_spec])
    demo_deriv (deriv_retype demo_deriv 3 .ObjType_Frame 12 1 0 8 false).2 (cnode_cap 100 8)
    3 .ObjType_Frame 12 1 0 8 false ⟨100, 3⟩ ram_entry (cnode_cap 200 8)
    (by decide) (by decide) (by decide) (by decide)
  ⟨by decide,
   (h.2 (deriv_retype demo_deriv 3 .ObjType_Frame 12 1 0 8 false).2
      ⟨_, List.mem_cons_self _ _, by decide⟩
      (cnode_cap 100 8) 3 .ObjType_Frame 12 1 4 8 ⟨100, 3⟩ ram_entry
      (by decide) (by decide) rfl).2.2 (by decide) (cnode_cap 200 8) (by decide) rfl,
   (h.2 { entries := demo_deriv.entries ++
            (retype_children ram_entry .ObjType_Frame 12 (cnode_cap 200 8) 0).drop 1 }
      ⟨_, List.mem_cons_of_mem _ (List.mem_cons_self _ _), by decide⟩
      (cnode_cap 100 8) 3 .ObjType_Frame 12 1 4 8 ⟨100, 3⟩ ram_entry
      (by decide) (by decide) rfl).2.2 (by decide) (cnode_cap 200 8) (by decide) rfl,
   by decide⟩

/-! ## The receive ring of the e1000 driver -/

/-- The accounting holds in the initial state. -/
theorem rx_inv_init : rx_inv rx_init := by
  unfold rx_inv rx_init DRIVER_RECEIVE_BUFFERS; simp

/-- A successful `add_desc` keeps the accounting. -/
theorem rx_inv_add_desc (s s1 : RxState) (h : rx_inv s) (ha : add_desc s = some s1) :
    rx_inv s1 := by
  unfold add_desc at ha
  split at ha
  · cases ha
  · rename_i hne
    cases ha
    unfold rx_inv DRIVER_RECEIVE_BUFFERS at *
    obtain ⟨h1, h2, h3, h4⟩ := h
    simp only
    omega

/-- `handle_next_received_packet` keeps the accounting, whichever exit it
takes. -/
theorem rx_inv_handle (s : RxState) (dd eop : Bool) (h : rx_inv s) :
    rx_inv (handle_next_received_packet s dd eop).2 := by
  unfold handle_next_received_packet
  split
  · exact h
  · split
    · rename_i hne _
      unfold rx_inv DRIVER_RECEIVE_BUFFERS at *
      obtain ⟨h1, h2, h3, h4⟩ := h
      simp only
      omega
    · exact h

/-- The accounting holds in every state that the receive path reaches. -/
theorem rx_inv_run (steps : List RxStep) : ∀ (s s1 : RxState), rx_inv s →
    rx_run s steps = some s1 → rx_inv s1 := by
  induction steps with
  | nil => intro s s1 h hr; simp [rx_run] at hr; rw [← hr]; exact h
  | cons a rest ih =>
    intro s s1 h hr
    cases a with
    | add_desc =>
      simp only [rx_run] at hr
      split at hr
      · cases hr
      · rename_i s2 h2
        exact ih s2 s1 (rx_inv_add_desc s s2 h h2) hr
    | handle_next_received_packet dd eop =>
      simp only [rx_run] at hr
      exact ih _ s1 (rx_inv_handle s dd eop h) hr

/-- In every state that keeps the accounting, `rx_find_free_slot_count_fn`
returns the size of the ring less `receive_free`. -/
theorem rx_free_slot_count (s : RxState) (h : rx_inv s) :
    rx_find_free_slot_count_fn s = DRIVER_RECEIVE_BUFFERS - s.receive_free := by
  unfold rx_find_free_slot_count_fn
  unfold rx_inv DRIVER_RECEIVE_BUFFERS at *
  omega

/-- In every state that keeps the accounting, the "no packets received" exit
is taken exactly when `receive_free` is 0 or the size of the ring. -/
theorem rx_no_packets_exit (s : RxState) (dd eop : Bool) (h : rx_inv s) :
    (handle_next_received_packet s dd eop).1 = .no_packets ↔
      (s.receive_free = 0 ∨ s.receive_free = DRIVER_RECEIVE_BUFFERS) := by
  have hiff : s.receive_bufptr = s.receive_index ↔
      (s.receive_free = 0 ∨ s.receive_free = DRIVER_RECEIVE_BUFFERS) := by
    unfold rx_inv DRIVER_RECEIVE_BUFFERS at *
    omega
  unfold handle_next_received_packet
  by_cases he : s.receive_bufptr = s.receive_index
  · simp only [he, if_true, true_iff]
    exact hiff.1 he
  · rw [if_neg he]
    constructor
    · intro h1
      split at h1 <;> cases h1
    · intro h1
      exact absurd (hiff.2 h1) he

/-- The state after `k` buffers have been registered and no packet has been
handled, for `k` up to the size of the ring. -/
theorem rx_run_add_desc (k : Nat) (hk : k ≤ DRIVER_RECEIVE_BUFFERS) :
    rx_run rx_init (List.replicate k .add_desc) =
      some (RxState.mk (k % DRIVER_RECEIVE_BUFFERS) 0 k) := by
  have key : ∀ (n j : Nat), j + n ≤ DRIVER_RECEIVE_BUFFERS →
      rx_run (RxState.mk (j % DRIVER_RECEIVE_BUFFERS) 0 j) (List.replicate n .add_desc) =
        some (RxState.mk ((j + n) % DRIVER_RECEIVE_BUFFERS) 0 (j + n)) := by
    intro n
    induction n with
    | zero => intro j _; rfl
    | succ n ih =>
      intro j hj
      have hstep : add_desc (RxState.mk (j % DRIVER_RECEIVE_BUFFERS) 0 j) =
          some (RxState.mk ((j + 1) % DRIVER_RECEIVE_BUFFERS) 0 (j + 1)) := by
        unfold add_desc
        have hne : ¬ j = DRIVER_RECEIVE_BUFFERS := by omega
        simp only [hne, if_false]
        unfold DRIVER_RECEIVE_BUFFERS at *
        congr 2
        · omega
        · omega
      rw [List.replicate_succ]
      simp only [rx_run, hstep]
      have := ih (j + 1) (by omega)
      rw [this]
      congr 2
      · congr 1; omega
      · omega
  have := key k 0 (by omega)
  simpa [rx_init, DRIVER_RECEIVE_BUFFERS] using this

/-- C28, failing input: 8192 calls of `add_desc` from the initial state, one
for each buffer of the ring, with no packet handled in between.  All of them
succeed; then `receive_free` is 8192, `rx_find_free_slot_count_fn` returns 0
and a further `add_desc` aborts, but `receive_index` has come round to
`receive_bufptr`: the difference of the two modulo the size of the ring is 0,
not `receive_free`, and `handle_next_received_packet` takes its "no packets
received" exit although the card has marked the descriptor as done. -/
theorem rx_full_ring_taken_for_empty :
    rx_run rx_init (List.replicate DRIVER_RECEIVE_BUFFERS .add_desc) =
      some { receive_index := 0, receive_bufptr := 0, receive_free := 8192 } ∧
    rx_find_free_slot_count_fn
      { receive_index := 0, receive_bufptr := 0, receive_free := 8192 } = 0 ∧
    add_desc { receive_index := 0, receive_bufptr := 0, receive_free := 8192 } = none ∧
    (0 + 2 ^ 32 - 0) % 2 ^ 32 % DRIVER_RECEIVE_BUFFERS ≠ 8192 ∧
    handle_next_received_packet
      { receive_index := 0, receive_bufptr := 0, receive_free := 8192 } true true =
      (.no_packets, { receive_index := 0, receive_bufptr := 0, receive_free := 8192 }) :=
  ⟨rx_run_add_desc DRIVER_RECEIVE_BUFFERS (Nat.le_refl _), by decide, by decide, by decide,
    by decide⟩

end Barrelfish
